import Mathlib

/-!
# libvirt-cim: capability resolution and association handlers

A shallow embedding of `src/Virt_SettingsDefineCapabilities.c`: the bound
resolver table (`mem_*`, `proc_*`, `net_*`, `disk_*`), the capability instance
builder (`sdc_rasd_inst`, `sdc_rasds_for_type`), the association handlers
(`alloc_cap_to_rasd`, `rasd_to_alloc_cap`, `migrate_cap_to_vsmsd`,
`vsmsd_to_migrate_cap`, `vsmc_to_vssd`) and the reference builder
`make_ref_valuerole`; and of `src/Virt_ResourceAllocationFromPool.c`: the pool
membership handlers `rasd_to_pool` and `pool_to_rasd` with `filter_by_pool` and
`rasds_from_pool`.

Conventions of the embedding.
* C strings are `String`; a `char *` that may be `NULL` is `Option String`.
* `uint16_t` / `uint64_t` / `unsigned long` values are `Nat`, a signed `int` is
  `Int`; a conversion that can wrap is written with an explicit `% 2 ^ 64`.
* A `CMPIStatus *s` in/out parameter is passed in and returned.
* `struct inst_list` is a `List CMPIInstance`; `inst_list_add` appends.
* The set of open hypervisor connections is explicit state (`conns`).
* Everything the file calls but does not define (libvirt, libcmpiutil helpers,
  `misc_util.c`, the pool and migration providers) is a field of `Host`, or of
  `PoolHost` for what only the pool membership handlers call.
* A function whose C body can dereference a `NULL` pointer returns an `Option`:
  `none` is that dereference, `some r` is a normal return.
-/

namespace LibvirtCim

/-! ## CMPI data types -/

/-- Return codes of `cmpidt.h` (`CMPIrc`). -/
abbrev CMPIrc := Nat

def CMPI_RC_OK : CMPIrc := 0
def CMPI_RC_ERR_FAILED : CMPIrc := 1
def CMPI_RC_ERR_NOT_SUPPORTED : CMPIrc := 7

/-- The struct `CMPIStatus` of CMPI: a return code and an optional message. -/
structure CMPIStatus where
  rc : CMPIrc
  msg : Option String
  deriving DecidableEq, Repr

/-- The call `cu_statusf(broker, &s, rc, fmt, ...)`: store a code and the formatted text. -/
def cu_statusf (rc : CMPIrc) (msg : String) : CMPIStatus := ⟨rc, some msg⟩

/-- The macro `CMSetStatus(&s, rc)`: store a code and clear the message. -/
def CMSetStatus (rc : CMPIrc) : CMPIStatus := ⟨rc, none⟩

/-- Type tags of `cmpidt.h` (`CMPIType`), as the bit patterns the header defines. -/
abbrev CMPIType := Nat

def CMPI_boolean : CMPIType := 2
def CMPI_uint16 : CMPIType := (8 + 1) <<< 4
def CMPI_uint64 : CMPIType := (8 + 3) <<< 4
def CMPI_INTEGER : CMPIType := ((8) <<< 4) ||| ((8 + 4) <<< 4)
def CMPI_string : CMPIType := (16 + 6) <<< 8
def CMPI_chars : CMPIType := (16 + 7) <<< 8

/-- What a `CMPIValue *` points at. `unset` stands for a value pointer that is
`NULL` or was never initialised. -/
inductive CMPIValue where
  | unset
  | chars (s : String)
  | boolean (b : Bool)
  | uint16 (n : Nat)
  | uint64 (n : Nat)
  deriving DecidableEq, Repr

/-- A `CMPIObjectPath`: class name, namespace and string-valued keys. -/
structure CMPIObjectPath where
  classname : String
  ns : String
  keys : List (String × String)
  deriving DecidableEq, Repr

/-- The macro `CLASSNAME(ref)`. -/
def CLASSNAME (ref : CMPIObjectPath) : String := ref.classname

/-- The macro `NAMESPACE(ref)`. -/
def NAMESPACE (ref : CMPIObjectPath) : String := ref.ns

/-- The call `cu_get_str_path(ref, key, &val)`: `some val` when it returns `CMPI_RC_OK`. -/
def cu_get_str_path (ref : CMPIObjectPath) (key : String) : Option String :=
  ref.keys.lookup key

/-- Property assignment on a property list: an existing entry is overwritten in
place, a new one is added at the end. -/
def setProp : List (String × CMPIValue) → String → CMPIValue → List (String × CMPIValue)
  | [], k, v => [(k, v)]
  | (k0, v0) :: ps, k, v => if k0 = k then (k, v) :: ps else (k0, v0) :: setProp ps k v

/-- Property lookup on a property list. -/
def getProp : List (String × CMPIValue) → String → Option CMPIValue
  | [], _ => none
  | (k0, v0) :: ps, k => if k0 = k then some v0 else getProp ps k

/-- A `CMPIInstance`: class name, namespace and current property values. -/
structure CMPIInstance where
  classname : String
  ns : String
  props : List (String × CMPIValue)
  deriving DecidableEq, Repr

/-- The macro `CMSetProperty(inst, name, value, type)` on a non-`NULL` instance. -/
def CMSetProperty (inst : CMPIInstance) (name : String) (value : CMPIValue) : CMPIInstance :=
  { inst with props := setProp inst.props name value }

/-- The value of a property of an instance, if it has been set. -/
def CMGetProperty (inst : CMPIInstance) (name : String) : Option CMPIValue :=
  getProp inst.props name

/-- The call `cu_get_str_prop(inst, prop, &target)`: `some target` when it returns `CMPI_RC_OK`. -/
def cu_get_str_prop (inst : CMPIInstance) (prop : String) : Option String :=
  match CMGetProperty inst prop with
  | some (CMPIValue.chars s) => some s
  | _ => none

/-- The call `cu_get_u64_prop(inst, prop, &target)`: `some target` when it returns `CMPI_RC_OK`. -/
def cu_get_u64_prop (inst : CMPIInstance) (prop : String) : Option Nat :=
  match CMGetProperty inst prop with
  | some (CMPIValue.uint64 n) => some n
  | _ => none

/-- The call `inst_list_add(list, inst)`. -/
def inst_list_add (list : List CMPIInstance) (inst : CMPIInstance) : List CMPIInstance :=
  list ++ [inst]

/-- The struct `std_assoc_info` of libcmpiutil: the filters of an association request. -/
structure std_assoc_info where
  assoc_class : Option String
  result_class : Option String
  role : Option String
  result_role : Option String
  deriving DecidableEq, Repr

/-- The data fields of the struct `std_assoc` of libcmpiutil. -/
structure std_assoc where
  source_class : List String
  source_prop : String
  target_class : List String
  target_prop : String
  assoc_class : List String
  deriving DecidableEq, Repr

/-! ## C string helpers -/

/-- The test `strstr(haystack, needle) != NULL` on character lists. -/
def strstr_chars : List Char → List Char → Bool
  | [], needle => needle.isEmpty
  | c :: hs, needle => needle.isPrefixOf (c :: hs) || strstr_chars hs needle

/-- The test `strstr(haystack, needle) != NULL`. -/
def strstr (haystack needle : String) : Bool := strstr_chars haystack.data needle.data

/-- The macro `STARTS_WITH(a, b)`, that is `strncmp(a, b, strlen(b)) == 0`. -/
def STARTS_WITH (a b : String) : Bool := b.data.isPrefixOf a.data

/-- The macro `STREQC(a, b)`, that is `strcasecmp(a, b) == 0`. -/
def STREQC (a b : String) : Bool := a.data.map Char.toLower == b.data.map Char.toLower

/-! ## The environment -/

/-- A `virConnectPtr` that is not `NULL`. -/
abbrev virConnectPtr := Nat

/-- The call `virConnectClose(conn)`: a non-`NULL` handle leaves the open set. -/
def virConnectClose (conn : Option virConnectPtr) (conns : List virConnectPtr) :
    List virConnectPtr :=
  match conn with
  | none => conns
  | some c => conns.erase c

/-- Everything `Virt_SettingsDefineCapabilities.c` uses without defining it.

* `connect_by_classname cn`: the handle returned (`none` is `NULL`) and the
  status stored through the out-parameter.
* `virConnectGetMaxVcpus conn`: the signed `int` result.
* `virConnectGetVersion conn`: the `int` return code and the version stored.
* `virConnectGetCapabilities conn`: the capabilities text (`none` is `NULL`).
* `pfx_from_conn`, `class_prefix_name`, `match_hypervisor_prefix`,
  `get_typed_instance`, `make_reference`: helpers of `misc_util.c` and
  libcmpiutil.
* `uuid_unparse k`: the text of the `k`-th UUID generated in a request.
* `get_pool_by_name`, `get_migration_caps`, `get_migration_sd`: the pool and
  migration providers; the instance is meaningful when the status is OK.
* `MAX_MEM`, `KVM_MAX_NICS`, `XEN_MAX_NICS`: constants of absent headers.
-/
structure Host where
  connect_by_classname : String → Option virConnectPtr × CMPIStatus
  virConnectGetMaxVcpus : virConnectPtr → Int
  virConnectGetVersion : Option virConnectPtr → Int × Nat
  virConnectGetCapabilities : virConnectPtr → Option String
  pfx_from_conn : virConnectPtr → String
  class_prefix_name : String → Option String
  uuid_unparse : Nat → String
  get_typed_instance : String → String → String → Option CMPIInstance
  make_reference : CMPIObjectPath → CMPIInstance → std_assoc_info → std_assoc →
    Option CMPIInstance
  match_hypervisor_prefix : CMPIObjectPath → std_assoc_info → Bool
  get_pool_by_name : CMPIObjectPath → String → CMPIStatus × CMPIInstance
  get_migration_caps : CMPIObjectPath → Bool → CMPIStatus × CMPIInstance
  get_migration_sd : CMPIObjectPath → Bool → CMPIStatus × CMPIInstance
  MAX_MEM : Nat
  KVM_MAX_NICS : Nat
  XEN_MAX_NICS : Nat

/-! ## Property bundles -/

/-- The struct `sdc_rasd_prop`: one (field, value, type) entry of a bundle. A
bundle is a list of entries; the `PROP_END` sentinel is the end of the list. -/
structure sdc_rasd_prop where
  field : String
  value : CMPIValue
  type : CMPIType
  deriving DecidableEq, Repr

/-- The function `rasd_prop_copy_value`: the success flag and the value stored
in the destination entry, which stays unset for a type that is neither a string
nor an integer. -/
def rasd_prop_copy_value (src : sdc_rasd_prop) : Bool × CMPIValue :=
  if src.type &&& CMPI_string ≠ 0 then (true, src.value)
  else if src.type &&& CMPI_INTEGER ≠ 0 then (true, src.value)
  else (false, CMPIValue.unset)

/-- The function `dup_rasd_prop_list`: every entry up to the sentinel is copied;
the result of the per-value copy is not looked at and the function returns true. -/
def dup_rasd_prop_list (src : List sdc_rasd_prop) : Bool × List sdc_rasd_prop :=
  (true, src.map fun p => { field := p.field, value := (rasd_prop_copy_value p).2, type := p.type })

/-- What a bound resolver hands back: the bundle (`none` is `NULL`), the status
and the open connections. -/
structure Resolved where
  rasd : Option (List sdc_rasd_prop)
  s : CMPIStatus
  conns : List virConnectPtr
  deriving DecidableEq, Repr

/-- The tail shared by every resolver: duplicate `tmp`, and on a failed copy set
the status to "Could not copy RASD". -/
def copy_rasd (tmp : List sdc_rasd_prop) (s : CMPIStatus) (conns : List virConnectPtr) :
    Resolved :=
  let r := dup_rasd_prop_list tmp
  { rasd := some r.2,
    s := if r.1 = false then cu_statusf CMPI_RC_ERR_FAILED "Could not copy RASD" else s,
    conns := conns }

/-- The type `rasd_prop_func_t` of a bound resolver. -/
abbrev rasd_prop_func_t := Host → CMPIObjectPath → CMPIStatus → List virConnectPtr → Resolved

/-! ## Bound resolvers -/

/-- The constants `SDC_DISK_MIN`, `SDC_DISK_DEF`, `SDC_DISK_INC`. -/
def SDC_DISK_MIN : Nat := 2000
def SDC_DISK_DEF : Nat := 5000
def SDC_DISK_INC : Nat := 250

def mem_max : rasd_prop_func_t := fun h _ref s conns =>
  let max_vq : Nat := h.MAX_MEM
  copy_rasd
    [⟨"InstanceID", CMPIValue.chars "Maximum", CMPI_chars⟩,
     ⟨"AllocationUnits", CMPIValue.chars "KiloBytes", CMPI_chars⟩,
     ⟨"VirtualQuantity", CMPIValue.uint64 max_vq, CMPI_uint64⟩] s conns

def mem_min : rasd_prop_func_t := fun _h _ref s conns =>
  let min_vq : Nat := 64 <<< 10
  copy_rasd
    [⟨"InstanceID", CMPIValue.chars "Minimum", CMPI_chars⟩,
     ⟨"AllocationUnits", CMPIValue.chars "KiloBytes", CMPI_chars⟩,
     ⟨"VirtualQuantity", CMPIValue.uint64 min_vq, CMPI_uint64⟩] s conns

def mem_def : rasd_prop_func_t := fun _h _ref s conns =>
  let def_vq : Nat := 256 <<< 10
  copy_rasd
    [⟨"InstanceID", CMPIValue.chars "Default", CMPI_chars⟩,
     ⟨"AllocationUnits", CMPIValue.chars "KiloBytes", CMPI_chars⟩,
     ⟨"VirtualQuantity", CMPIValue.uint64 def_vq, CMPI_uint64⟩] s conns

def mem_inc : rasd_prop_func_t := fun _h _ref s conns =>
  let inc_vq : Nat := 1 <<< 10
  copy_rasd
    [⟨"InstanceID", CMPIValue.chars "Increment", CMPI_chars⟩,
     ⟨"AllocationUnits", CMPIValue.chars "KiloBytes", CMPI_chars⟩,
     ⟨"VirtualQuantity", CMPIValue.uint64 inc_vq, CMPI_uint64⟩] s conns

def proc_min : rasd_prop_func_t := fun _h _ref s conns =>
  let num_procs : Nat := 1
  copy_rasd
    [⟨"InstanceID", CMPIValue.chars "Minimum", CMPI_chars⟩,
     ⟨"AllocationUnits", CMPIValue.chars "Processors", CMPI_chars⟩,
     ⟨"VirtualQuantity", CMPIValue.uint64 num_procs, CMPI_uint64⟩] s conns

/-- The resolver `proc_max`. The handle it opens is not closed on the path that
builds the bundle; the `int` result of `virConnectGetMaxVcpus` is stored in a
`uint64_t`. -/
def proc_max : rasd_prop_func_t := fun h ref _s conns =>
  let c := h.connect_by_classname (CLASSNAME ref)
  match c.1 with
  | none =>
    { rasd := none,
      s := cu_statusf CMPI_RC_ERR_FAILED "Could not connect to hypervisor",
      conns := conns }
  | some conn =>
    let num_procs : Nat := (h.virConnectGetMaxVcpus conn % 2 ^ 64).toNat
    copy_rasd
      [⟨"InstanceID", CMPIValue.chars "Maximum", CMPI_chars⟩,
       ⟨"AllocationUnits", CMPIValue.chars "Processors", CMPI_chars⟩,
       ⟨"VirtualQuantity", CMPIValue.uint64 num_procs, CMPI_uint64⟩] c.2 (conn :: conns)

def proc_def : rasd_prop_func_t := fun _h _ref s conns =>
  let num_procs : Nat := 1
  copy_rasd
    [⟨"InstanceID", CMPIValue.chars "Default", CMPI_chars⟩,
     ⟨"AllocationUnits", CMPIValue.chars "Processors", CMPI_chars⟩,
     ⟨"VirtualQuantity", CMPIValue.uint64 num_procs, CMPI_uint64⟩] s conns

def proc_inc : rasd_prop_func_t := fun _h _ref s conns =>
  let num_procs : Nat := 1
  copy_rasd
    [⟨"InstanceID", CMPIValue.chars "Increment", CMPI_chars⟩,
     ⟨"AllocationUnits", CMPIValue.chars "Processors", CMPI_chars⟩,
     ⟨"VirtualQuantity", CMPIValue.uint64 num_procs, CMPI_uint64⟩] s conns

def net_min : rasd_prop_func_t := fun _h _ref s conns =>
  let num_nics : Nat := 0
  copy_rasd
    [⟨"InstanceID", CMPIValue.chars "Minimum", CMPI_chars⟩,
     ⟨"VirtualQuantity", CMPIValue.uint64 num_nics, CMPI_uint64⟩] s conns

/-- The function `net_max_kvm`: the constant, the status untouched. -/
def net_max_kvm (h : Host) (_ref : CMPIObjectPath) (s : CMPIStatus)
    (conns : List virConnectPtr) : Nat × CMPIStatus × List virConnectPtr :=
  (h.KVM_MAX_NICS, s, conns)

/-- The function `net_max_xen`: `num_nics` starts as `(uint64_t)-1`; the handle
is closed on every path. -/
def net_max_xen (h : Host) (ref : CMPIObjectPath) (_s : CMPIStatus)
    (conns : List virConnectPtr) : Nat × CMPIStatus × List virConnectPtr :=
  let num_nics : Nat := 2 ^ 64 - 1
  let c := h.connect_by_classname (CLASSNAME ref)
  let conns1 := match c.1 with
    | none => conns
    | some conn => conn :: conns
  if c.2.rc ≠ CMPI_RC_OK then
    (num_nics, cu_statusf CMPI_RC_ERR_FAILED "Could not get connection",
      virConnectClose c.1 conns1)
  else
    let v := h.virConnectGetVersion c.1
    if v.1 ≠ 0 then
      (num_nics, cu_statusf CMPI_RC_ERR_FAILED "Could not get xen version",
        virConnectClose c.1 conns1)
    else if v.2 ≥ 3001000 then
      (h.XEN_MAX_NICS, c.2, virConnectClose c.1 conns1)
    else
      (4, c.2, virConnectClose c.1 conns1)

/-- The tail of `net_max` after the backend dispatch. -/
def net_max_tail (r : Nat × CMPIStatus × List virConnectPtr) : Resolved :=
  if r.2.1.rc ≠ CMPI_RC_OK then
    { rasd := none,
      s := cu_statusf CMPI_RC_ERR_FAILED "Could not get max nic count",
      conns := r.2.2 }
  else
    copy_rasd
      [⟨"InstanceID", CMPIValue.chars "Maximum", CMPI_chars⟩,
       ⟨"VirtualQuantity", CMPIValue.uint64 r.1, CMPI_uint64⟩] r.2.1 r.2.2

def net_max : rasd_prop_func_t := fun h ref s conns =>
  match h.class_prefix_name (CLASSNAME ref) with
  | none =>
    { rasd := none,
      s := cu_statusf CMPI_RC_ERR_FAILED "Could not get prefix from reference",
      conns := conns }
  | some pfx =>
    if STREQC pfx "Xen" then net_max_tail (net_max_xen h ref s conns)
    else if STREQC pfx "KVM" then net_max_tail (net_max_kvm h ref s conns)
    else
      { rasd := none,
        s := cu_statusf CMPI_RC_ERR_NOT_SUPPORTED ("Unsupported hypervisor: '" ++ pfx ++ "'"),
        conns := conns }

def net_def : rasd_prop_func_t := fun _h _ref s conns =>
  let num_nics : Nat := 1
  copy_rasd
    [⟨"InstanceID", CMPIValue.chars "Default", CMPI_chars⟩,
     ⟨"VirtualQuantity", CMPIValue.uint64 num_nics, CMPI_uint64⟩] s conns

def net_inc : rasd_prop_func_t := fun _h _ref s conns =>
  let num_nics : Nat := 1
  copy_rasd
    [⟨"InstanceID", CMPIValue.chars "Increment", CMPI_chars⟩,
     ⟨"VirtualQuantity", CMPIValue.uint64 num_nics, CMPI_uint64⟩] s conns

def disk_min : rasd_prop_func_t := fun _h _ref s conns =>
  let disk_size : Nat := SDC_DISK_MIN
  copy_rasd
    [⟨"InstanceID", CMPIValue.chars "Minimum", CMPI_chars⟩,
     ⟨"AllocationQuantity", CMPIValue.chars "MegaBytes", CMPI_chars⟩,
     ⟨"VirtualQuantity", CMPIValue.uint64 disk_size, CMPI_uint64⟩] s conns

/-- The resolver `disk_max`. The handle it opens is used by nothing and closed on
no path. -/
def disk_max : rasd_prop_func_t := fun h ref _s conns =>
  match cu_get_str_path ref "InstanceID" with
  | none =>
    { rasd := none, s := cu_statusf CMPI_RC_ERR_FAILED "Could not get InstanceID",
      conns := conns }
  | some inst_id =>
    let c := h.connect_by_classname (CLASSNAME ref)
    let conns1 := match c.1 with
      | none => conns
      | some conn => conn :: conns
    if c.2.rc ≠ CMPI_RC_OK then
      { rasd := none, s := cu_statusf CMPI_RC_ERR_FAILED "Could not get connection",
        conns := conns1 }
    else
      let p := h.get_pool_by_name ref inst_id
      if p.1.rc ≠ CMPI_RC_OK then
        { rasd := none, s := p.1, conns := conns1 }
      else
        match cu_get_u64_prop p.2 "Capacity" with
        | none =>
          { rasd := none,
            s := cu_statusf CMPI_RC_ERR_FAILED "Could not get capacity from instance",
            conns := conns1 }
        | some free_space =>
          copy_rasd
            [⟨"InstanceID", CMPIValue.chars "Maximum", CMPI_chars⟩,
             ⟨"AllocationQuantity", CMPIValue.chars "MegaBytes", CMPI_chars⟩,
             ⟨"VirtualQuantity", CMPIValue.uint64 free_space, CMPI_uint64⟩] p.1 conns1

def disk_def : rasd_prop_func_t := fun _h _ref s conns =>
  let disk_size : Nat := SDC_DISK_DEF
  copy_rasd
    [⟨"InstanceID", CMPIValue.chars "Default", CMPI_chars⟩,
     ⟨"AllocationQuantity", CMPIValue.chars "MegaBytes", CMPI_chars⟩,
     ⟨"VirtualQuantity", CMPIValue.uint64 disk_size, CMPI_uint64⟩] s conns

def disk_inc : rasd_prop_func_t := fun _h _ref s conns =>
  let disk_size : Nat := SDC_DISK_INC
  copy_rasd
    [⟨"InstanceID", CMPIValue.chars "Increment", CMPI_chars⟩,
     ⟨"AllocationQuantity", CMPIValue.chars "MegaBytes", CMPI_chars⟩,
     ⟨"VirtualQuantity", CMPIValue.uint64 disk_size, CMPI_uint64⟩] s conns

/-! ## The resolver table and the capability instance builder -/

/-- Modelled from the spec: `svpc_types.h` is not among the sources. The spec's
data model gives ResourceType as the enumeration Memory, Processor, Network,
Disk, Unknown; the codes are those of the CIM ResourceType property, and only
their being distinct is used. -/
def CIM_RES_TYPE_PROC : Nat := 3
def CIM_RES_TYPE_MEM : Nat := 4
def CIM_RES_TYPE_NET : Nat := 10
def CIM_RES_TYPE_DISK : Nat := 17
def CIM_RES_TYPE_UNKNOWN : Nat := 1000

/-- Modelled from the spec: the enum `sdc_rasd_type` is declared in the absent
header `Virt_SettingsDefineCapabilities.h`. The spec's data model gives
BoundKind as the enumeration Minimum, Maximum, Default, Increment, in this
order, so the values are numbered 0 to 3 in this order. -/
def SDC_RASD_MIN : Nat := 0
def SDC_RASD_MAX : Nat := 1
def SDC_RASD_DEF : Nat := 2
def SDC_RASD_INC : Nat := 3

/-- The struct `sdc_rasd`: a resource type and its four resolver slots (`none`
is a `NULL` slot). -/
structure sdc_rasd where
  resource_type : Nat
  min : Option rasd_prop_func_t
  max : Option rasd_prop_func_t
  def_ : Option rasd_prop_func_t
  inc : Option rasd_prop_func_t

def mem : sdc_rasd :=
  { resource_type := CIM_RES_TYPE_MEM,
    min := some mem_min, max := some mem_max, def_ := some mem_def, inc := some mem_inc }

def processor : sdc_rasd :=
  { resource_type := CIM_RES_TYPE_PROC,
    min := some proc_min, max := some proc_max, def_ := some proc_def, inc := some proc_inc }

def network : sdc_rasd :=
  { resource_type := CIM_RES_TYPE_NET,
    min := some net_min, max := some net_max, def_ := some net_def, inc := some net_inc }

def disk : sdc_rasd :=
  { resource_type := CIM_RES_TYPE_DISK,
    min := some disk_min, max := some disk_max, def_ := some disk_def, inc := some disk_inc }

def sdc_rasd_list : List sdc_rasd := [mem, processor, network, disk]
/-- Modelled from the spec: `rasd_classname_from_type` lives in the absent
`Virt_RASD.c`. The spec says a resource type either has a class-name mapping or
the builder fails; the four base names are those of the `part_component` table
of this file, and every other type has no mapping (`none` is a non-OK return). -/
def rasd_classname_from_type (type : Nat) : Option String :=
  if type = CIM_RES_TYPE_MEM then some "MemResourceAllocationSettingData"
  else if type = CIM_RES_TYPE_PROC then some "ProcResourceAllocationSettingData"
  else if type = CIM_RES_TYPE_NET then some "NetResourceAllocationSettingData"
  else if type = CIM_RES_TYPE_DISK then some "DiskResourceAllocationSettingData"
  else none

/-- Modelled from the spec: `res_type_from_pool_id` lives in the absent
`Virt_DevicePool.c`. The spec says a pool identifier has one of the recognized
prefixes ProcessorPool, MemoryPool, NetworkPool, DiskPool, which classifies the
ResourceType it governs; any other identifier is of unknown type. -/
def res_type_from_pool_id (id : String) : Nat :=
  if STARTS_WITH id "ProcessorPool" then CIM_RES_TYPE_PROC
  else if STARTS_WITH id "MemoryPool" then CIM_RES_TYPE_MEM
  else if STARTS_WITH id "NetworkPool" then CIM_RES_TYPE_NET
  else if STARTS_WITH id "DiskPool" then CIM_RES_TYPE_DISK
  else CIM_RES_TYPE_UNKNOWN

/-- What `sdc_rasd_inst` hands back: the instance (`none` is `NULL`), the status
and the open connections. -/
structure Built where
  inst : Option CMPIInstance
  s : CMPIStatus
  conns : List virConnectPtr
  deriving DecidableEq, Repr

/-- The `switch` of `sdc_rasd_inst`: the slot and the InstanceID text selected
by `type`, or `none` in the `default` case. -/
def sdc_rasd_switch (rasd : sdc_rasd) (type : Nat) : Option (Option rasd_prop_func_t × String) :=
  if type = SDC_RASD_MIN then some (rasd.min, "Minimum")
  else if type = SDC_RASD_MAX then some (rasd.max, "Maximum")
  else if type = SDC_RASD_INC then some (rasd.inc, "Increment")
  else if type = SDC_RASD_DEF then some (rasd.def_, "Default")
  else none

/-- The loop of `sdc_rasd_inst` that sets every field of the bundle on the instance. -/
def set_rasd_props (inst : CMPIInstance) (prop_list : List sdc_rasd_prop) : CMPIInstance :=
  prop_list.foldl (fun i p => CMSetProperty i p.field p.value) inst

/-- The function `sdc_rasd_inst`. The result of `get_typed_instance` and the
bundle are used without a `NULL` test: the result is `none` when one of them is
`NULL` at that point. -/
def sdc_rasd_inst (h : Host) (s : CMPIStatus) (conns : List virConnectPtr)
    (ref : CMPIObjectPath) (rasd : sdc_rasd) (type : Nat) : Option Built :=
  match sdc_rasd_switch rasd type with
  | none =>
    some { inst := none, s := cu_statusf CMPI_RC_ERR_FAILED "Unsupported sdc_rasd type",
           conns := conns }
  | some (none, _) => some { inst := none, s := s, conns := conns }
  | some (some f, inst_id) =>
    let r := f h ref s conns
    if r.s.rc ≠ CMPI_RC_OK then some { inst := none, s := r.s, conns := r.conns }
    else
      match rasd_classname_from_type rasd.resource_type with
      | none =>
        some { inst := none, s := cu_statusf CMPI_RC_ERR_FAILED "Resource type not known",
               conns := r.conns }
      | some base =>
        match h.get_typed_instance (CLASSNAME ref) base (NAMESPACE ref), r.rasd with
        | some inst, some prop_list =>
          let inst1 := CMSetProperty inst "InstanceID" (CMPIValue.chars inst_id)
          let inst2 := CMSetProperty inst1 "ResourceType" (CMPIValue.uint16 rasd.resource_type)
          some { inst := some (set_rasd_props inst2 prop_list), s := r.s, conns := r.conns }
        | _, _ => none

/-- What an association handler hands back: the status, the result list and
the connections that are open. -/
structure Handled where
  s : CMPIStatus
  list : List CMPIInstance
  conns : List virConnectPtr
  deriving DecidableEq, Repr

/-- The loop of `sdc_rasds_for_type` over the values `i` of `sdc_rasd_type`. -/
def sdc_rasds_loop (h : Host) (ref : CMPIObjectPath) (rasd : sdc_rasd) :
    List Nat → CMPIStatus → List CMPIInstance → List virConnectPtr → Option Handled
  | [], s, list, conns => some { s := s, list := list, conns := conns }
  | i :: rest, s, list, conns =>
    match sdc_rasd_inst h s conns ref rasd i with
    | none => none
    | some b =>
      if b.s.rc ≠ CMPI_RC_OK then some { s := b.s, list := list, conns := b.conns }
      else
        match b.inst with
        | some inst => sdc_rasds_loop h ref rasd rest b.s (inst_list_add list inst) b.conns
        | none => sdc_rasds_loop h ref rasd rest b.s list b.conns

/-- The function `sdc_rasds_for_type`: the first descriptor of `sdc_rasd_list`
with the given type, then `i` from `SDC_RASD_MIN` to `SDC_RASD_INC` inclusive. -/
def sdc_rasds_for_type (h : Host) (ref : CMPIObjectPath) (list : List CMPIInstance)
    (type : Nat) (conns : List virConnectPtr) : Option Handled :=
  match sdc_rasd_list.find? (fun r => r.resource_type == type) with
  | some rasd =>
    sdc_rasds_loop h ref rasd (List.range' SDC_RASD_MIN (SDC_RASD_INC + 1 - SDC_RASD_MIN))
      ⟨CMPI_RC_OK, none⟩ list conns
  | none =>
    some { s := cu_statusf CMPI_RC_ERR_FAILED "Unsupported device type", list := list,
           conns := conns }

/-! ## Association handlers -/

/-- The handler `alloc_cap_to_rasd`. After `sdc_rasds_for_type` returns, PoolID
is set on every instance of the list, whatever the status. -/
def alloc_cap_to_rasd (h : Host) (ref : CMPIObjectPath) (info : std_assoc_info)
    (list : List CMPIInstance) (conns : List virConnectPtr) : Option Handled :=
  if ( Host.match_hypervisor_prefix h ref info) = false then
    some { s := ⟨CMPI_RC_OK, none⟩, list := list, conns := conns }
  else
    match cu_get_str_path ref "InstanceID" with
    | none =>
      some { s := cu_statusf CMPI_RC_ERR_FAILED "Missing InstanceID", list := list,
             conns := conns }
    | some id =>
      let type := res_type_from_pool_id id
      if type = CIM_RES_TYPE_UNKNOWN then
        some { s := cu_statusf CMPI_RC_ERR_FAILED "Unable to determine resource type",
               list := list, conns := conns }
      else
        match sdc_rasds_for_type h ref list type conns with
        | none => none
        | some r =>
          some { s := r.s,
                 list := r.list.map fun i => CMSetProperty i "PoolID" (CMPIValue.chars id),
                 conns := r.conns }

/-- Modelled from the spec: the macro `RETURN_UNSUPPORTED()` is defined in an
absent header. The spec says the unsupported direction must report "not
supported" and never a result list: the macro returns the status
`{CMPI_RC_ERR_NOT_SUPPORTED, NULL}` and touches nothing else. -/
def RETURN_UNSUPPORTED : CMPIStatus := ⟨CMPI_RC_ERR_NOT_SUPPORTED, none⟩

/-- The handler `rasd_to_alloc_cap`: `RETURN_UNSUPPORTED()`. -/
def rasd_to_alloc_cap (_h : Host) (_ref : CMPIObjectPath) (_info : std_assoc_info)
    (list : List CMPIInstance) (conns : List virConnectPtr) : Handled :=
  { s := RETURN_UNSUPPORTED, list := list, conns := conns }

/-- The handler `migrate_cap_to_vsmsd`. -/
def migrate_cap_to_vsmsd (h : Host) (ref : CMPIObjectPath) (info : std_assoc_info)
    (list : List CMPIInstance) (conns : List virConnectPtr) : Handled :=
  if ( Host.match_hypervisor_prefix h ref info) = false then
    { s := ⟨CMPI_RC_OK, none⟩, list := list, conns := conns }
  else
    let caps := h.get_migration_caps ref true
    if caps.1.rc ≠ CMPI_RC_OK then { s := caps.1, list := list, conns := conns }
    else
      let sd := h.get_migration_sd ref false
      if sd.1.rc = CMPI_RC_OK then
        { s := sd.1, list := inst_list_add list sd.2, conns := conns }
      else { s := sd.1, list := list, conns := conns }

/-- The handler `vsmsd_to_migrate_cap`. -/
def vsmsd_to_migrate_cap (h : Host) (ref : CMPIObjectPath) (info : std_assoc_info)
    (list : List CMPIInstance) (conns : List virConnectPtr) : Handled :=
  if ( Host.match_hypervisor_prefix h ref info) = false then
    { s := ⟨CMPI_RC_OK, none⟩, list := list, conns := conns }
  else
    let sd := h.get_migration_sd ref true
    if sd.1.rc ≠ CMPI_RC_OK then { s := sd.1, list := list, conns := conns }
    else
      let caps := h.get_migration_caps ref false
      if caps.1.rc = CMPI_RC_OK then
        { s := caps.1, list := inst_list_add list caps.2, conns := conns }
      else { s := caps.1, list := list, conns := conns }

/-! ## The VSSD variant generator -/

/-- The function `system_has_vt`. -/
def system_has_vt (h : Host) (conn : virConnectPtr) : Bool :=
  match h.virConnectGetCapabilities conn with
  | some caps => strstr caps "hvm"
  | none => false

/-- The function `default_vssd_instance`; `k` counts the UUIDs generated so far
in the request. -/
def default_vssd_instance (h : Host) (pfx ns : String) (k : Nat) : Option CMPIInstance :=
  let uuidstr := h.uuid_unparse k
  let iid := pfx ++ ":" ++ uuidstr
  match h.get_typed_instance pfx "VirtualSystemSettingData" ns with
  | none => none
  | some inst => some (CMSetProperty inst "InstanceID" (CMPIValue.chars iid))

/-- The function `_xen_base_vssd`. -/
def _xen_base_vssd (h : Host) (conn : virConnectPtr) (ns name : String) (k : Nat) :
    Option CMPIInstance :=
  match default_vssd_instance h (h.pfx_from_conn conn) ns k with
  | none => none
  | some inst => some (CMSetProperty inst "VirtualSystemIdentifier" (CMPIValue.chars name))

/-- The status of the `error:` label of the VSSD generators. -/
def vssd_error (h : Host) (conn : virConnectPtr) : CMPIStatus :=
  cu_statusf CMPI_RC_ERR_FAILED ("Unable to create " ++ h.pfx_from_conn conn ++ "_VSSD instance")

/-- The function `_xen_vsmc_to_vssd`. -/
def _xen_vsmc_to_vssd (h : Host) (conn : virConnectPtr) (ns : String)
    (list : List CMPIInstance) : CMPIStatus × List CMPIInstance :=
  match _xen_base_vssd h conn ns "Xen_Paravirt_Guest" 0 with
  | none => (vssd_error h conn, list)
  | some inst =>
    let inst1 := CMSetProperty inst "Bootloader" (CMPIValue.chars "/usr/bin/pygrub")
    let inst2 := CMSetProperty inst1 "isFullVirt" (CMPIValue.boolean false)
    let list1 := inst_list_add list inst2
    if system_has_vt h conn then
      match _xen_base_vssd h conn ns "Xen_Fullvirt_Guest" 1 with
      | none => (vssd_error h conn, list1)
      | some fv =>
        let fv1 := CMSetProperty fv "BootDevice" (CMPIValue.chars "hda")
        let fv2 := CMSetProperty fv1 "isFullVirt" (CMPIValue.boolean true)
        (⟨CMPI_RC_OK, none⟩, inst_list_add list1 fv2)
    else (⟨CMPI_RC_OK, none⟩, list1)

/-- The function `_kvm_vsmc_to_vssd`. -/
def _kvm_vsmc_to_vssd (h : Host) (conn : virConnectPtr) (ns : String)
    (list : List CMPIInstance) : CMPIStatus × List CMPIInstance :=
  match default_vssd_instance h (h.pfx_from_conn conn) ns 0 with
  | none => (vssd_error h conn, list)
  | some inst =>
    let inst1 := CMSetProperty inst "VirtualSystemIdentifier" (CMPIValue.chars "KVM_guest")
    let inst2 := CMSetProperty inst1 "BootDevice" (CMPIValue.chars "hda")
    (⟨CMPI_RC_OK, none⟩, inst_list_add list inst2)

/-- The function `_lxc_vsmc_to_vssd`. -/
def _lxc_vsmc_to_vssd (h : Host) (conn : virConnectPtr) (ns : String)
    (list : List CMPIInstance) : CMPIStatus × List CMPIInstance :=
  match default_vssd_instance h (h.pfx_from_conn conn) ns 0 with
  | none => (vssd_error h conn, list)
  | some inst =>
    let inst1 := CMSetProperty inst "InitPath" (CMPIValue.chars "/sbin/init")
    (⟨CMPI_RC_OK, none⟩, inst_list_add list inst1)

/-- The handler `vsmc_to_vssd`. It has no `match_hypervisor_prefix` test; the
status is the one `connect_by_classname` stored unless a generator replaces it. -/
def vsmc_to_vssd (h : Host) (ref : CMPIObjectPath) (_info : std_assoc_info)
    (list : List CMPIInstance) (conns : List virConnectPtr) : Handled :=
  let cn := CLASSNAME ref
  let ns := NAMESPACE ref
  let c := h.connect_by_classname cn
  match c.1 with
  | none => { s := c.2, list := list, conns := virConnectClose none conns }
  | some conn =>
    let r :=
      if STARTS_WITH cn "Xen" then _xen_vsmc_to_vssd h conn ns list
      else if STARTS_WITH cn "KVM" then _kvm_vsmc_to_vssd h conn ns list
      else if STARTS_WITH cn "LXC" then _lxc_vsmc_to_vssd h conn ns list
      else (cu_statusf CMPI_RC_ERR_FAILED "Invalid reference", list)
    { s := r.1, list := r.2, conns := virConnectClose (some conn) (conn :: conns) }

/-! ## The reference builder -/

/-- Modelled from the spec: the `SDC_ROLE_*`, `SDC_RANGE_*` and `SDC_POLICY_*`
constants are defined in the absent header. The spec names the classifications
(point/default, minimum, maximum, increment), the roles Default and Supported
and the policy Independent; they are given distinct codes here. -/
def SDC_ROLE_DEFAULT : Nat := 0
def SDC_ROLE_SUPPORTED : Nat := 3
def SDC_RANGE_POINT : Nat := 0
def SDC_RANGE_MIN : Nat := 1
def SDC_RANGE_MAX : Nat := 2
def SDC_RANGE_INC : Nat := 3
def SDC_POLICY_INDEPENDENT : Nat := 0

/-- The `if` chain of `make_ref_valuerole` that assigns `valuerange`; the local
is not initialised, `valuerange0` is the value it happens to hold. Each test is
`strstr(token, iid)`: the token is the text searched, `iid` the text looked for. -/
def classify_valuerange (iid : String) (valuerange0 : Nat) : Nat :=
  if strstr "Default" iid then SDC_RANGE_POINT
  else if strstr "Increment" iid then SDC_RANGE_INC
  else if strstr "Maximum" iid then SDC_RANGE_MAX
  else if strstr "Minimum" iid then SDC_RANGE_MIN
  else valuerange0

/-- The function `make_ref_valuerole`. The outer `none` is `CMSetProperty` on a
`NULL` reference instance; the inner option is the pointer returned. -/
def make_ref_valuerole (h : Host) (source_ref : CMPIObjectPath) (target_inst : CMPIInstance)
    (info : std_assoc_info) (assoc : std_assoc) (valuerange0 : Nat) :
    Option (Option CMPIInstance) :=
  let ref_inst := h.make_reference source_ref target_inst info assoc
  match cu_get_str_prop target_inst "InstanceID" with
  | none => some ref_inst
  | some iid =>
    let valuerange := classify_valuerange iid valuerange0
    let valuerole := if valuerange = SDC_RANGE_POINT then SDC_ROLE_DEFAULT else SDC_ROLE_SUPPORTED
    let ppolicy := SDC_POLICY_INDEPENDENT
    match ref_inst with
    | none => none
    | some r =>
      let r1 := CMSetProperty r "ValueRole" (CMPIValue.uint16 valuerole)
      let r2 := CMSetProperty r1 "ValueRange" (CMPIValue.uint16 valuerange)
      some (some (CMSetProperty r2 "PropertyPolicy" (CMPIValue.uint16 ppolicy)))

/-! ## Pool membership: `Virt_ResourceAllocationFromPool.c` -/

/-- A `virDomainPtr` that is not `NULL`. -/
abbrev virDomainPtr := Nat

/-- What `Virt_ResourceAllocationFromPool.c` uses without defining it, on top of
`Host`.

* `rasd_type_from_classname cn`: the type stored when the call returns
  `CMPI_RC_OK`, `none` otherwise.
* `pool_member_of refcn type id`: the pool identifier (`none` is `NULL`); `id`
  is `none` when the caller passes a `NULL` identifier.
* `get_pool_by_id conn poolid ns`: the pool instance (`none` is `NULL`).
* `get_domain_list conn`: the domains `doms[0]`, ..., `doms[count - 1]` the
  call stores, none when the count it returns is not positive.
* `get_domain_list_rc conn`: the `int` that same call returns, the count of the
  domains stored or a negative value when it fails.
* `virDomainGetName dom`: the name of the domain (`none` is `NULL`).
* `rasds_for_domain name type ref`: the instances the call leaves in the list
  it is given, whatever it returns.
* `rasds_for_domain_rc name type ref`: the `int` that same call returns.
-/
structure PoolHost extends Host where
  rasd_type_from_classname : String → Option Nat
  pool_member_of : String → Nat → Option String → Option String
  get_pool_by_id : virConnectPtr → String → String → Option CMPIInstance
  get_domain_list : virConnectPtr → List virDomainPtr
  get_domain_list_rc : virConnectPtr → Int
  virDomainGetName : virDomainPtr → Option String
  rasds_for_domain : Option String → Nat → CMPIObjectPath → List CMPIInstance
  rasds_for_domain_rc : Option String → Nat → CMPIObjectPath → Int

/-- Modelled from the spec: the `CIM_RASD_TYPE_*` constants are defined in an
absent header. They name the same ResourceType enumeration as `CIM_RES_TYPE_*`
and are given the same codes. -/
def CIM_RASD_TYPE_PROC : Nat := 3
def CIM_RASD_TYPE_MEM : Nat := 4
def CIM_RASD_TYPE_NET : Nat := 10
def CIM_RASD_TYPE_DISK : Nat := 17

/-- The call `CMGetObjectPath(inst, NULL)`: the path of an instance names its
class and namespace and carries its InstanceID, when it has one, as key. -/
def CMGetObjectPath (inst : CMPIInstance) : Option CMPIObjectPath :=
  some { classname := inst.classname, ns := inst.ns,
         keys := match cu_get_str_prop inst "InstanceID" with
           | some id => [("InstanceID", id)]
           | none => [] }

/-- The handler `rasd_to_pool`. The handle is closed at `out:` on every path
after the prefix test. -/
def rasd_to_pool (h : PoolHost) (ref : CMPIObjectPath) (info : std_assoc_info)
    (list : List CMPIInstance) (conns : List virConnectPtr) : Handled :=
  if ( Host.match_hypervisor_prefix h.toHost ref info) = false then
    { s := ⟨CMPI_RC_OK, none⟩, list := list, conns := conns }
  else
    match h.rasd_type_from_classname (CLASSNAME ref) with
    | none =>
      { s := cu_statusf CMPI_RC_ERR_FAILED "Unable to determine RASD type", list := list,
        conns := virConnectClose none conns }
    | some type =>
      match cu_get_str_path ref "InstanceID" with
      | none =>
        { s := cu_statusf CMPI_RC_ERR_FAILED "Missing InstanceID", list := list,
          conns := virConnectClose none conns }
      | some id =>
        match h.pool_member_of (CLASSNAME ref) type (some id) with
        | none =>
          { s := cu_statusf CMPI_RC_ERR_FAILED ("Unable to determine pool of `" ++ id ++ "'"),
            list := list, conns := virConnectClose none conns }
        | some poolid =>
          let c := h.connect_by_classname (CLASSNAME ref)
          match c.1 with
          | none => { s := c.2, list := list, conns := virConnectClose none conns }
          | some conn =>
            match h.get_pool_by_id conn poolid (NAMESPACE ref) with
            | some pool =>
              { s := CMSetStatus CMPI_RC_OK, list := inst_list_add list pool,
                conns := virConnectClose (some conn) (conn :: conns) }
            | none =>
              { s := cu_statusf CMPI_RC_ERR_FAILED ("Unable to find pool `" ++ poolid ++ "'"),
                list := list, conns := virConnectClose (some conn) (conn :: conns) }

/-- The function `filter_by_pool`: the destination list after the loop over
`src`. The result of `cu_get_str_prop` is not tested, the identifier is `NULL`
when it fails; the result of `pool_member_of` goes into `STREQ` without a
`NULL` test, so the result is `none` when it is `NULL`. The macro `STREQ(a, b)`
of the absent header `libcmpiutil.h` is `strcmp(a, b) == 0`; the other uses in
the sources guard it (`id && STREQ(name, id)`), and `rasd_to_pool` tests the
result of `pool_member_of` against `NULL`. -/
def filter_by_pool (h : PoolHost) (dest : List CMPIInstance) :
    List CMPIInstance → String → Option (List CMPIInstance)
  | [], _ => some dest
  | inst :: rest, _poolid =>
    match CMGetObjectPath inst with
    | none => filter_by_pool h dest rest _poolid
    | some op =>
      match h.rasd_type_from_classname (CLASSNAME op) with
      | none => filter_by_pool h dest rest _poolid
      | some type =>
        let rasd_id := cu_get_str_prop inst "InstanceID"
        match h.pool_member_of (CLASSNAME op) type rasd_id with
        | none => none
        | some poolid =>
          if poolid = _poolid then filter_by_pool h (inst_list_add dest inst) rest _poolid
          else filter_by_pool h dest rest _poolid

/-- The loop of `rasds_from_pool` over the domains of the connection. The `int`
that `rasds_for_domain` returns is dropped: the call is a statement of its own,
and `filter_by_pool` runs on the temporary list in every iteration. -/
def rasds_from_pool_loop (h : PoolHost) (type : Nat) (ref : CMPIObjectPath) (poolid : String) :
    List virDomainPtr → List CMPIInstance → Option (List CMPIInstance)
  | [], list => some list
  | dom :: rest, list =>
    let name := h.virDomainGetName dom
    let tmp := h.rasds_for_domain name type ref
    match filter_by_pool h list tmp poolid with
    | none => none
    | some list1 => rasds_from_pool_loop h type ref poolid rest list1

/-- What `rasds_from_pool` hands back: the count it returns, the list and the
connections that are open. -/
structure Counted where
  count : Int
  list : List CMPIInstance
  conns : List virConnectPtr
  deriving DecidableEq, Repr

/-- The function `rasds_from_pool`. Its status is a local that is dropped; a
`NULL` handle makes it return 0 with the list untouched; otherwise it returns
the `int` that `get_domain_list` returned. -/
def rasds_from_pool (h : PoolHost) (type : Nat) (ref : CMPIObjectPath) (poolid : String)
    (list : List CMPIInstance) (conns : List virConnectPtr) : Option Counted :=
  let c := h.connect_by_classname (CLASSNAME ref)
  match c.1 with
  | none => some { count := 0, list := list, conns := conns }
  | some conn =>
    let count := h.get_domain_list_rc conn
    let doms := h.get_domain_list conn
    match rasds_from_pool_loop h type ref poolid doms list with
    | none => none
    | some list1 =>
      some { count := count, list := list1,
             conns := virConnectClose (some conn) (conn :: conns) }

/-- The `if` chain of `pool_to_rasd` on the pool identifier: the type handed to
`rasds_from_pool`, or `none` in the final `else`. -/
def pool_id_type (poolid : String) : Option Nat :=
  if STARTS_WITH poolid "ProcessorPool" then some CIM_RASD_TYPE_PROC
  else if STARTS_WITH poolid "MemoryPool" then some CIM_RASD_TYPE_MEM
  else if STARTS_WITH poolid "NetworkPool" then some CIM_RASD_TYPE_NET
  else if STARTS_WITH poolid "DiskPool" then some CIM_RASD_TYPE_DISK
  else none

/-- The handler `pool_to_rasd`. What `rasds_from_pool` returns is not looked at
and the status is set to OK after it. -/
def pool_to_rasd (h : PoolHost) (ref : CMPIObjectPath) (info : std_assoc_info)
    (list : List CMPIInstance) (conns : List virConnectPtr) : Option Handled :=
  if ( Host.match_hypervisor_prefix h.toHost ref info) = false then
    some { s := ⟨CMPI_RC_OK, none⟩, list := list, conns := conns }
  else
    match cu_get_str_path ref "InstanceID" with
    | none =>
      some { s := cu_statusf CMPI_RC_ERR_FAILED "Missing InstanceID", list := list,
             conns := conns }
    | some poolid =>
      match pool_id_type poolid with
      | none =>
        some { s := cu_statusf CMPI_RC_ERR_FAILED "Invalid InstanceID or unsupported pool type",
               list := list, conns := conns }
      | some type =>
        match rasds_from_pool h type ref poolid list conns with
        | none => none
        | some r => some { s := CMSetStatus CMPI_RC_OK, list := r.list, conns := r.conns }

/-! ## Pool membership in the words of the specification -/

/-- The setting `inst` is a member of the pool `p`: its class name maps to a
setting type and the owning pool recomputed by `pool_member_of` for its class
name, that type and its InstanceID is `p`. -/
def owned_by (h : PoolHost) (p : String) (inst : CMPIInstance) : Bool :=
  match h.rasd_type_from_classname inst.classname with
  | none => false
  | some type =>
    h.pool_member_of inst.classname type (cu_get_str_prop inst "InstanceID") == some p

/-- The device settings of type `type` of the given domains, domain after
domain in the order of the enumeration. -/
def pool_candidates (h : PoolHost) (type : Nat) (ref : CMPIObjectPath) :
    List virDomainPtr → List CMPIInstance
  | [] => []
  | dom :: rest =>
    h.rasds_for_domain (h.virDomainGetName dom) type ref ++ pool_candidates h type ref rest

/-- The settings of the pool `p`: the candidates of all domains of the
connection, filtered to the members of `p`, order preserved. -/
def pool_settings (h : PoolHost) (type : Nat) (ref : CMPIObjectPath) (p : String)
    (conn : virConnectPtr) : List CMPIInstance :=
  (pool_candidates h type ref (h.get_domain_list conn)).filter (owned_by h p)

/-- The owning pool of the candidate `inst` can be determined: if its class name
maps to a type, `pool_member_of` does not return `NULL` for it. -/
def has_pool (h : PoolHost) (inst : CMPIInstance) : Prop :=
  ∀ type, h.rasd_type_from_classname inst.classname = some type →
    h.pool_member_of inst.classname type (cu_get_str_prop inst "InstanceID") ≠ none

/-! ## Reading a bundle -/

/-- The value a bundle carries under the field `VirtualQuantity`, when it is a `uint64`. -/
def virtual_quantity : List sdc_rasd_prop → Option Nat
  | [] => none
  | p :: rest =>
    if p.field = "VirtualQuantity" then
      match p.value with
      | CMPIValue.uint64 n => some n
      | _ => none
    else virtual_quantity rest

/-- The `VirtualQuantity` of the bundle a resolver returned. -/
def Resolved.vq (r : Resolved) : Option Nat :=
  match r.rasd with
  | some b => virtual_quantity b
  | none => none

/-- A resolver call succeeded: it left an OK status and returned a bundle. -/
def Resolved.succeeded (r : Resolved) : Prop :=
  r.s.rc = CMPI_RC_OK ∧ r.rasd ≠ none

instance (r : Resolved) : Decidable r.succeeded := by
  unfold Resolved.succeeded; exact inferInstance

/-- The bundle `b` only carries fields a table resolver writes: InstanceID with
the text `inst_id`, AllocationUnits, AllocationQuantity or VirtualQuantity. -/
def bundle_for (inst_id : String) (b : List sdc_rasd_prop) : Prop :=
  ∀ p ∈ b, (p.field = "InstanceID" ∧ p.value = CMPIValue.chars inst_id) ∨
    p.field = "AllocationUnits" ∨ p.field = "AllocationQuantity" ∨ p.field = "VirtualQuantity"

/-- The bundle `b` has one of the two layouts the resolvers write: InstanceID
with the text `inst_id` and VirtualQuantity, or these two with one text field,
AllocationUnits or AllocationQuantity, between them. -/
def table_bundle (inst_id : String) (b : List sdc_rasd_prop) : Prop :=
  (∃ n, b = [⟨"InstanceID", CMPIValue.chars inst_id, CMPI_chars⟩,
             ⟨"VirtualQuantity", CMPIValue.uint64 n, CMPI_uint64⟩]) ∨
  (∃ ut units n, (ut = "AllocationUnits" ∨ ut = "AllocationQuantity") ∧
    b = [⟨"InstanceID", CMPIValue.chars inst_id, CMPI_chars⟩,
         ⟨ut, CMPIValue.chars units, CMPI_chars⟩,
         ⟨"VirtualQuantity", CMPIValue.uint64 n, CMPI_uint64⟩])

/-- The resolver `g` answers with a bundle for `inst_id` carrying a
VirtualQuantity whenever it leaves an OK status. -/
def good_slot (g : rasd_prop_func_t) (inst_id : String) : Prop :=
  ∀ h ref s conns, (g h ref s conns).s.rc = CMPI_RC_OK →
    ∃ b n, (g h ref s conns).rasd = some b ∧ bundle_for inst_id b ∧
      virtual_quantity b = some n

/-- The resolver `g` is static: it always returns a bundle with VirtualQuantity
`n` and hands the status and the open connections back untouched. -/
def static_slot (g : rasd_prop_func_t) (n : Nat) : Prop :=
  ∀ h ref s conns, (g h ref s conns).s = s ∧ (g h ref s conns).conns = conns ∧
    (g h ref s conns).vq = some n

/-- The instance `inst` is the capability instance of the bound named `inst_id`
for resource type `t`: its InstanceID reads `inst_id` and its ResourceType is `t`. -/
def is_bound_instance (inst : CMPIInstance) (inst_id : String) (t : Nat) : Prop :=
  cu_get_str_prop inst "InstanceID" = some inst_id ∧
    CMGetProperty inst "ResourceType" = some (CMPIValue.uint16 t)

/-! ## Sample environments -/

/-- The status `{CMPI_RC_OK, NULL}`. -/
def status_ok : CMPIStatus := ⟨CMPI_RC_OK, none⟩

/-- The text of a class name before its first underscore, if it has one. -/
def sample_class_prefix (cn : String) : Option String :=
  if cn.data.contains '_' then some (String.mk (cn.data.takeWhile fun c => c != '_')) else none

/-- A host on which every call succeeds: `vcpus` is the answer of
`virConnectGetMaxVcpus`, `version` the hypervisor version, `caps` the
capabilities text and `capacity` the Capacity of every pool. -/
def sample_host (vcpus : Int) (version : Nat) (caps : Option String) (capacity : Nat) : Host :=
  { connect_by_classname := fun _ => (some 1, status_ok),
    virConnectGetMaxVcpus := fun _ => vcpus,
    virConnectGetVersion := fun _ => (0, version),
    virConnectGetCapabilities := fun _ => caps,
    pfx_from_conn := fun _ => "Xen",
    class_prefix_name := sample_class_prefix,
    uuid_unparse := fun k => if k = 0 then "uuid-0" else "uuid-1",
    get_typed_instance := fun refcn base ns =>
      some { classname := refcn ++ "/" ++ base, ns := ns, props := [] },
    make_reference := fun _ target _ _ =>
      some { classname := "Xen_SettingsDefineCapabilities", ns := target.ns, props := [] },
    match_hypervisor_prefix := fun _ _ => true,
    get_pool_by_name := fun ref id =>
      (status_ok, { classname := ref.classname, ns := ref.ns,
                    props := [("InstanceID", CMPIValue.chars id),
                              ("Capacity", CMPIValue.uint64 capacity)] }),
    get_migration_caps := fun ref _ =>
      (status_ok, { classname := ref.classname, ns := ref.ns, props := [] }),
    get_migration_sd := fun ref _ =>
      (status_ok, { classname := ref.classname, ns := ref.ns, props := [] }),
    MAX_MEM := 4194304,
    KVM_MAX_NICS := 8,
    XEN_MAX_NICS := 8 }

/-- The sample host with the hypervisor unreachable: `connect_by_classname`
returns `NULL` and stores a failure. -/
def sample_host_offline : Host :=
  { sample_host 8 3001000 none 100000 with
    connect_by_classname := fun _ =>
      (none, cu_statusf CMPI_RC_ERR_FAILED "Unable to connect") }

/-- The sample host with a broker that cannot construct instances:
`get_typed_instance` returns `NULL`. -/
def sample_host_no_instances : Host :=
  { sample_host 8 3001000 none 100000 with get_typed_instance := fun _ _ _ => none }

/-- A reference of class `cn` in namespace root/virt with key InstanceID = `id`. -/
def sample_ref (cn id : String) : CMPIObjectPath :=
  { classname := cn, ns := "root/virt", keys := [("InstanceID", id)] }

/-- The request filters of a call that names no class and no role. -/
def sample_info : std_assoc_info :=
  { assoc_class := none, result_class := none, role := none, result_role := none }

/-- A target instance of the allocation-capability edge with the given InstanceID. -/
def sample_target (iid : String) : CMPIInstance :=
  { classname := "Xen_MemResourceAllocationSettingData", ns := "root/virt",
    props := [("InstanceID", CMPIValue.chars iid)] }

/-- The data of the edge `_alloc_cap_to_rasd` restricted to the Xen classes. -/
def sample_assoc : std_assoc :=
  { source_class := ["Xen_AllocationCapabilities"],
    source_prop := "GroupComponent",
    target_class := ["Xen_MemResourceAllocationSettingData"],
    target_prop := "PartComponent",
    assoc_class := ["Xen_SettingsDefineCapabilities"] }

/-- Modelled from the spec: the hypervisor-connection provider is given as
`connect(class_name) -> Handle | Error`. The connection of a reference cannot be
obtained when `connect_by_classname` returns no handle (`NULL`), whatever status
it stores. -/
def connect_failed (h : Host) (ref : CMPIObjectPath) : Prop :=
  (h.connect_by_classname (CLASSNAME ref)).1 = none

instance (h : Host) (ref : CMPIObjectPath) : Decidable (connect_failed h ref) := by
  unfold connect_failed; exact inferInstance

/-- The sample host on which `connect_by_classname` returns `NULL` and leaves the
status OK; the version query reports an error for the `NULL` handle. -/
def sample_host_null_handle : Host :=
  { sample_host 8 3001000 none 100000 with
    connect_by_classname := fun _ => (none, status_ok),
    virConnectGetVersion := fun conn =>
      match conn with
      | none => (-1, 0)
      | some _ => (0, 3001000) }

/-- The sample host on which the version query fails. -/
def sample_host_no_version : Host :=
  { sample_host 8 3001000 none 100000 with virConnectGetVersion := fun _ => (-1, 0) }

/-- The sample host on which no pool is found by name. -/
def sample_host_no_pool : Host :=
  { sample_host 8 3001000 none 100000 with
    get_pool_by_name := fun ref _ =>
      (cu_statusf CMPI_RC_ERR_FAILED "No such pool",
       { classname := ref.classname, ns := ref.ns, props := [] }) }

/-- A processor or disk setting of the sample pool host. -/
def sample_rasd (cn id : String) : CMPIInstance :=
  { classname := cn, ns := "root/virt", props := [("InstanceID", CMPIValue.chars id)] }

/-- A pool host over `h` with two domains, dom1 and dom2, each with one virtual
processor and one disk. Processors belong to ProcessorPool/0; the disk of dom1
belongs to DiskPool/images and the owning pool of the disk of dom2 cannot be
determined. -/
def sample_pool_host (h : Host) : PoolHost :=
  { toHost := h,
    rasd_type_from_classname := fun cn =>
      if cn = "Xen_ProcResourceAllocationSettingData" then some CIM_RASD_TYPE_PROC
      else if cn = "Xen_DiskResourceAllocationSettingData" then some CIM_RASD_TYPE_DISK
      else none,
    pool_member_of := fun _ type id =>
      if type = CIM_RASD_TYPE_PROC then some "ProcessorPool/0"
      else if type = CIM_RASD_TYPE_DISK then
        (if id = some "dom1/xvda" then some "DiskPool/images" else none)
      else none,
    get_pool_by_id := fun _ poolid ns =>
      some { classname := "Xen_ResourcePool", ns := ns,
             props := [("InstanceID", CMPIValue.chars poolid)] },
    get_domain_list := fun _ => [1, 2],
    get_domain_list_rc := fun _ => 2,
    virDomainGetName := fun dom => if dom = 1 then some "dom1" else some "dom2",
    rasds_for_domain := fun name type _ =>
      if type = CIM_RASD_TYPE_PROC then
        (if name = some "dom1" then [sample_rasd "Xen_ProcResourceAllocationSettingData" "dom1/proc"]
         else [sample_rasd "Xen_ProcResourceAllocationSettingData" "dom2/proc"])
      else if type = CIM_RASD_TYPE_DISK then
        (if name = some "dom1" then [sample_rasd "Xen_DiskResourceAllocationSettingData" "dom1/xvda"]
         else [sample_rasd "Xen_DiskResourceAllocationSettingData" "dom2/hda"])
      else [],
    rasds_for_domain_rc := fun _ type _ =>
      if type = CIM_RASD_TYPE_PROC then 1 else if type = CIM_RASD_TYPE_DISK then 1 else 0 }

/-- The sample pool host on which the extraction of the device settings fails
for dom1: `rasds_for_domain` leaves nothing in the list for dom1 and returns
`rc`. -/
def sample_pool_host_failing (h : Host) (rc : Int) : PoolHost :=
  { sample_pool_host h with
    rasds_for_domain := fun name type ref =>
      if name = some "dom1" then [] else (sample_pool_host h).rasds_for_domain name type ref,
    rasds_for_domain_rc := fun name type ref =>
      if name = some "dom1" then rc else (sample_pool_host h).rasds_for_domain_rc name type ref }

/-- A descriptor whose resource type has no class name: the unknown type, with
the Minimum resolver of memory in its first slot. -/
def sample_unmapped : sdc_rasd :=
  { resource_type := CIM_RES_TYPE_UNKNOWN,
    min := some mem_min, max := none, def_ := none, inc := none }

/-- The sample host whose provider is configured for another class prefix:
`match_hypervisor_prefix` is false. -/
def sample_host_other_prefix : Host :=
  { sample_host 8 3001000 none 100000 with match_hypervisor_prefix := fun _ _ => false }

/-! ## Theorems -/

/-! ### Strings and property lists -/

theorem strstr_chars_iff (hs needle : List Char) :
    strstr_chars hs needle = true ↔ needle <:+: hs := by
  induction hs with
  | nil =>
    cases needle <;> simp [strstr_chars]
  | cons c hs ih =>
    simp only [strstr_chars, Bool.or_eq_true, ih, List.infix_cons_iff,
      List.isPrefixOf_iff_prefix]

theorem getProp_setProp_self (ps : List (String × CMPIValue)) (k : String) (v : CMPIValue) :
    getProp (setProp ps k v) k = some v := by
  induction ps with
  | nil => simp [setProp, getProp]
  | cons p ps ih =>
    obtain ⟨k0, v0⟩ := p
    by_cases hk : k0 = k
    · simp [setProp, getProp, hk]
    · simp [setProp, getProp, hk, ih]

theorem getProp_setProp_ne (ps : List (String × CMPIValue)) (k k1 : String) (v : CMPIValue)
    (hne : k ≠ k1) : getProp (setProp ps k v) k1 = getProp ps k1 := by
  induction ps with
  | nil => simp [setProp, getProp, hne]
  | cons p ps ih =>
    obtain ⟨k0, v0⟩ := p
    by_cases hk : k0 = k
    · subst hk
      simp [setProp, getProp, hne]
    · by_cases hk1 : k0 = k1
      · subst hk1
        simp [setProp, getProp, hk]
      · simp [setProp, getProp, hk, hk1, ih]

theorem CMGetProperty_set_self (inst : CMPIInstance) (k : String) (v : CMPIValue) :
    CMGetProperty (CMSetProperty inst k v) k = some v := by
  simp [CMGetProperty, CMSetProperty, getProp_setProp_self]

theorem CMGetProperty_set_ne (inst : CMPIInstance) (k k1 : String) (v : CMPIValue)
    (hne : k ≠ k1) : CMGetProperty (CMSetProperty inst k v) k1 = CMGetProperty inst k1 := by
  simp [CMGetProperty, CMSetProperty, getProp_setProp_ne _ _ _ _ hne]

/-! ### Copying a bundle -/

theorem rasd_prop_copy_value_plain (p : sdc_rasd_prop)
    (hp : p.type = CMPI_chars ∨ p.type = CMPI_uint64) :
    rasd_prop_copy_value p = (true, p.value) := by
  rcases hp with hp | hp
  · have h1 : CMPI_chars &&& CMPI_string ≠ 0 := by decide
    simp [rasd_prop_copy_value, hp, h1]
  · have h1 : ¬ (CMPI_uint64 &&& CMPI_string ≠ 0) := by decide
    have h2 : CMPI_uint64 &&& CMPI_INTEGER ≠ 0 := by decide
    simp only [rasd_prop_copy_value, hp]
    rw [if_neg h1, if_pos h2]

theorem dup_rasd_prop_list_plain (tmp : List sdc_rasd_prop)
    (hall : ∀ p ∈ tmp, p.type = CMPI_chars ∨ p.type = CMPI_uint64) :
    dup_rasd_prop_list tmp = (true, tmp) := by
  unfold dup_rasd_prop_list
  congr 1
  induction tmp with
  | nil => rfl
  | cons p rest ih =>
    have hp := rasd_prop_copy_value_plain p (hall p (List.mem_cons_self _ _))
    have hrest := ih (fun q hq => hall q (List.mem_cons_of_mem _ hq))
    simp only [List.map_cons, hp, hrest]

/-- A bundle whose entries are all of type `CMPI_chars` or `CMPI_uint64` is
returned as written, with the status untouched. -/
theorem copy_rasd_plain (tmp : List sdc_rasd_prop) (s : CMPIStatus)
    (conns : List virConnectPtr)
    (hall : ∀ p ∈ tmp, p.type = CMPI_chars ∨ p.type = CMPI_uint64) :
    copy_rasd tmp s conns = { rasd := some tmp, s := s, conns := conns } := by
  simp [copy_rasd, dup_rasd_prop_list_plain tmp hall]

/-! ### The reference builder at the scenario of the specification -/

/-- C1 (the code at the failing input). For the target InstanceIDs
"Xen:Default-xxxx" and "Xen:Maximum-xxxx" none of the four `strstr(token, iid)`
tests of `make_ref_valuerole` succeeds: `valuerange` keeps the value `v0` the
uninitialised local happened to hold. On the sample host, with `v0` equal to
the increment code, the reference built for "Xen:Default-xxxx" carries
ValueRange = increment and ValueRole = Supported, not point and Default. -/
theorem make_ref_valuerole_scenario_unclassified :
    (∀ v0, classify_valuerange "Xen:Default-xxxx" v0 = v0) ∧
    (∀ v0, classify_valuerange "Xen:Maximum-xxxx" v0 = v0) ∧
    make_ref_valuerole (sample_host 8 3001000 none 100000)
        (sample_ref "Xen_AllocationCapabilities" "MemoryPool/0")
        (sample_target "Xen:Default-xxxx") sample_info sample_assoc SDC_RANGE_INC =
      some (some { classname := "Xen_SettingsDefineCapabilities", ns := "root/virt",
                   props := [("ValueRole", CMPIValue.uint16 SDC_ROLE_SUPPORTED),
                             ("ValueRange", CMPIValue.uint16 SDC_RANGE_INC),
                             ("PropertyPolicy", CMPIValue.uint16 SDC_POLICY_INDEPENDENT)] }) := by
  refine ⟨fun v0 => rfl, fun v0 => rfl, ?_⟩
  decide

/-! ### Bound resolvers -/

/-- C3. `net_max` entered with the OK status of its caller: for the class
prefix "KVM" the result is the bundle (InstanceID "Maximum", VirtualQuantity
`KVM_MAX_NICS`) with the status and the open connections untouched, whatever
the connection and version queries would answer; for the class prefix "Xen",
when the connection leaves an OK status and the version query returns 0 with
version `v`, VirtualQuantity is `XEN_MAX_NICS` if `v ≥ 3001000` and 4 otherwise. -/
theorem net_max_value (h : Host) (ref : CMPIObjectPath) (s : CMPIStatus)
    (conns : List virConnectPtr) :
    (h.class_prefix_name (CLASSNAME ref) = some "KVM" → s.rc = CMPI_RC_OK →
      net_max h ref s conns =
        { rasd := some [⟨"InstanceID", CMPIValue.chars "Maximum", CMPI_chars⟩,
                        ⟨"VirtualQuantity", CMPIValue.uint64 h.KVM_MAX_NICS, CMPI_uint64⟩],
          s := s, conns := conns }) ∧
    (∀ (c : Option virConnectPtr) (st : CMPIStatus) (v : Nat),
      h.class_prefix_name (CLASSNAME ref) = some "Xen" →
      h.connect_by_classname (CLASSNAME ref) = (c, st) → st.rc = CMPI_RC_OK →
      h.virConnectGetVersion c = (0, v) →
      (net_max h ref s conns).rasd =
          some [⟨"InstanceID", CMPIValue.chars "Maximum", CMPI_chars⟩,
                ⟨"VirtualQuantity",
                  CMPIValue.uint64 (if 3001000 ≤ v then h.XEN_MAX_NICS else 4), CMPI_uint64⟩] ∧
        (net_max h ref s conns).s = st) := by
  constructor
  · intro hp hs
    have h1 : STREQC "KVM" "Xen" = false := by decide
    have h2 : STREQC "KVM" "KVM" = true := by decide
    simp only [net_max, hp, h1, h2, net_max_kvm, net_max_tail]
    simp [hs, copy_rasd_plain]
  · intro c st v hp hc hst hv
    have h1 : STREQC "Xen" "Xen" = true := by decide
    simp only [net_max, hp, h1, net_max_xen, hc, hv]
    by_cases hver : 3001000 ≤ v
    · simp [hst, hver, net_max_tail, copy_rasd_plain]
    · simp [hst, hver, net_max_tail, copy_rasd_plain]

/-- C3 (witness). A KVM reference on the sample host yields 8 (`KVM_MAX_NICS`
there); a Xen reference yields 8 for version 3001000 and 4 for version 3000999. -/
theorem net_max_value_witness :
    net_max (sample_host 8 3001000 none 100000) (sample_ref "KVM_AllocationCapabilities" "NetworkPool/0")
        status_ok [] =
      { rasd := some [⟨"InstanceID", CMPIValue.chars "Maximum", CMPI_chars⟩,
                      ⟨"VirtualQuantity", CMPIValue.uint64 8, CMPI_uint64⟩],
        s := status_ok, conns := [] } ∧
    (net_max (sample_host 8 3001000 none 100000)
        (sample_ref "Xen_AllocationCapabilities" "NetworkPool/0") status_ok []).rasd =
      some [⟨"InstanceID", CMPIValue.chars "Maximum", CMPI_chars⟩,
            ⟨"VirtualQuantity", CMPIValue.uint64 8, CMPI_uint64⟩] ∧
    (net_max (sample_host 8 3000999 none 100000)
        (sample_ref "Xen_AllocationCapabilities" "NetworkPool/0") status_ok []).rasd =
      some [⟨"InstanceID", CMPIValue.chars "Maximum", CMPI_chars⟩,
            ⟨"VirtualQuantity", CMPIValue.uint64 4, CMPI_uint64⟩] :=
  ⟨(net_max_value (sample_host 8 3001000 none 100000)
      (sample_ref "KVM_AllocationCapabilities" "NetworkPool/0") status_ok []).1 (by decide) rfl,
   ((net_max_value (sample_host 8 3001000 none 100000)
      (sample_ref "Xen_AllocationCapabilities" "NetworkPool/0") status_ok []).2
        (some 1) status_ok 3001000 (by decide) rfl rfl rfl).1,
   ((net_max_value (sample_host 8 3000999 none 100000)
      (sample_ref "Xen_AllocationCapabilities" "NetworkPool/0") status_ok []).2
        (some 1) status_ok 3000999 (by decide) rfl rfl rfl).1⟩

/-- C4. When `connect_by_classname` returns a handle and leaves an OK status,
and the hypervisor reports the count `n` of maximum virtual CPUs (a value of the
C type `int`), `proc_max` returns the bundle InstanceID = "Maximum",
AllocationUnits = "Processors", VirtualQuantity = `n`, and the status is OK. -/
theorem proc_max_bundle (h : Host) (ref : CMPIObjectPath) (s : CMPIStatus)
    (conns : List virConnectPtr) (conn : virConnectPtr) (st : CMPIStatus) (n : Nat)
    (hconn : h.connect_by_classname (CLASSNAME ref) = (some conn, st))
    (hst : st.rc = CMPI_RC_OK)
    (hn : h.virConnectGetMaxVcpus conn = (n : Int)) (hint : n < 2 ^ 31) :
    (proc_max h ref s conns).rasd =
        some [⟨"InstanceID", CMPIValue.chars "Maximum", CMPI_chars⟩,
              ⟨"AllocationUnits", CMPIValue.chars "Processors", CMPI_chars⟩,
              ⟨"VirtualQuantity", CMPIValue.uint64 n, CMPI_uint64⟩] ∧
      (proc_max h ref s conns).s.rc = CMPI_RC_OK := by
  have hmod : ((n : Int) % 2 ^ 64).toNat = n := by omega
  simp only [proc_max, hconn, hn, hmod]
  simp [copy_rasd_plain, hst]

/-- C4 (witness). The scenario of the specification: a reference with InstanceID
ProcessorPool/0 on a connection reporting 8 max vcpus. -/
theorem proc_max_bundle_witness :
    (proc_max (sample_host 8 3001000 none 100000)
        (sample_ref "Xen_AllocationCapabilities" "ProcessorPool/0") status_ok []).rasd =
        some [⟨"InstanceID", CMPIValue.chars "Maximum", CMPI_chars⟩,
              ⟨"AllocationUnits", CMPIValue.chars "Processors", CMPI_chars⟩,
              ⟨"VirtualQuantity", CMPIValue.uint64 8, CMPI_uint64⟩] ∧
      (proc_max (sample_host 8 3001000 none 100000)
        (sample_ref "Xen_AllocationCapabilities" "ProcessorPool/0") status_ok []).s.rc =
        CMPI_RC_OK :=
  proc_max_bundle (sample_host 8 3001000 none 100000)
    (sample_ref "Xen_AllocationCapabilities" "ProcessorPool/0") status_ok [] 1 status_ok 8
    rfl rfl rfl (by decide)

/-- C5. When the InstanceID `id` of the reference can be read, the connection
leaves an OK status, `get_pool_by_name` on the reference and `id` returns an OK
status with the pool `pool`, and the Capacity `c` of `pool` can be read,
`disk_max` returns a bundle whose InstanceID is "Maximum" and whose
VirtualQuantity is `c`. -/
theorem disk_max_capacity (h : Host) (ref : CMPIObjectPath) (s : CMPIStatus)
    (conns : List virConnectPtr) (id : String) (conn : Option virConnectPtr)
    (st ps : CMPIStatus) (pool : CMPIInstance) (c : Nat)
    (hid : cu_get_str_path ref "InstanceID" = some id)
    (hconn : h.connect_by_classname (CLASSNAME ref) = (conn, st))
    (hst : st.rc = CMPI_RC_OK)
    (hpool : h.get_pool_by_name ref id = (ps, pool))
    (hps : ps.rc = CMPI_RC_OK)
    (hcap : cu_get_u64_prop pool "Capacity" = some c) :
    (disk_max h ref s conns).rasd =
        some [⟨"InstanceID", CMPIValue.chars "Maximum", CMPI_chars⟩,
              ⟨"AllocationQuantity", CMPIValue.chars "MegaBytes", CMPI_chars⟩,
              ⟨"VirtualQuantity", CMPIValue.uint64 c, CMPI_uint64⟩] ∧
      (disk_max h ref s conns).vq = some c := by
  simp [disk_max, hid, hconn, hst, hpool, hps, hcap, copy_rasd_plain, Resolved.vq,
    virtual_quantity]

/-- C5 (witness). A disk pool of Capacity 100000 on the sample host. -/
theorem disk_max_capacity_witness :
    (disk_max (sample_host 8 3001000 none 100000)
        (sample_ref "Xen_AllocationCapabilities" "DiskPool/0") status_ok []).rasd =
        some [⟨"InstanceID", CMPIValue.chars "Maximum", CMPI_chars⟩,
              ⟨"AllocationQuantity", CMPIValue.chars "MegaBytes", CMPI_chars⟩,
              ⟨"VirtualQuantity", CMPIValue.uint64 100000, CMPI_uint64⟩] ∧
      (disk_max (sample_host 8 3001000 none 100000)
        (sample_ref "Xen_AllocationCapabilities" "DiskPool/0") status_ok []).vq =
        some 100000 :=
  disk_max_capacity (sample_host 8 3001000 none 100000)
    (sample_ref "Xen_AllocationCapabilities" "DiskPool/0") status_ok [] "DiskPool/0"
    (some 1) status_ok status_ok
    { classname := "Xen_AllocationCapabilities", ns := "root/virt",
      props := [("InstanceID", CMPIValue.chars "DiskPool/0"),
                ("Capacity", CMPIValue.uint64 100000)] }
    100000 (by decide) rfl rfl rfl rfl (by decide)

/-- C6. For every host, reference, status and set of open connections,
`mem_min`, `mem_def` and `mem_inc` return the bundles with AllocationUnits =
"KiloBytes" and VirtualQuantity 65536, 262144 and 1024; the status and the open
connections come back as they were passed, and no field of the host is read. -/
theorem mem_static_bounds (h : Host) (ref : CMPIObjectPath) (s : CMPIStatus)
    (conns : List virConnectPtr) :
    mem_min h ref s conns =
        { rasd := some [⟨"InstanceID", CMPIValue.chars "Minimum", CMPI_chars⟩,
                        ⟨"AllocationUnits", CMPIValue.chars "KiloBytes", CMPI_chars⟩,
                        ⟨"VirtualQuantity", CMPIValue.uint64 65536, CMPI_uint64⟩],
          s := s, conns := conns } ∧
      mem_def h ref s conns =
        { rasd := some [⟨"InstanceID", CMPIValue.chars "Default", CMPI_chars⟩,
                        ⟨"AllocationUnits", CMPIValue.chars "KiloBytes", CMPI_chars⟩,
                        ⟨"VirtualQuantity", CMPIValue.uint64 262144, CMPI_uint64⟩],
          s := s, conns := conns } ∧
      mem_inc h ref s conns =
        { rasd := some [⟨"InstanceID", CMPIValue.chars "Increment", CMPI_chars⟩,
                        ⟨"AllocationUnits", CMPIValue.chars "KiloBytes", CMPI_chars⟩,
                        ⟨"VirtualQuantity", CMPIValue.uint64 1024, CMPI_uint64⟩],
          s := s, conns := conns } := by
  refine ⟨?_, ?_, ?_⟩ <;> simp [mem_min, mem_def, mem_inc, copy_rasd_plain]

/-- C7. For every host, reference, status and set of open connections,
`disk_min`, `disk_def` and `disk_inc` return the bundles with VirtualQuantity
2000, 5000 and 250, each carrying the text "MegaBytes" (under the field name
AllocationQuantity); nothing of the host is read. -/
theorem disk_static_bounds (h : Host) (ref : CMPIObjectPath) (s : CMPIStatus)
    (conns : List virConnectPtr) :
    disk_min h ref s conns =
        { rasd := some [⟨"InstanceID", CMPIValue.chars "Minimum", CMPI_chars⟩,
                        ⟨"AllocationQuantity", CMPIValue.chars "MegaBytes", CMPI_chars⟩,
                        ⟨"VirtualQuantity", CMPIValue.uint64 2000, CMPI_uint64⟩],
          s := s, conns := conns } ∧
      disk_def h ref s conns =
        { rasd := some [⟨"InstanceID", CMPIValue.chars "Default", CMPI_chars⟩,
                        ⟨"AllocationQuantity", CMPIValue.chars "MegaBytes", CMPI_chars⟩,
                        ⟨"VirtualQuantity", CMPIValue.uint64 5000, CMPI_uint64⟩],
          s := s, conns := conns } ∧
      disk_inc h ref s conns =
        { rasd := some [⟨"InstanceID", CMPIValue.chars "Increment", CMPI_chars⟩,
                        ⟨"AllocationQuantity", CMPIValue.chars "MegaBytes", CMPI_chars⟩,
                        ⟨"VirtualQuantity", CMPIValue.uint64 250, CMPI_uint64⟩],
          s := s, conns := conns } := by
  refine ⟨?_, ?_, ?_⟩ <;>
    simp [disk_min, disk_def, disk_inc, copy_rasd_plain, SDC_DISK_MIN, SDC_DISK_DEF,
      SDC_DISK_INC]

theorem proc_max_shape (h : Host) (ref : CMPIObjectPath) (s : CMPIStatus)
    (conns : List virConnectPtr) (hok : (proc_max h ref s conns).s.rc = CMPI_RC_OK) :
    ∃ n, (proc_max h ref s conns).rasd =
      some [⟨"InstanceID", CMPIValue.chars "Maximum", CMPI_chars⟩,
            ⟨"AllocationUnits", CMPIValue.chars "Processors", CMPI_chars⟩,
            ⟨"VirtualQuantity", CMPIValue.uint64 n, CMPI_uint64⟩] := by
  unfold proc_max at hok ⊢
  cases hc : (h.connect_by_classname (CLASSNAME ref)).1 with
  | none =>
    simp [hc, cu_statusf, CMPI_RC_ERR_FAILED, CMPI_RC_OK] at hok
  | some conn =>
    refine ⟨((h.virConnectGetMaxVcpus conn % 2 ^ 64).toNat), ?_⟩
    simp only [hc]
    simp [copy_rasd_plain]

theorem net_max_shape (h : Host) (ref : CMPIObjectPath) (s : CMPIStatus)
    (conns : List virConnectPtr) (hok : (net_max h ref s conns).s.rc = CMPI_RC_OK) :
    ∃ n, (net_max h ref s conns).rasd =
      some [⟨"InstanceID", CMPIValue.chars "Maximum", CMPI_chars⟩,
            ⟨"VirtualQuantity", CMPIValue.uint64 n, CMPI_uint64⟩] := by
  have tail : ∀ r : Nat × CMPIStatus × List virConnectPtr,
      (net_max_tail r).s.rc = CMPI_RC_OK →
      ∃ n, (net_max_tail r).rasd =
        some [⟨"InstanceID", CMPIValue.chars "Maximum", CMPI_chars⟩,
              ⟨"VirtualQuantity", CMPIValue.uint64 n, CMPI_uint64⟩] := by
    intro r hr
    unfold net_max_tail at hr ⊢
    by_cases hrc : r.2.1.rc ≠ CMPI_RC_OK
    · rw [if_pos hrc] at hr
      simp [cu_statusf, CMPI_RC_ERR_FAILED, CMPI_RC_OK] at hr
    · exact ⟨r.1, by rw [if_neg hrc]; simp [copy_rasd_plain]⟩
  unfold net_max at hok ⊢
  cases hp : h.class_prefix_name (CLASSNAME ref) with
  | none => simp [hp, cu_statusf, CMPI_RC_ERR_FAILED, CMPI_RC_OK] at hok
  | some pfx =>
    simp only [hp] at hok ⊢
    by_cases hx : STREQC pfx "Xen" = true
    · simp only [hx, if_true] at hok ⊢
      exact tail _ hok
    · by_cases hk : STREQC pfx "KVM" = true
      · simp only [hx, hk, if_true, if_false] at hok ⊢
        exact tail _ hok
      · simp [hx, hk, cu_statusf, CMPI_RC_ERR_NOT_SUPPORTED, CMPI_RC_OK] at hok

theorem disk_max_shape (h : Host) (ref : CMPIObjectPath) (s : CMPIStatus)
    (conns : List virConnectPtr) (hok : (disk_max h ref s conns).s.rc = CMPI_RC_OK) :
    ∃ n, (disk_max h ref s conns).rasd =
      some [⟨"InstanceID", CMPIValue.chars "Maximum", CMPI_chars⟩,
            ⟨"AllocationQuantity", CMPIValue.chars "MegaBytes", CMPI_chars⟩,
            ⟨"VirtualQuantity", CMPIValue.uint64 n, CMPI_uint64⟩] := by
  unfold disk_max at hok ⊢
  cases hid : cu_get_str_path ref "InstanceID" with
  | none => simp [hid, cu_statusf, CMPI_RC_ERR_FAILED, CMPI_RC_OK] at hok
  | some id =>
    simp only [hid] at hok ⊢
    by_cases hc : (h.connect_by_classname (CLASSNAME ref)).2.rc ≠ CMPI_RC_OK
    · rw [if_pos hc] at hok
      simp [cu_statusf, CMPI_RC_ERR_FAILED, CMPI_RC_OK] at hok
    · rw [if_neg hc] at hok ⊢
      by_cases hp : (h.get_pool_by_name ref id).1.rc ≠ CMPI_RC_OK
      · rw [if_pos hp] at hok
        exact absurd hok hp
      · rw [if_neg hp] at hok ⊢
        cases hcap : cu_get_u64_prop (h.get_pool_by_name ref id).2 "Capacity" with
        | none => simp [hcap, cu_statusf, CMPI_RC_ERR_FAILED, CMPI_RC_OK] at hok
        | some c => exact ⟨c, by simp [copy_rasd_plain]⟩

/-! ### The resolver table -/

theorem static_bundle3 (s : CMPIStatus) (conns : List virConnectPtr) (iid units ut : String)
    (n : Nat) (hu : ut = "AllocationUnits" ∨ ut = "AllocationQuantity") :
    let r := copy_rasd
      [⟨"InstanceID", CMPIValue.chars iid, CMPI_chars⟩,
       ⟨ut, CMPIValue.chars units, CMPI_chars⟩,
       ⟨"VirtualQuantity", CMPIValue.uint64 n, CMPI_uint64⟩] s conns
    r.s = s ∧ r.conns = conns ∧ r.vq = some n ∧
      ∃ b, r.rasd = some b ∧ bundle_for iid b ∧ virtual_quantity b = some n := by
  intro r
  have hr : r = { rasd := some [⟨"InstanceID", CMPIValue.chars iid, CMPI_chars⟩,
       ⟨ut, CMPIValue.chars units, CMPI_chars⟩,
       ⟨"VirtualQuantity", CMPIValue.uint64 n, CMPI_uint64⟩], s := s, conns := conns } :=
    copy_rasd_plain _ _ _ (by simp)
  have hne : ut ≠ "VirtualQuantity" := by
    rcases hu with rfl | rfl <;> decide
  rw [hr]
  refine ⟨rfl, rfl, ?_, _, rfl, ?_, ?_⟩
  · simp [Resolved.vq, virtual_quantity, hne]
  · intro p hp
    simp only [List.mem_cons, List.mem_singleton, List.not_mem_nil, or_false] at hp
    rcases hp with rfl | rfl | rfl
    · exact Or.inl ⟨rfl, rfl⟩
    · rcases hu with rfl | rfl
      · exact Or.inr (Or.inl rfl)
      · exact Or.inr (Or.inr (Or.inl rfl))
    · exact Or.inr (Or.inr (Or.inr rfl))
  · simp [virtual_quantity, hne]

theorem static_bundle2 (s : CMPIStatus) (conns : List virConnectPtr) (iid : String) (n : Nat) :
    let r := copy_rasd
      [⟨"InstanceID", CMPIValue.chars iid, CMPI_chars⟩,
       ⟨"VirtualQuantity", CMPIValue.uint64 n, CMPI_uint64⟩] s conns
    r.s = s ∧ r.conns = conns ∧ r.vq = some n ∧
      ∃ b, r.rasd = some b ∧ bundle_for iid b ∧ virtual_quantity b = some n := by
  intro r
  have hr : r = { rasd := some [⟨"InstanceID", CMPIValue.chars iid, CMPI_chars⟩,
       ⟨"VirtualQuantity", CMPIValue.uint64 n, CMPI_uint64⟩], s := s, conns := conns } :=
    copy_rasd_plain _ _ _ (by simp)
  rw [hr]
  refine ⟨rfl, rfl, ?_, _, rfl, ?_, ?_⟩
  · simp [Resolved.vq, virtual_quantity]
  · intro p hp
    simp only [List.mem_cons, List.mem_singleton, List.not_mem_nil, or_false] at hp
    rcases hp with rfl | rfl
    · exact Or.inl ⟨rfl, rfl⟩
    · exact Or.inr (Or.inr (Or.inr rfl))
  · simp [virtual_quantity]

theorem bundle3_facts (iid units ut : String) (n : Nat)
    (hu : ut = "AllocationUnits" ∨ ut = "AllocationQuantity") :
    bundle_for iid
        [⟨"InstanceID", CMPIValue.chars iid, CMPI_chars⟩,
         ⟨ut, CMPIValue.chars units, CMPI_chars⟩,
         ⟨"VirtualQuantity", CMPIValue.uint64 n, CMPI_uint64⟩] ∧
      virtual_quantity
        [⟨"InstanceID", CMPIValue.chars iid, CMPI_chars⟩,
         ⟨ut, CMPIValue.chars units, CMPI_chars⟩,
         ⟨"VirtualQuantity", CMPIValue.uint64 n, CMPI_uint64⟩] = some n := by
  obtain ⟨_, _, _, b, hb, hfor, hvq⟩ := static_bundle3 status_ok [] iid units ut n hu
  rw [copy_rasd_plain _ _ _ (by simp)] at hb
  cases hb
  exact ⟨hfor, hvq⟩

theorem bundle2_facts (iid : String) (n : Nat) :
    bundle_for iid
        [⟨"InstanceID", CMPIValue.chars iid, CMPI_chars⟩,
         ⟨"VirtualQuantity", CMPIValue.uint64 n, CMPI_uint64⟩] ∧
      virtual_quantity
        [⟨"InstanceID", CMPIValue.chars iid, CMPI_chars⟩,
         ⟨"VirtualQuantity", CMPIValue.uint64 n, CMPI_uint64⟩] = some n := by
  obtain ⟨_, _, _, b, hb, hfor, hvq⟩ := static_bundle2 status_ok [] iid n
  rw [copy_rasd_plain _ _ _ (by simp)] at hb
  cases hb
  exact ⟨hfor, hvq⟩

theorem static3_slot (g : rasd_prop_func_t) (iid units ut : String) (n : Nat)
    (hu : ut = "AllocationUnits" ∨ ut = "AllocationQuantity")
    (hg : ∀ h ref s conns, g h ref s conns = copy_rasd
      [⟨"InstanceID", CMPIValue.chars iid, CMPI_chars⟩,
       ⟨ut, CMPIValue.chars units, CMPI_chars⟩,
       ⟨"VirtualQuantity", CMPIValue.uint64 n, CMPI_uint64⟩] s conns) :
    static_slot g n ∧ good_slot g iid := by
  constructor
  · intro h ref s conns
    rw [hg]
    have := static_bundle3 s conns iid units ut n hu
    exact ⟨this.1, this.2.1, this.2.2.1⟩
  · intro h ref s conns _
    rw [hg]
    obtain ⟨_, _, _, b, hb, hfor, hvq⟩ := static_bundle3 s conns iid units ut n hu
    exact ⟨b, n, hb, hfor, hvq⟩

theorem static2_slot (g : rasd_prop_func_t) (iid : String) (n : Nat)
    (hg : ∀ h ref s conns, g h ref s conns = copy_rasd
      [⟨"InstanceID", CMPIValue.chars iid, CMPI_chars⟩,
       ⟨"VirtualQuantity", CMPIValue.uint64 n, CMPI_uint64⟩] s conns) :
    static_slot g n ∧ good_slot g iid := by
  constructor
  · intro h ref s conns
    rw [hg]
    have := static_bundle2 s conns iid n
    exact ⟨this.1, this.2.1, this.2.2.1⟩
  · intro h ref s conns _
    rw [hg]
    obtain ⟨_, _, _, b, hb, hfor, hvq⟩ := static_bundle2 s conns iid n
    exact ⟨b, n, hb, hfor, hvq⟩

theorem mem_max_good : good_slot mem_max "Maximum" := by
  intro h ref s conns _
  obtain ⟨_, _, _, b, hb, hfor, hvq⟩ :=
    static_bundle3 s conns "Maximum" "KiloBytes" "AllocationUnits" h.MAX_MEM (Or.inl rfl)
  exact ⟨b, h.MAX_MEM, hb, hfor, hvq⟩

theorem proc_max_good : good_slot proc_max "Maximum" := by
  intro h ref s conns hok
  obtain ⟨n, hn⟩ := proc_max_shape h ref s conns hok
  obtain ⟨hfor, hvq⟩ := bundle3_facts "Maximum" "Processors" "AllocationUnits" n (Or.inl rfl)
  exact ⟨_, n, hn, hfor, hvq⟩

theorem net_max_good : good_slot net_max "Maximum" := by
  intro h ref s conns hok
  obtain ⟨n, hn⟩ := net_max_shape h ref s conns hok
  obtain ⟨hfor, hvq⟩ := bundle2_facts "Maximum" n
  exact ⟨_, n, hn, hfor, hvq⟩

theorem disk_max_good : good_slot disk_max "Maximum" := by
  intro h ref s conns hok
  obtain ⟨n, hn⟩ := disk_max_shape h ref s conns hok
  obtain ⟨hfor, hvq⟩ := bundle3_facts "Maximum" "MegaBytes" "AllocationQuantity" n (Or.inr rfl)
  exact ⟨_, n, hn, hfor, hvq⟩

/-- Every descriptor of `sdc_rasd_list` has its four slots filled; Minimum,
Default and Increment are static, every slot answers with a bundle of the
expected shape, and the resource type has a class name. -/
theorem table_slots (d : sdc_rasd) (hd : d ∈ sdc_rasd_list) :
    ∃ gmin gmax gdef ginc nmin ndef ninc,
      d.min = some gmin ∧ d.max = some gmax ∧ d.def_ = some gdef ∧ d.inc = some ginc ∧
      static_slot gmin nmin ∧ static_slot gdef ndef ∧ static_slot ginc ninc ∧
      good_slot gmin "Minimum" ∧ good_slot gmax "Maximum" ∧
      good_slot gdef "Default" ∧ good_slot ginc "Increment" ∧
      nmin ≤ ndef ∧ 0 < ninc ∧
      ndef = (if d.resource_type = CIM_RES_TYPE_MEM then 262144
              else if d.resource_type = CIM_RES_TYPE_DISK then 5000 else 1) ∧
      ∃ base, rasd_classname_from_type d.resource_type = some base := by
  simp only [sdc_rasd_list, List.mem_cons, List.mem_singleton, List.not_mem_nil, or_false] at hd
  rcases hd with rfl | rfl | rfl | rfl
  · have h1 := static3_slot mem_min "Minimum" "KiloBytes" "AllocationUnits" 65536 (Or.inl rfl)
      (fun _ _ _ _ => rfl)
    have h2 := static3_slot mem_def "Default" "KiloBytes" "AllocationUnits" 262144 (Or.inl rfl)
      (fun _ _ _ _ => rfl)
    have h3 := static3_slot mem_inc "Increment" "KiloBytes" "AllocationUnits" 1024 (Or.inl rfl)
      (fun _ _ _ _ => rfl)
    exact ⟨mem_min, mem_max, mem_def, mem_inc, 65536, 262144, 1024, rfl, rfl, rfl, rfl,
      h1.1, h2.1, h3.1, h1.2, mem_max_good, h2.2, h3.2, by decide, by decide, by decide,
      _, rfl⟩
  · have h1 := static3_slot proc_min "Minimum" "Processors" "AllocationUnits" 1 (Or.inl rfl)
      (fun _ _ _ _ => rfl)
    have h2 := static3_slot proc_def "Default" "Processors" "AllocationUnits" 1 (Or.inl rfl)
      (fun _ _ _ _ => rfl)
    have h3 := static3_slot proc_inc "Increment" "Processors" "AllocationUnits" 1 (Or.inl rfl)
      (fun _ _ _ _ => rfl)
    exact ⟨proc_min, proc_max, proc_def, proc_inc, 1, 1, 1, rfl, rfl, rfl, rfl,
      h1.1, h2.1, h3.1, h1.2, proc_max_good, h2.2, h3.2, by decide, by decide, by decide,
      _, rfl⟩
  · have h1 := static2_slot net_min "Minimum" 0 (fun _ _ _ _ => rfl)
    have h2 := static2_slot net_def "Default" 1 (fun _ _ _ _ => rfl)
    have h3 := static2_slot net_inc "Increment" 1 (fun _ _ _ _ => rfl)
    exact ⟨net_min, net_max, net_def, net_inc, 0, 1, 1, rfl, rfl, rfl, rfl,
      h1.1, h2.1, h3.1, h1.2, net_max_good, h2.2, h3.2, by decide, by decide, by decide,
      _, rfl⟩
  · have h1 := static3_slot disk_min "Minimum" "MegaBytes" "AllocationQuantity" 2000 (Or.inr rfl)
      (fun _ _ _ _ => rfl)
    have h2 := static3_slot disk_def "Default" "MegaBytes" "AllocationQuantity" 5000 (Or.inr rfl)
      (fun _ _ _ _ => rfl)
    have h3 := static3_slot disk_inc "Increment" "MegaBytes" "AllocationQuantity" 250 (Or.inr rfl)
      (fun _ _ _ _ => rfl)
    exact ⟨disk_min, disk_max, disk_def, disk_inc, 2000, 5000, 250, rfl, rfl, rfl, rfl,
      h1.1, h2.1, h3.1, h1.2, disk_max_good, h2.2, h3.2, by decide, by decide, by decide,
      _, rfl⟩

/-! ### Order of the bounds -/

/-- C2 (amended). For every descriptor of `sdc_rasd_list`, every reference and
host and every run of its four resolvers in which the Maximum resolver succeeds
(the three others are static and always answer), the VirtualQuantity values
satisfy Minimum ≤ Default and Increment > 0; Default ≤ Maximum holds exactly
when the Maximum that was resolved is at least the static Default of the type
(262144 for memory, 5000 for disk, 1 for processor and network): a Maximum is
passed through as resolved, it is not raised to the Default. -/
theorem bounds_min_def_inc (h : Host) (ref : CMPIObjectPath) (d : sdc_rasd)
    (gmin gmax gdef ginc : rasd_prop_func_t)
    (s1 s2 s3 s4 : CMPIStatus) (c1 c2 c3 c4 : List virConnectPtr)
    (hd : d ∈ sdc_rasd_list)
    (hmin : d.min = some gmin) (hmax : d.max = some gmax)
    (hdef : d.def_ = some gdef) (hinc : d.inc = some ginc)
    (ok2 : (gmax h ref s2 c2).succeeded) :
    ∃ vmin vmax vdef vinc,
      (gmin h ref s1 c1).vq = some vmin ∧ (gmax h ref s2 c2).vq = some vmax ∧
      (gdef h ref s3 c3).vq = some vdef ∧ (ginc h ref s4 c4).vq = some vinc ∧
      vmin ≤ vdef ∧ 0 < vinc ∧
      (vdef ≤ vmax ↔
        (if d.resource_type = CIM_RES_TYPE_MEM then 262144
         else if d.resource_type = CIM_RES_TYPE_DISK then 5000 else 1) ≤ vmax) := by
  obtain ⟨g1, g2, g3, g4, nmin, ndef, ninc, e1, e2, e3, e4, st1, st3, st4, _, gd2, _, _,
    hle, hpos, hdefv, _⟩ := table_slots d hd
  rw [hmin] at e1; rw [hmax] at e2; rw [hdef] at e3; rw [hinc] at e4
  cases e1; cases e2; cases e3; cases e4
  obtain ⟨b, vmax, hb, _, hvq⟩ := gd2 h ref s2 c2 ok2.1
  refine ⟨nmin, vmax, ndef, ninc, (st1 h ref s1 c1).2.2, ?_, (st3 h ref s3 c3).2.2,
    (st4 h ref s4 c4).2.2, hle, hpos, ?_⟩
  · simp [Resolved.vq, hb, hvq]
  · rw [hdefv]

/-- C2 (witness for the amended claim). The disk descriptor on the sample host
with a pool of Capacity 100000. -/
theorem bounds_min_def_inc_witness :
    ∃ vmin vmax vdef vinc,
      (disk_min (sample_host 8 3001000 none 100000)
        (sample_ref "Xen_AllocationCapabilities" "DiskPool/0") status_ok []).vq = some vmin ∧
      (disk_max (sample_host 8 3001000 none 100000)
        (sample_ref "Xen_AllocationCapabilities" "DiskPool/0") status_ok []).vq = some vmax ∧
      (disk_def (sample_host 8 3001000 none 100000)
        (sample_ref "Xen_AllocationCapabilities" "DiskPool/0") status_ok []).vq = some vdef ∧
      (disk_inc (sample_host 8 3001000 none 100000)
        (sample_ref "Xen_AllocationCapabilities" "DiskPool/0") status_ok []).vq = some vinc ∧
      vmin ≤ vdef ∧ 0 < vinc ∧
      (vdef ≤ vmax ↔
        (if disk.resource_type = CIM_RES_TYPE_MEM then 262144
         else if disk.resource_type = CIM_RES_TYPE_DISK then 5000 else 1) ≤ vmax) :=
  bounds_min_def_inc (sample_host 8 3001000 none 100000)
    (sample_ref "Xen_AllocationCapabilities" "DiskPool/0") disk
    disk_min disk_max disk_def disk_inc status_ok status_ok status_ok status_ok [] [] [] []
    (by simp [sdc_rasd_list]) rfl rfl rfl rfl (by decide)

/-- C2 (counterexample). On the sample host with a disk pool of Capacity 1000
the four disk resolvers all succeed, Default is 5000 and Maximum is 1000: the
chain Minimum ≤ Default ≤ Maximum fails. -/
theorem bounds_order_fails_small_pool :
    disk ∈ sdc_rasd_list ∧
    (disk_min (sample_host 8 3001000 none 1000)
      (sample_ref "Xen_AllocationCapabilities" "DiskPool/0") status_ok []).succeeded ∧
    (disk_max (sample_host 8 3001000 none 1000)
      (sample_ref "Xen_AllocationCapabilities" "DiskPool/0") status_ok []).succeeded ∧
    (disk_def (sample_host 8 3001000 none 1000)
      (sample_ref "Xen_AllocationCapabilities" "DiskPool/0") status_ok []).succeeded ∧
    (disk_inc (sample_host 8 3001000 none 1000)
      (sample_ref "Xen_AllocationCapabilities" "DiskPool/0") status_ok []).succeeded ∧
    (disk_min (sample_host 8 3001000 none 1000)
      (sample_ref "Xen_AllocationCapabilities" "DiskPool/0") status_ok []).vq = some 2000 ∧
    (disk_def (sample_host 8 3001000 none 1000)
      (sample_ref "Xen_AllocationCapabilities" "DiskPool/0") status_ok []).vq = some 5000 ∧
    (disk_max (sample_host 8 3001000 none 1000)
      (sample_ref "Xen_AllocationCapabilities" "DiskPool/0") status_ok []).vq = some 1000 ∧
    ¬ (2000 ≤ 5000 ∧ 5000 ≤ 1000) := by
  refine ⟨by simp [sdc_rasd_list], by decide, by decide, by decide, by decide, by decide,
    by decide, by decide, by decide⟩

/-! ### The VSSD variant generator -/

theorem starts_with_KVM_not_Xen (cn : String) (hk : STARTS_WITH cn "KVM" = true) :
    STARTS_WITH cn "Xen" = false := by
  unfold STARTS_WITH at hk ⊢
  cases hcn : cn.data with
  | nil => rw [hcn] at hk; exact absurd hk (by decide)
  | cons c cs =>
    rw [hcn] at hk
    have hc : c = 'K' := by
      have := List.isPrefixOf_iff_prefix.mp hk
      obtain ⟨t, ht⟩ := this
      have h0 : ("KVM".data ++ t).head? = (c :: cs).head? := by rw [ht]
      simpa using h0.symm
    subst hc
    rfl

theorem starts_with_LXC_not_Xen_KVM (cn : String) (hl : STARTS_WITH cn "LXC" = true) :
    STARTS_WITH cn "Xen" = false ∧ STARTS_WITH cn "KVM" = false := by
  unfold STARTS_WITH at hl ⊢
  cases hcn : cn.data with
  | nil => rw [hcn] at hl; exact absurd hl (by decide)
  | cons c cs =>
    rw [hcn] at hl
    have hc : c = 'L' := by
      have := List.isPrefixOf_iff_prefix.mp hl
      obtain ⟨t, ht⟩ := this
      have h0 : ("LXC".data ++ t).head? = (c :: cs).head? := by rw [ht]
      simpa using h0.symm
    subst hc
    exact ⟨rfl, rfl⟩

theorem system_has_vt_iff (h : Host) (conn : virConnectPtr) :
    system_has_vt h conn = true ↔
      ∃ caps, h.virConnectGetCapabilities conn = some caps ∧ "hvm".data <:+: caps.data := by
  unfold system_has_vt
  cases hc : h.virConnectGetCapabilities conn with
  | none => simp
  | some caps => simp [strstr, strstr_chars_iff]

/-- C8. When `connect_by_classname` returns a handle and `get_typed_instance`
builds the VSSD instance, `vsmc_to_vssd` returns OK and appends: for a class
name starting with "Xen", two profiles when the capabilities text contains
"hvm" (isFullVirt = false first, isFullVirt = true second) and one profile
(isFullVirt = false) when the text lacks "hvm" or is `NULL`; for a class name
starting with "KVM", one profile with VirtualSystemIdentifier "KVM_guest" and
BootDevice "hda"; for a class name starting with "LXC", one profile with
InitPath "/sbin/init". -/
theorem vsmc_to_vssd_profiles (h : Host) (ref : CMPIObjectPath) (info : std_assoc_info)
    (list : List CMPIInstance) (conns : List virConnectPtr) (conn : virConnectPtr)
    (st : CMPIStatus) (inst0 : CMPIInstance)
    (hconn : h.connect_by_classname (CLASSNAME ref) = (some conn, st))
    (hinst : h.get_typed_instance (h.pfx_from_conn conn) "VirtualSystemSettingData"
      (NAMESPACE ref) = some inst0) :
    (STARTS_WITH (CLASSNAME ref) "Xen" = true →
      ((∃ caps, h.virConnectGetCapabilities conn = some caps ∧ "hvm".data <:+: caps.data) →
        (vsmc_to_vssd h ref info list conns).s.rc = CMPI_RC_OK ∧
        ∃ pv fv, (vsmc_to_vssd h ref info list conns).list = list ++ [pv, fv] ∧
          CMGetProperty pv "isFullVirt" = some (CMPIValue.boolean false) ∧
          CMGetProperty fv "isFullVirt" = some (CMPIValue.boolean true)) ∧
      ((¬ ∃ caps, h.virConnectGetCapabilities conn = some caps ∧ "hvm".data <:+: caps.data) →
        (vsmc_to_vssd h ref info list conns).s.rc = CMPI_RC_OK ∧
        ∃ pv, (vsmc_to_vssd h ref info list conns).list = list ++ [pv] ∧
          CMGetProperty pv "isFullVirt" = some (CMPIValue.boolean false))) ∧
    (STARTS_WITH (CLASSNAME ref) "KVM" = true →
      (vsmc_to_vssd h ref info list conns).s.rc = CMPI_RC_OK ∧
      ∃ p, (vsmc_to_vssd h ref info list conns).list = list ++ [p] ∧
        CMGetProperty p "VirtualSystemIdentifier" = some (CMPIValue.chars "KVM_guest") ∧
        CMGetProperty p "BootDevice" = some (CMPIValue.chars "hda")) ∧
    (STARTS_WITH (CLASSNAME ref) "LXC" = true →
      (vsmc_to_vssd h ref info list conns).s.rc = CMPI_RC_OK ∧
      ∃ p, (vsmc_to_vssd h ref info list conns).list = list ++ [p] ∧
        CMGetProperty p "InitPath" = some (CMPIValue.chars "/sbin/init")) := by
  have hdflt : ∀ k, default_vssd_instance h (h.pfx_from_conn conn) (NAMESPACE ref) k =
      some (CMSetProperty inst0 "InstanceID"
        (CMPIValue.chars (h.pfx_from_conn conn ++ ":" ++ h.uuid_unparse k))) := by
    intro k
    simp [default_vssd_instance, hinst]
  refine ⟨?_, ?_, ?_⟩
  · intro hx
    constructor
    · intro hvt
      have hvt1 := (system_has_vt_iff h conn).mpr hvt
      simp only [vsmc_to_vssd, hconn, hx, if_true, _xen_vsmc_to_vssd, _xen_base_vssd, hdflt,
        hvt1, inst_list_add]
      refine ⟨trivial, _, _, List.append_assoc _ _ _, ?_, ?_⟩
      · exact CMGetProperty_set_self _ _ _
      · exact CMGetProperty_set_self _ _ _
    · intro hvt
      have hvt1 : system_has_vt h conn = false := by
        cases hsv : system_has_vt h conn with
        | false => rfl
        | true => exact absurd ((system_has_vt_iff h conn).mp hsv) hvt
      simp only [vsmc_to_vssd, hconn, hx, if_true, _xen_vsmc_to_vssd, _xen_base_vssd, hdflt,
        hvt1, inst_list_add, Bool.false_eq_true, if_false]
      refine ⟨trivial, _, rfl, ?_⟩
      exact CMGetProperty_set_self _ _ _
  · intro hk
    have hx := starts_with_KVM_not_Xen _ hk
    simp only [vsmc_to_vssd, hconn, hx, hk, if_true, _kvm_vsmc_to_vssd, hdflt, inst_list_add,
      Bool.false_eq_true, if_false]
    refine ⟨trivial, _, rfl, ?_, ?_⟩
    · rw [CMGetProperty_set_ne _ _ _ _ (by decide)]
      exact CMGetProperty_set_self _ _ _
    · exact CMGetProperty_set_self _ _ _
  · intro hl
    obtain ⟨hx, hk⟩ := starts_with_LXC_not_Xen_KVM _ hl
    simp only [vsmc_to_vssd, hconn, hx, hk, hl, if_true, _lxc_vsmc_to_vssd, hdflt,
      inst_list_add, Bool.false_eq_true, if_false]
    refine ⟨trivial, _, rfl, ?_⟩
    exact CMGetProperty_set_self _ _ _

/-- C8 (witness). On the sample host: a Xen reference with a capabilities text
that contains "hvm" gets two profiles, without capabilities one profile; a KVM
and an LXC reference get one profile each. -/
theorem vsmc_to_vssd_profiles_witness :
    (vsmc_to_vssd (sample_host 8 3001000 (some "<os_type>hvm</os_type>") 100000)
      (sample_ref "Xen_VirtualSystemManagementCapabilities" "ManagementCapabilities")
      sample_info [] []).list.length = 2 ∧
    (vsmc_to_vssd (sample_host 8 3001000 none 100000)
      (sample_ref "Xen_VirtualSystemManagementCapabilities" "ManagementCapabilities")
      sample_info [] []).list.length = 1 ∧
    (vsmc_to_vssd (sample_host 8 3001000 none 100000)
      (sample_ref "KVM_VirtualSystemManagementCapabilities" "ManagementCapabilities")
      sample_info [] []).list.length = 1 ∧
    (vsmc_to_vssd (sample_host 8 3001000 none 100000)
      (sample_ref "LXC_VirtualSystemManagementCapabilities" "ManagementCapabilities")
      sample_info [] []).list.length = 1 := by
  refine ⟨?_, ?_, ?_, ?_⟩
  · obtain ⟨_, pv, fv, hl, _, _⟩ :=
      ((vsmc_to_vssd_profiles (sample_host 8 3001000 (some "<os_type>hvm</os_type>") 100000)
        (sample_ref "Xen_VirtualSystemManagementCapabilities" "ManagementCapabilities")
        sample_info [] [] 1 status_ok
        { classname := "Xen/VirtualSystemSettingData", ns := "root/virt", props := [] }
        rfl rfl).1 (by decide)).1
        ⟨"<os_type>hvm</os_type>", rfl, (strstr_chars_iff _ _).mp (by decide)⟩
    rw [hl]
    rfl
  · obtain ⟨_, pv, hl, _⟩ :=
      ((vsmc_to_vssd_profiles (sample_host 8 3001000 none 100000)
        (sample_ref "Xen_VirtualSystemManagementCapabilities" "ManagementCapabilities")
        sample_info [] [] 1 status_ok
        { classname := "Xen/VirtualSystemSettingData", ns := "root/virt", props := [] }
        rfl rfl).1 (by decide)).2
        (by rintro ⟨caps, hc, _⟩; exact absurd hc (by simp [sample_host]))
    rw [hl]
    rfl
  · obtain ⟨_, p, hl, _, _⟩ :=
      (vsmc_to_vssd_profiles (sample_host 8 3001000 none 100000)
        (sample_ref "KVM_VirtualSystemManagementCapabilities" "ManagementCapabilities")
        sample_info [] [] 1 status_ok
        { classname := "Xen/VirtualSystemSettingData", ns := "root/virt", props := [] }
        rfl rfl).2.1 (by decide)
    rw [hl]
    rfl
  · obtain ⟨_, p, hl, _⟩ :=
      (vsmc_to_vssd_profiles (sample_host 8 3001000 none 100000)
        (sample_ref "LXC_VirtualSystemManagementCapabilities" "ManagementCapabilities")
        sample_info [] [] 1 status_ok
        { classname := "Xen/VirtualSystemSettingData", ns := "root/virt", props := [] }
        rfl rfl).2.2 (by decide)
    rw [hl]
    rfl

/-! ### The capability instance builder -/

theorem sdc_rasd_inst_fail_eq (h : Host) (s : CMPIStatus) (conns : List virConnectPtr)
    (ref : CMPIObjectPath) (d : sdc_rasd) (i : Nat) (g : rasd_prop_func_t) (inst_id : String)
    (hsw : sdc_rasd_switch d i = some (some g, inst_id))
    (hrc : (g h ref s conns).s.rc ≠ CMPI_RC_OK) :
    sdc_rasd_inst h s conns ref d i =
      some { inst := none, s := (g h ref s conns).s, conns := (g h ref s conns).conns } := by
  simp only [sdc_rasd_inst, hsw]
  rw [if_pos hrc]

theorem sdc_rasd_inst_ok_eq (h : Host) (s : CMPIStatus) (conns : List virConnectPtr)
    (ref : CMPIObjectPath) (d : sdc_rasd) (i : Nat) (g : rasd_prop_func_t)
    (inst_id base : String) (inst0 : CMPIInstance) (b : List sdc_rasd_prop)
    (hsw : sdc_rasd_switch d i = some (some g, inst_id))
    (hrc : (g h ref s conns).s.rc = CMPI_RC_OK)
    (hb : (g h ref s conns).rasd = some b)
    (hbase : rasd_classname_from_type d.resource_type = some base)
    (hgti : h.get_typed_instance (CLASSNAME ref) base (NAMESPACE ref) = some inst0) :
    sdc_rasd_inst h s conns ref d i =
      some { inst := some (set_rasd_props
               (CMSetProperty (CMSetProperty inst0 "InstanceID" (CMPIValue.chars inst_id))
                 "ResourceType" (CMPIValue.uint16 d.resource_type)) b),
             s := (g h ref s conns).s, conns := (g h ref s conns).conns } := by
  simp only [sdc_rasd_inst, hsw]
  rw [if_neg (not_not.mpr hrc)]
  simp only [hbase, hgti, hb]

theorem sdc_rasd_inst_null_eq (h : Host) (s : CMPIStatus) (conns : List virConnectPtr)
    (ref : CMPIObjectPath) (d : sdc_rasd) (i : Nat) (g : rasd_prop_func_t)
    (inst_id base : String)
    (hsw : sdc_rasd_switch d i = some (some g, inst_id))
    (hrc : (g h ref s conns).s.rc = CMPI_RC_OK)
    (hbase : rasd_classname_from_type d.resource_type = some base)
    (hgti : h.get_typed_instance (CLASSNAME ref) base (NAMESPACE ref) = none) :
    sdc_rasd_inst h s conns ref d i = none := by
  simp only [sdc_rasd_inst, hsw]
  rw [if_neg (not_not.mpr hrc)]
  simp only [hbase, hgti]

theorem set_rasd_props_other (b : List sdc_rasd_prop) (inst_id k : String)
    (hb : bundle_for inst_id b)
    (h1 : k ≠ "InstanceID") (h2 : k ≠ "AllocationUnits") (h3 : k ≠ "AllocationQuantity")
    (h4 : k ≠ "VirtualQuantity") (inst : CMPIInstance) :
    CMGetProperty (set_rasd_props inst b) k = CMGetProperty inst k := by
  induction b generalizing inst with
  | nil => rfl
  | cons p rest ih =>
    have hrest : bundle_for inst_id rest := fun q hq => hb q (List.mem_cons_of_mem _ hq)
    have hp := hb p (List.mem_cons_self _ _)
    have hne : p.field ≠ k := by
      rcases hp with ⟨hf, _⟩ | hf | hf | hf <;> rw [hf] <;> exact fun e => by simp_all
    show CMGetProperty (set_rasd_props (CMSetProperty inst p.field p.value) rest) k = _
    rw [ih hrest, CMGetProperty_set_ne _ _ _ _ hne]

theorem set_rasd_props_InstanceID (b : List sdc_rasd_prop) (inst_id : String)
    (hb : bundle_for inst_id b) (inst : CMPIInstance)
    (hinst : CMGetProperty inst "InstanceID" = some (CMPIValue.chars inst_id)) :
    CMGetProperty (set_rasd_props inst b) "InstanceID" = some (CMPIValue.chars inst_id) := by
  induction b generalizing inst with
  | nil => exact hinst
  | cons p rest ih =>
    have hrest : bundle_for inst_id rest := fun q hq => hb q (List.mem_cons_of_mem _ hq)
    have hp := hb p (List.mem_cons_self _ _)
    show CMGetProperty (set_rasd_props (CMSetProperty inst p.field p.value) rest) _ = _
    apply ih hrest
    by_cases hf : p.field = "InstanceID"
    · rcases hp with ⟨_, hv⟩ | hf2 | hf2 | hf2
      · rw [hf, hv]
        exact CMGetProperty_set_self _ _ _
      all_goals (rw [hf] at hf2; exact absurd hf2 (by decide))
    · rw [CMGetProperty_set_ne _ _ _ _ hf]
      exact hinst

/-- What `sdc_rasd_inst` guarantees about an instance it built for the bound
named `inst_id` of resource type `t`. -/
theorem built_instance_facts (inst0 : CMPIInstance) (inst_id : String) (t : Nat)
    (b : List sdc_rasd_prop) (hb : bundle_for inst_id b) :
    cu_get_str_prop (set_rasd_props
        (CMSetProperty (CMSetProperty inst0 "InstanceID" (CMPIValue.chars inst_id))
          "ResourceType" (CMPIValue.uint16 t)) b) "InstanceID" = some inst_id ∧
      CMGetProperty (set_rasd_props
        (CMSetProperty (CMSetProperty inst0 "InstanceID" (CMPIValue.chars inst_id))
          "ResourceType" (CMPIValue.uint16 t)) b) "ResourceType" = some (CMPIValue.uint16 t) := by
  constructor
  · have := set_rasd_props_InstanceID b inst_id hb
      (CMSetProperty (CMSetProperty inst0 "InstanceID" (CMPIValue.chars inst_id))
          "ResourceType" (CMPIValue.uint16 t))
      (by rw [CMGetProperty_set_ne _ _ _ _ (by decide)]; exact CMGetProperty_set_self _ _ _)
    simp [cu_get_str_prop, this]
  · rw [set_rasd_props_other b inst_id "ResourceType" hb (by decide) (by decide) (by decide)
      (by decide)]
    exact CMGetProperty_set_self _ _ _

theorem sdc_rasd_type_range :
    List.range' SDC_RASD_MIN (SDC_RASD_INC + 1 - SDC_RASD_MIN) = [0, 1, 2, 3] := by
  decide

theorem status_ok_rc : status_ok.rc = CMPI_RC_OK := rfl

/-- The loop of `sdc_rasds_for_type` on a descriptor of the table, started with
the OK status: a `NULL` from `get_typed_instance` is dereferenced at the first
bound; otherwise Minimum is appended, and then either Maximum fails and the
loop stops with that status, or all four bounds are appended. -/
theorem sdc_rasds_loop_table (h : Host) (ref : CMPIObjectPath) (d : sdc_rasd)
    (list : List CMPIInstance) (conns : List virConnectPtr) (hd : d ∈ sdc_rasd_list) :
    ∃ gmax base, d.max = some gmax ∧ rasd_classname_from_type d.resource_type = some base ∧
      (h.get_typed_instance (CLASSNAME ref) base (NAMESPACE ref) = none →
        sdc_rasds_loop h ref d [0, 1, 2, 3] status_ok list conns = none) ∧
      (∀ inst0, h.get_typed_instance (CLASSNAME ref) base (NAMESPACE ref) = some inst0 →
        ∃ imin, is_bound_instance imin "Minimum" d.resource_type ∧
          ((gmax h ref status_ok conns).s.rc ≠ CMPI_RC_OK →
            sdc_rasds_loop h ref d [0, 1, 2, 3] status_ok list conns =
              some { s := (gmax h ref status_ok conns).s, list := list ++ [imin],
                     conns := (gmax h ref status_ok conns).conns }) ∧
          ((gmax h ref status_ok conns).s.rc = CMPI_RC_OK →
            ∃ imax idef iinc, is_bound_instance imax "Maximum" d.resource_type ∧
              is_bound_instance idef "Default" d.resource_type ∧
              is_bound_instance iinc "Increment" d.resource_type ∧
              sdc_rasds_loop h ref d [0, 1, 2, 3] status_ok list conns =
                some { s := (gmax h ref status_ok conns).s,
                       list := list ++ [imin, imax, idef, iinc],
                       conns := (gmax h ref status_ok conns).conns })) := by
  obtain ⟨gmin, gmax, gdef, ginc, nmin, ndef, ninc, e1, e2, e3, e4, st1, st3, st4,
    gd1, gd2, gd3, gd4, _, _, _, base, hbase⟩ := table_slots d hd
  have sw0 : sdc_rasd_switch d 0 = some (some gmin, "Minimum") := by
    simp [sdc_rasd_switch, SDC_RASD_MIN, e1]
  have sw1 : sdc_rasd_switch d 1 = some (some gmax, "Maximum") := by
    simp [sdc_rasd_switch, SDC_RASD_MIN, SDC_RASD_MAX, e2]
  have sw2 : sdc_rasd_switch d 2 = some (some gdef, "Default") := by
    simp [sdc_rasd_switch, SDC_RASD_MIN, SDC_RASD_MAX, SDC_RASD_INC, SDC_RASD_DEF, e3]
  have sw3 : sdc_rasd_switch d 3 = some (some ginc, "Increment") := by
    simp [sdc_rasd_switch, SDC_RASD_MIN, SDC_RASD_MAX, SDC_RASD_INC, e4]
  have hs0 : (gmin h ref status_ok conns).s = status_ok := (st1 h ref status_ok conns).1
  have hc0 : (gmin h ref status_ok conns).conns = conns := (st1 h ref status_ok conns).2.1
  have hrc0 : (gmin h ref status_ok conns).s.rc = CMPI_RC_OK := by rw [hs0]; rfl
  refine ⟨gmax, base, e2, hbase, ?_, ?_⟩
  · intro hnone
    simp only [sdc_rasds_loop, sdc_rasd_inst_null_eq h status_ok conns ref d 0 gmin "Minimum"
      base sw0 hrc0 hbase hnone]
  · intro inst0 hgti
    obtain ⟨b0, _, hb0, hfor0, _⟩ := gd1 h ref status_ok conns hrc0
    have step0 := sdc_rasd_inst_ok_eq h status_ok conns ref d 0 gmin "Minimum" base inst0 b0
      sw0 hrc0 hb0 hbase hgti
    rw [hs0, hc0] at step0
    refine ⟨_, built_instance_facts inst0 "Minimum" d.resource_type b0 hfor0, ?_, ?_⟩
    · intro hfail
      have step1 := sdc_rasd_inst_fail_eq h status_ok conns ref d 1 gmax "Maximum" sw1 hfail
      simp only [sdc_rasds_loop, step0, step1, status_ok_rc, ne_eq, not_true_eq_false,
        if_false, inst_list_add]
      rw [if_pos hfail]
    · intro hok
      obtain ⟨b1, _, hb1, hfor1, _⟩ := gd2 h ref status_ok conns hok
      have step1 := sdc_rasd_inst_ok_eq h status_ok conns ref d 1 gmax "Maximum" base inst0 b1
        sw1 hok hb1 hbase hgti
      have hs2 := (st3 h ref (gmax h ref status_ok conns).s (gmax h ref status_ok conns).conns)
      have hrc2 : (gdef h ref (gmax h ref status_ok conns).s
          (gmax h ref status_ok conns).conns).s.rc = CMPI_RC_OK := by rw [hs2.1]; exact hok
      obtain ⟨b2, _, hb2, hfor2, _⟩ := gd3 h ref _ _ hrc2
      have step2 := sdc_rasd_inst_ok_eq h _ _ ref d 2 gdef "Default" base inst0 b2
        sw2 hrc2 hb2 hbase hgti
      rw [hs2.1, hs2.2.1] at step2
      have hs3 := (st4 h ref (gmax h ref status_ok conns).s (gmax h ref status_ok conns).conns)
      have hrc3 : (ginc h ref (gmax h ref status_ok conns).s
          (gmax h ref status_ok conns).conns).s.rc = CMPI_RC_OK := by rw [hs3.1]; exact hok
      obtain ⟨b3, _, hb3, hfor3, _⟩ := gd4 h ref _ _ hrc3
      have step3 := sdc_rasd_inst_ok_eq h _ _ ref d 3 ginc "Increment" base inst0 b3
        sw3 hrc3 hb3 hbase hgti
      rw [hs3.1, hs3.2.1] at step3
      refine ⟨_, _, _, built_instance_facts inst0 "Maximum" d.resource_type b1 hfor1,
        built_instance_facts inst0 "Default" d.resource_type b2 hfor2,
        built_instance_facts inst0 "Increment" d.resource_type b3 hfor3, ?_⟩
      simp only [sdc_rasds_loop, step0, step1, step2, step3, status_ok_rc, hok, ne_eq,
        not_true_eq_false, if_false, inst_list_add, List.append_assoc, List.singleton_append,
        List.cons_append, List.nil_append]

theorem find_table (t : Nat) :
    (∃ d, sdc_rasd_list.find? (fun r => r.resource_type == t) = some d ∧
      d ∈ sdc_rasd_list ∧ d.resource_type = t) ∨
    (sdc_rasd_list.find? (fun r => r.resource_type == t) = none ∧
      ∀ d ∈ sdc_rasd_list, d.resource_type ≠ t) := by
  cases hf : sdc_rasd_list.find? (fun r => r.resource_type == t) with
  | none =>
    right
    refine ⟨rfl, fun d hd => ?_⟩
    have := List.find?_eq_none.mp hf d hd
    simpa using this
  | some d =>
    left
    refine ⟨d, rfl, List.mem_of_find?_eq_some hf, ?_⟩
    have := List.find?_some hf
    simpa using this

theorem res_type_from_pool_id_cases (id : String) :
    res_type_from_pool_id id = CIM_RES_TYPE_PROC ∨ res_type_from_pool_id id = CIM_RES_TYPE_MEM ∨
    res_type_from_pool_id id = CIM_RES_TYPE_NET ∨ res_type_from_pool_id id = CIM_RES_TYPE_DISK ∨
    res_type_from_pool_id id = CIM_RES_TYPE_UNKNOWN := by
  unfold res_type_from_pool_id
  split_ifs <;> simp

theorem known_type_in_table (t : Nat)
    (ht : t = CIM_RES_TYPE_PROC ∨ t = CIM_RES_TYPE_MEM ∨ t = CIM_RES_TYPE_NET ∨
      t = CIM_RES_TYPE_DISK) :
    ∃ d, sdc_rasd_list.find? (fun r => r.resource_type == t) = some d ∧
      d ∈ sdc_rasd_list ∧ d.resource_type = t := by
  rcases find_table t with hfound | ⟨_, hnone⟩
  · exact hfound
  · exfalso
    rcases ht with rfl | rfl | rfl | rfl
    · exact hnone processor (by simp [sdc_rasd_list]) rfl
    · exact hnone mem (by simp [sdc_rasd_list]) rfl
    · exact hnone network (by simp [sdc_rasd_list]) rfl
    · exact hnone disk (by simp [sdc_rasd_list]) rfl

/-- The function `sdc_rasds_for_type` in terms of its loop. -/
theorem sdc_rasds_for_type_eq (h : Host) (ref : CMPIObjectPath) (list : List CMPIInstance)
    (type : Nat) (conns : List virConnectPtr) :
    sdc_rasds_for_type h ref list type conns =
      match sdc_rasd_list.find? (fun r => r.resource_type == type) with
      | some rasd => sdc_rasds_loop h ref rasd [0, 1, 2, 3] status_ok list conns
      | none =>
        some { s := cu_statusf CMPI_RC_ERR_FAILED "Unsupported device type", list := list,
               conns := conns } := by
  unfold sdc_rasds_for_type
  rw [sdc_rasd_type_range]
  rfl

theorem failed_rc_ne_ok (msg : String) : (cu_statusf CMPI_RC_ERR_FAILED msg).rc ≠ CMPI_RC_OK := by
  simp [cu_statusf, CMPI_RC_ERR_FAILED, CMPI_RC_OK]

/-- The outcomes of `sdc_rasds_for_type` when `get_typed_instance` does not
return `NULL`: a type outside the table fails with the list untouched; a type
of the table ends with the status of its Maximum resolver, with Minimum alone
appended when that status is not OK and with all four bounds appended when it
is. -/
theorem sdc_rasds_for_type_outcomes (h : Host) (ref : CMPIObjectPath)
    (list : List CMPIInstance) (type : Nat) (conns : List virConnectPtr)
    (hgti : ∀ base, rasd_classname_from_type type = some base →
      h.get_typed_instance (CLASSNAME ref) base (NAMESPACE ref) ≠ none) :
    ∃ r, sdc_rasds_for_type h ref list type conns = some r ∧
      (sdc_rasd_list.find? (fun d => d.resource_type == type) = none →
        r.s.rc ≠ CMPI_RC_OK ∧ r.list = list) ∧
      (∀ d, sdc_rasd_list.find? (fun d => d.resource_type == type) = some d →
        ∃ gmax imin, d.max = some gmax ∧ r.s = (gmax h ref status_ok conns).s ∧
          is_bound_instance imin "Minimum" type ∧
          (r.s.rc ≠ CMPI_RC_OK → r.list = list ++ [imin]) ∧
          (r.s.rc = CMPI_RC_OK →
            ∃ imax idef iinc, is_bound_instance imax "Maximum" type ∧
              is_bound_instance idef "Default" type ∧
              is_bound_instance iinc "Increment" type ∧
              r.list = list ++ [imin, imax, idef, iinc])) := by
  rw [sdc_rasds_for_type_eq]
  rcases find_table type with ⟨d, hf, hd, ht⟩ | ⟨hf, _⟩
  · rw [hf]
    obtain ⟨gmax, base, e2, hbase, _, hsome⟩ := sdc_rasds_loop_table h ref d list conns hd
    rw [ht] at hbase
    obtain ⟨inst0, hinst0⟩ := Option.ne_none_iff_exists'.mp (hgti base hbase)
    obtain ⟨imin, fmin, hfail, hok⟩ := hsome inst0 hinst0
    rw [ht] at fmin hok
    by_cases hrc : (gmax h ref status_ok conns).s.rc = CMPI_RC_OK
    · obtain ⟨imax, idef, iinc, f1, f2, f3, hloop⟩ := hok hrc
      refine ⟨_, hloop, fun hn => by simp at hn, ?_⟩
      intro d1 hd1
      cases hd1
      exact ⟨gmax, imin, e2, rfl, fmin, fun hne => absurd hrc hne,
        fun _ => ⟨imax, idef, iinc, f1, f2, f3, rfl⟩⟩
    · refine ⟨_, hfail hrc, fun hn => by simp at hn, ?_⟩
      intro d1 hd1
      cases hd1
      exact ⟨gmax, imin, e2, rfl, fmin, fun _ => rfl, fun hok1 => absurd hok1 hrc⟩
  · rw [hf]
    refine ⟨_, rfl, fun _ => ⟨failed_rc_ne_ok _, rfl⟩, ?_⟩
    intro d1 hd1
    simp at hd1

/-! ### Bound resolution through the handlers -/

/-- C10 (amended). When `get_typed_instance` does not return `NULL`,
`sdc_rasds_for_type` returns, and: with an OK status it has appended all four
bounds (Minimum, Maximum, Default, Increment, in this order); with a non-OK
status it has appended nothing (type outside the table) or the Minimum bound
alone (Maximum failed after Minimum was appended): the list is not rolled back.
`alloc_cap_to_rasd` returns as well: with an OK status either the class prefix
did not match and the list is untouched, or the four bounds were appended and
PoolID set on the whole list; with a non-OK status the list is untouched
(InstanceID missing or of unknown type) or holds the Minimum bound in addition,
PoolID set. -/
theorem bound_resolution_outcomes (h : Host) (ref : CMPIObjectPath) (info : std_assoc_info)
    (list : List CMPIInstance) (conns : List virConnectPtr) (type : Nat)
    (hgti : ∀ base, h.get_typed_instance (CLASSNAME ref) base (NAMESPACE ref) ≠ none) :
    (∃ r, sdc_rasds_for_type h ref list type conns = some r ∧
      (r.s.rc = CMPI_RC_OK →
        ∃ imin imax idef iinc, r.list = list ++ [imin, imax, idef, iinc] ∧
          is_bound_instance imin "Minimum" type ∧ is_bound_instance imax "Maximum" type ∧
          is_bound_instance idef "Default" type ∧ is_bound_instance iinc "Increment" type) ∧
      (r.s.rc ≠ CMPI_RC_OK →
        r.list = list ∨
        ∃ imin, r.list = list ++ [imin] ∧ is_bound_instance imin "Minimum" type)) ∧
    (∃ r, alloc_cap_to_rasd h ref info list conns = some r ∧
      (r.s.rc = CMPI_RC_OK →
        (( Host.match_hypervisor_prefix h ref info) = false ∧ r.list = list) ∨
        ∃ id imin imax idef iinc, cu_get_str_path ref "InstanceID" = some id ∧
          r.list = (list ++ [imin, imax, idef, iinc]).map
            (fun i => CMSetProperty i "PoolID" (CMPIValue.chars id)) ∧
          is_bound_instance imin "Minimum" (res_type_from_pool_id id) ∧
          is_bound_instance imax "Maximum" (res_type_from_pool_id id) ∧
          is_bound_instance idef "Default" (res_type_from_pool_id id) ∧
          is_bound_instance iinc "Increment" (res_type_from_pool_id id)) ∧
      (r.s.rc ≠ CMPI_RC_OK →
        r.list = list ∨
        ∃ id imin, cu_get_str_path ref "InstanceID" = some id ∧
          r.list = (list ++ [imin]).map
            (fun i => CMSetProperty i "PoolID" (CMPIValue.chars id)) ∧
          is_bound_instance imin "Minimum" (res_type_from_pool_id id))) := by
  constructor
  · obtain ⟨r, hr, hnone, hsome⟩ :=
      sdc_rasds_for_type_outcomes h ref list type conns (fun base _ => hgti base)
    refine ⟨r, hr, ?_, ?_⟩
    · intro hok
      rcases find_table type with ⟨d, hf, _, _⟩ | ⟨hf, _⟩
      · obtain ⟨_, imin, _, _, fmin, _, h4⟩ := hsome d hf
        obtain ⟨imax, idef, iinc, f1, f2, f3, hl⟩ := h4 hok
        exact ⟨imin, imax, idef, iinc, hl, fmin, f1, f2, f3⟩
      · exact absurd hok (hnone hf).1
    · intro hne
      rcases find_table type with ⟨d, hf, _, _⟩ | ⟨hf, _⟩
      · obtain ⟨_, imin, _, _, fmin, h1, _⟩ := hsome d hf
        exact Or.inr ⟨imin, h1 hne, fmin⟩
      · exact Or.inl (hnone hf).2
  · unfold alloc_cap_to_rasd
    by_cases hm : ( Host.match_hypervisor_prefix h ref info) = false
    · rw [if_pos hm]
      exact ⟨_, rfl, fun _ => Or.inl ⟨hm, rfl⟩, fun hne => absurd rfl hne⟩
    · rw [if_neg hm]
      cases hid : cu_get_str_path ref "InstanceID" with
      | none =>
        exact ⟨_, rfl, fun hok => absurd hok (failed_rc_ne_ok _), fun _ => Or.inl rfl⟩
      | some id =>
        by_cases hu : res_type_from_pool_id id = CIM_RES_TYPE_UNKNOWN
        · simp only [hu, if_true]
          exact ⟨_, rfl, fun hok => absurd hok (failed_rc_ne_ok _), fun _ => Or.inl rfl⟩
        · simp only [hu, if_false]
          have hknown : res_type_from_pool_id id = CIM_RES_TYPE_PROC ∨
              res_type_from_pool_id id = CIM_RES_TYPE_MEM ∨
              res_type_from_pool_id id = CIM_RES_TYPE_NET ∨
              res_type_from_pool_id id = CIM_RES_TYPE_DISK := by
            rcases res_type_from_pool_id_cases id with h1 | h1 | h1 | h1 | h1
            · exact Or.inl h1
            · exact Or.inr (Or.inl h1)
            · exact Or.inr (Or.inr (Or.inl h1))
            · exact Or.inr (Or.inr (Or.inr h1))
            · exact absurd h1 hu
          obtain ⟨d, hf, _, _⟩ := known_type_in_table _ hknown
          obtain ⟨r, hr, _, hsome⟩ :=
            sdc_rasds_for_type_outcomes h ref list (res_type_from_pool_id id) conns
              (fun base _ => hgti base)
          obtain ⟨_, imin, _, _, fmin, h1, h4⟩ := hsome d hf
          rw [hr]
          refine ⟨_, rfl, ?_, ?_⟩
          · intro hok
            obtain ⟨imax, idef, iinc, f1, f2, f3, hl⟩ := h4 hok
            exact Or.inr ⟨id, imin, imax, idef, iinc, rfl, by rw [hl], fmin, f1, f2, f3⟩
          · intro hne
            exact Or.inr ⟨id, imin, rfl, by rw [h1 hne], fmin⟩

/-- C10 (witness for the amended claim). On the offline sample host instances
can be constructed, so the processor bounds of a matching reference resolve to
one of the outcomes of the theorem. -/
theorem bound_resolution_outcomes_witness :
    (∀ base, sample_host_offline.get_typed_instance
      (CLASSNAME (sample_ref "Xen_AllocationCapabilities" "ProcessorPool/0")) base
      (NAMESPACE (sample_ref "Xen_AllocationCapabilities" "ProcessorPool/0")) ≠ none) ∧
    ∃ r, sdc_rasds_for_type sample_host_offline
        (sample_ref "Xen_AllocationCapabilities" "ProcessorPool/0") [] CIM_RES_TYPE_PROC [] =
          some r ∧
      (r.s.rc = CMPI_RC_OK →
        ∃ imin imax idef iinc, r.list = [] ++ [imin, imax, idef, iinc] ∧
          is_bound_instance imin "Minimum" CIM_RES_TYPE_PROC ∧
          is_bound_instance imax "Maximum" CIM_RES_TYPE_PROC ∧
          is_bound_instance idef "Default" CIM_RES_TYPE_PROC ∧
          is_bound_instance iinc "Increment" CIM_RES_TYPE_PROC) ∧
      (r.s.rc ≠ CMPI_RC_OK →
        r.list = [] ∨
        ∃ imin, r.list = [] ++ [imin] ∧ is_bound_instance imin "Minimum" CIM_RES_TYPE_PROC) :=
  ⟨fun _ => Option.some_ne_none _,
   (bound_resolution_outcomes sample_host_offline
      (sample_ref "Xen_AllocationCapabilities" "ProcessorPool/0") sample_info [] []
      CIM_RES_TYPE_PROC (fun _ => Option.some_ne_none _)).1⟩

/-- C10 (counterexample). With the hypervisor unreachable, the processor bounds
of a started-empty list end with a non-OK status and one instance in the list,
the Minimum, both from `sdc_rasds_for_type` and from `alloc_cap_to_rasd`:
a non-OK return that has appended an instance. -/
theorem maximum_failure_leaves_minimum :
    (sdc_rasds_for_type sample_host_offline
        (sample_ref "Xen_AllocationCapabilities" "ProcessorPool/0") [] CIM_RES_TYPE_PROC
        []).map (fun r => (r.s.rc, r.list.map fun i => cu_get_str_prop i "InstanceID")) =
      some (CMPI_RC_ERR_FAILED, [some "Minimum"]) ∧
    (alloc_cap_to_rasd sample_host_offline
        (sample_ref "Xen_AllocationCapabilities" "ProcessorPool/0") sample_info []
        []).map (fun r => (r.s.rc, r.list.map fun i => cu_get_str_prop i "InstanceID")) =
      some (CMPI_RC_ERR_FAILED, [some "Minimum"]) := by
  constructor <;> decide

theorem pool_id_facts (i : CMPIInstance) (inst_id id : String) (t : Nat)
    (hb : is_bound_instance i inst_id t) :
    cu_get_str_prop (CMSetProperty i "PoolID" (CMPIValue.chars id)) "InstanceID" = some inst_id ∧
      CMGetProperty (CMSetProperty i "PoolID" (CMPIValue.chars id)) "ResourceType" =
        some (CMPIValue.uint16 t) ∧
      CMGetProperty (CMSetProperty i "PoolID" (CMPIValue.chars id)) "PoolID" =
        some (CMPIValue.chars id) := by
  obtain ⟨h1, h2⟩ := hb
  refine ⟨?_, ?_, CMGetProperty_set_self _ _ _⟩
  · unfold cu_get_str_prop at h1 ⊢
    rw [CMGetProperty_set_ne _ _ _ _ (by decide)]
    exact h1
  · rw [CMGetProperty_set_ne _ _ _ _ (by decide)]
    exact h2

/-- What `alloc_cap_to_rasd` does when `get_typed_instance` builds the instance:
for a reference whose class prefix matches, whose InstanceID `id` resolves to a
known resource type and for which the four resolvers of that type succeed,
`alloc_cap_to_rasd` started on an empty list returns OK with a list of exactly
four elements, whose InstanceIDs are Minimum, Maximum, Default, Increment, each
carrying ResourceType equal to that type and PoolID equal to `id`. -/
theorem alloc_cap_to_rasd_four (h : Host) (ref : CMPIObjectPath) (info : std_assoc_info)
    (conns : List virConnectPtr) (id : String)
    (hm : ( Host.match_hypervisor_prefix h ref info) = true)
    (hid : cu_get_str_path ref "InstanceID" = some id)
    (ht : res_type_from_pool_id id ≠ CIM_RES_TYPE_UNKNOWN)
    (hres : ∀ d ∈ sdc_rasd_list, d.resource_type = res_type_from_pool_id id →
      ∀ g, (d.min = some g ∨ d.max = some g ∨ d.def_ = some g ∨ d.inc = some g) →
        (g h ref status_ok conns).succeeded)
    (hgti : ∀ base, rasd_classname_from_type (res_type_from_pool_id id) = some base →
      h.get_typed_instance (CLASSNAME ref) base (NAMESPACE ref) ≠ none) :
    ∃ r imin imax idef iinc,
      alloc_cap_to_rasd h ref info [] conns = some r ∧ r.s.rc = CMPI_RC_OK ∧
      r.list = [imin, imax, idef, iinc] ∧
      cu_get_str_prop imin "InstanceID" = some "Minimum" ∧
      cu_get_str_prop imax "InstanceID" = some "Maximum" ∧
      cu_get_str_prop idef "InstanceID" = some "Default" ∧
      cu_get_str_prop iinc "InstanceID" = some "Increment" ∧
      ∀ i ∈ r.list,
        CMGetProperty i "ResourceType" = some (CMPIValue.uint16 (res_type_from_pool_id id)) ∧
        CMGetProperty i "PoolID" = some (CMPIValue.chars id) := by
  have hknown : res_type_from_pool_id id = CIM_RES_TYPE_PROC ∨
      res_type_from_pool_id id = CIM_RES_TYPE_MEM ∨
      res_type_from_pool_id id = CIM_RES_TYPE_NET ∨
      res_type_from_pool_id id = CIM_RES_TYPE_DISK := by
    rcases res_type_from_pool_id_cases id with h1 | h1 | h1 | h1 | h1
    · exact Or.inl h1
    · exact Or.inr (Or.inl h1)
    · exact Or.inr (Or.inr (Or.inl h1))
    · exact Or.inr (Or.inr (Or.inr h1))
    · exact absurd h1 ht
  obtain ⟨d, hf, hd, hdt⟩ := known_type_in_table _ hknown
  obtain ⟨r, hr, _, hsome⟩ :=
    sdc_rasds_for_type_outcomes h ref [] (res_type_from_pool_id id) conns hgti
  obtain ⟨gmax, imin, e2, hs, fmin, _, h4⟩ := hsome d hf
  have hok : r.s.rc = CMPI_RC_OK := by
    rw [hs]
    exact (hres d hd hdt gmax (Or.inr (Or.inl e2))).1
  obtain ⟨imax, idef, iinc, f1, f2, f3, hl⟩ := h4 hok
  have p0 := pool_id_facts imin "Minimum" id _ fmin
  have p1 := pool_id_facts imax "Maximum" id _ f1
  have p2 := pool_id_facts idef "Default" id _ f2
  have p3 := pool_id_facts iinc "Increment" id _ f3
  refine ⟨{ s := r.s,
             list := r.list.map fun i => CMSetProperty i "PoolID" (CMPIValue.chars id),
             conns := r.conns },
    CMSetProperty imin "PoolID" (CMPIValue.chars id),
    CMSetProperty imax "PoolID" (CMPIValue.chars id),
    CMSetProperty idef "PoolID" (CMPIValue.chars id),
    CMSetProperty iinc "PoolID" (CMPIValue.chars id),
    ?_, hok, ?_, p0.1, p1.1, p2.1, p3.1, ?_⟩
  · unfold alloc_cap_to_rasd
    rw [if_neg (by rw [hm]; decide)]
    simp only [hid, ht, if_false, hr]
  · simp [hl]
  · intro i hi
    simp only [hl, List.nil_append, List.map_cons, List.map_nil, List.mem_cons,
      List.mem_singleton, List.not_mem_nil, or_false] at hi
    rcases hi with rfl | rfl | rfl | rfl
    · exact p0.2
    · exact p1.2
    · exact p2.2
    · exact p3.2

/-- The processor pool ProcessorPool/0 on the sample host: every premise holds
and the four instances are returned. -/
theorem alloc_cap_to_rasd_four_witness :
    res_type_from_pool_id "ProcessorPool/0" ≠ CIM_RES_TYPE_UNKNOWN ∧
    ∃ r imin imax idef iinc,
      alloc_cap_to_rasd (sample_host 8 3001000 none 100000)
        (sample_ref "Xen_AllocationCapabilities" "ProcessorPool/0") sample_info [] [] =
          some r ∧
      r.s.rc = CMPI_RC_OK ∧
      r.list = [imin, imax, idef, iinc] ∧
      cu_get_str_prop imin "InstanceID" = some "Minimum" ∧
      cu_get_str_prop imax "InstanceID" = some "Maximum" ∧
      cu_get_str_prop idef "InstanceID" = some "Default" ∧
      cu_get_str_prop iinc "InstanceID" = some "Increment" ∧
      ∀ i ∈ r.list,
        CMGetProperty i "ResourceType" =
          some (CMPIValue.uint16 (res_type_from_pool_id "ProcessorPool/0")) ∧
        CMGetProperty i "PoolID" = some (CMPIValue.chars "ProcessorPool/0") :=
  ⟨by decide,
   alloc_cap_to_rasd_four (sample_host 8 3001000 none 100000)
    (sample_ref "Xen_AllocationCapabilities" "ProcessorPool/0") sample_info []
    "ProcessorPool/0" rfl (by decide) (by decide)
    (by
      intro d hd hdt g hg
      simp only [sdc_rasd_list, List.mem_cons, List.mem_singleton, List.not_mem_nil,
        or_false] at hd
      rcases hd with rfl | rfl | rfl | rfl
      · exact absurd hdt (by decide)
      · rcases hg with hg | hg | hg | hg <;>
          (have hg1 := Option.some.inj hg; subst hg1; decide)
      · exact absurd hdt (by decide)
      · exact absurd hdt (by decide))
    (fun _ _ => Option.some_ne_none _)⟩

/-- C9 (the code at the failing input). On the sample host whose broker cannot
construct any CIM instance, a matching reference with InstanceID MemoryPool/0
resolves to the memory type and the four memory resolvers succeed, yet
`alloc_cap_to_rasd` does not return OK with a list of four, it does not return
at all: `sdc_rasd_inst` hands the `NULL` result of `get_typed_instance` to
`CMSetProperty`, without the `NULL` test that `default_vssd_instance` makes on
the same call. -/
theorem alloc_cap_to_rasd_null_instance :
    ( Host.match_hypervisor_prefix sample_host_no_instances
      (sample_ref "Xen_AllocationCapabilities" "MemoryPool/0") sample_info) = true ∧
    cu_get_str_path (sample_ref "Xen_AllocationCapabilities" "MemoryPool/0") "InstanceID" =
      some "MemoryPool/0" ∧
    res_type_from_pool_id "MemoryPool/0" = CIM_RES_TYPE_MEM ∧
    (mem_min sample_host_no_instances (sample_ref "Xen_AllocationCapabilities" "MemoryPool/0")
      status_ok []).succeeded ∧
    (mem_max sample_host_no_instances (sample_ref "Xen_AllocationCapabilities" "MemoryPool/0")
      status_ok []).succeeded ∧
    (mem_def sample_host_no_instances (sample_ref "Xen_AllocationCapabilities" "MemoryPool/0")
      status_ok []).succeeded ∧
    (mem_inc sample_host_no_instances (sample_ref "Xen_AllocationCapabilities" "MemoryPool/0")
      status_ok []).succeeded ∧
    alloc_cap_to_rasd sample_host_no_instances
      (sample_ref "Xen_AllocationCapabilities" "MemoryPool/0") sample_info [] [] = none := by
  refine ⟨rfl, by decide, by decide, by decide, by decide, by decide, by decide, by decide⟩

/-! ### Failures of the live resolvers -/

theorem not_supported_rc_ne_ok (msg : String) :
    (cu_statusf CMPI_RC_ERR_NOT_SUPPORTED msg).rc ≠ CMPI_RC_OK := by
  simp [cu_statusf, CMPI_RC_ERR_NOT_SUPPORTED, CMPI_RC_OK]

theorem net_max_tail_failed (r : Nat × CMPIStatus × List virConnectPtr)
    (hr : r.2.1.rc ≠ CMPI_RC_OK) :
    (net_max_tail r).rasd = none ∧ (net_max_tail r).s.rc ≠ CMPI_RC_OK := by
  unfold net_max_tail
  rw [if_pos hr]
  exact ⟨rfl, failed_rc_ne_ok _⟩

/-- The failure exits of the live resolvers, each on the test the code makes.
`proc_max` returns no bundle (`NULL`) and a non-OK status when
`connect_by_classname` returns no handle; `net_max` on the Xen backend when
`connect_by_classname` stores a non-OK status or the version query returns a
non-zero code; `disk_max` when `connect_by_classname` stores a non-OK status
or the pool lookup by the InstanceID of the reference returns a non-OK
status. -/
theorem live_resolver_failures (h : Host) (ref : CMPIObjectPath) (s : CMPIStatus)
    (conns : List virConnectPtr) :
    (connect_failed h ref →
      (proc_max h ref s conns).rasd = none ∧ (proc_max h ref s conns).s.rc ≠ CMPI_RC_OK) ∧
    (∀ pfx, h.class_prefix_name (CLASSNAME ref) = some pfx → STREQC pfx "Xen" = true →
      ((h.connect_by_classname (CLASSNAME ref)).2.rc ≠ CMPI_RC_OK ∨
        (h.virConnectGetVersion (h.connect_by_classname (CLASSNAME ref)).1).1 ≠ 0) →
      (net_max h ref s conns).rasd = none ∧ (net_max h ref s conns).s.rc ≠ CMPI_RC_OK) ∧
    (((h.connect_by_classname (CLASSNAME ref)).2.rc ≠ CMPI_RC_OK ∨
        ∀ id, cu_get_str_path ref "InstanceID" = some id →
          (h.get_pool_by_name ref id).1.rc ≠ CMPI_RC_OK) →
      (disk_max h ref s conns).rasd = none ∧ (disk_max h ref s conns).s.rc ≠ CMPI_RC_OK) := by
  refine ⟨?_, ?_, ?_⟩
  · intro hc
    have hnull : (h.connect_by_classname (CLASSNAME ref)).1 = none := hc
    simp only [proc_max, hnull]
    exact ⟨trivial, failed_rc_ne_ok _⟩
  · intro pfx hp hx hfail
    simp only [net_max, hp, hx, if_true]
    apply net_max_tail_failed
    unfold net_max_xen
    by_cases hrc : (h.connect_by_classname (CLASSNAME ref)).2.rc ≠ CMPI_RC_OK
    · simp only [if_pos hrc]
      exact failed_rc_ne_ok _
    · have hv : (h.virConnectGetVersion (h.connect_by_classname (CLASSNAME ref)).1).1 ≠ 0 := by
        rcases hfail with hc | hv
        · exact absurd hc hrc
        · exact hv
      simp only [if_neg hrc, if_pos hv]
      exact failed_rc_ne_ok _
  · intro hfail
    unfold disk_max
    cases hid : cu_get_str_path ref "InstanceID" with
    | none => exact ⟨rfl, failed_rc_ne_ok _⟩
    | some id =>
      simp only []
      by_cases hrc : (h.connect_by_classname (CLASSNAME ref)).2.rc ≠ CMPI_RC_OK
      · rw [if_pos hrc]
        exact ⟨rfl, failed_rc_ne_ok _⟩
      · have hp : (h.get_pool_by_name ref id).1.rc ≠ CMPI_RC_OK := by
          rcases hfail with hc | hp
          · exact absurd hc hrc
          · exact hp id hid
        rw [if_neg hrc, if_pos hp]
        exact ⟨rfl, hp⟩

/-- The three failures on sample hosts: the hypervisor unreachable for
`proc_max`, the version query failing for `net_max` on a Xen reference, no pool
found for `disk_max`. -/
theorem live_resolver_failures_witness :
    ((proc_max sample_host_offline (sample_ref "Xen_AllocationCapabilities" "ProcessorPool/0")
        status_ok []).rasd = none ∧
      (proc_max sample_host_offline (sample_ref "Xen_AllocationCapabilities" "ProcessorPool/0")
        status_ok []).s.rc ≠ CMPI_RC_OK) ∧
    ((net_max sample_host_no_version (sample_ref "Xen_AllocationCapabilities" "NetworkPool/0")
        status_ok []).rasd = none ∧
      (net_max sample_host_no_version (sample_ref "Xen_AllocationCapabilities" "NetworkPool/0")
        status_ok []).s.rc ≠ CMPI_RC_OK) ∧
    ((disk_max sample_host_no_pool (sample_ref "Xen_AllocationCapabilities" "DiskPool/0")
        status_ok []).rasd = none ∧
      (disk_max sample_host_no_pool (sample_ref "Xen_AllocationCapabilities" "DiskPool/0")
        status_ok []).s.rc ≠ CMPI_RC_OK) :=
  ⟨(live_resolver_failures sample_host_offline
      (sample_ref "Xen_AllocationCapabilities" "ProcessorPool/0") status_ok []).1 (by decide),
   (live_resolver_failures sample_host_no_version
      (sample_ref "Xen_AllocationCapabilities" "NetworkPool/0") status_ok []).2.1 "Xen"
      (by decide) (by decide) (Or.inr (by decide)),
   (live_resolver_failures sample_host_no_pool
      (sample_ref "Xen_AllocationCapabilities" "DiskPool/0") status_ok []).2.2
      (Or.inr (fun id _ => failed_rc_ne_ok _))⟩

/-- With no handle and an OK stored status, `disk_max` goes on to the pool
lookup, which does not use the handle, and returns the bundle with the Capacity
of the pool; `net_max` on the Xen backend goes on to the version query on the
`NULL` handle and returns a bundle when that query answers 0. -/
theorem null_handle_not_tested (h : Host) (ref : CMPIObjectPath) (s : CMPIStatus)
    (conns : List virConnectPtr) (st : CMPIStatus)
    (hconn : h.connect_by_classname (CLASSNAME ref) = (none, st))
    (hst : st.rc = CMPI_RC_OK) :
    (∀ id c, cu_get_str_path ref "InstanceID" = some id →
      (h.get_pool_by_name ref id).1.rc = CMPI_RC_OK →
      cu_get_u64_prop (h.get_pool_by_name ref id).2 "Capacity" = some c →
      (disk_max h ref s conns).rasd =
          some [⟨"InstanceID", CMPIValue.chars "Maximum", CMPI_chars⟩,
                ⟨"AllocationQuantity", CMPIValue.chars "MegaBytes", CMPI_chars⟩,
                ⟨"VirtualQuantity", CMPIValue.uint64 c, CMPI_uint64⟩] ∧
        (disk_max h ref s conns).s.rc = CMPI_RC_OK) ∧
    (∀ pfx, h.class_prefix_name (CLASSNAME ref) = some pfx → STREQC pfx "Xen" = true →
      (h.virConnectGetVersion none).1 = 0 →
      (net_max h ref s conns).rasd ≠ none ∧ (net_max h ref s conns).s.rc = CMPI_RC_OK) := by
  have hnok : ¬ st.rc ≠ CMPI_RC_OK := not_not.mpr hst
  constructor
  · intro id c hid hp hcap
    have hpn : ¬ (h.get_pool_by_name ref id).1.rc ≠ CMPI_RC_OK := not_not.mpr hp
    simp only [disk_max, hid, hconn]
    rw [if_neg hnok, if_neg hpn]
    simp only [hcap]
    rw [copy_rasd_plain _ _ _ (by simp)]
    exact ⟨rfl, hp⟩
  · intro pfx hpfx hx hv
    have hvn : ¬ (h.virConnectGetVersion none).1 ≠ 0 := not_not.mpr hv
    simp only [net_max, hpfx, hx, if_true, net_max_xen, hconn]
    rw [if_neg hnok, if_neg hvn]
    by_cases hver : (h.virConnectGetVersion none).2 ≥ 3001000
    · rw [if_pos hver]
      simp only [net_max_tail]
      rw [if_neg hnok, copy_rasd_plain _ _ _ (by simp)]
      exact ⟨by simp, hst⟩
    · rw [if_neg hver]
      simp only [net_max_tail]
      rw [if_neg hnok, copy_rasd_plain _ _ _ (by simp)]
      exact ⟨by simp, hst⟩

/-- C11 (the code at the failing input). On the sample host the connection
cannot be obtained: `connect_by_classname` returns `NULL`, and it leaves the
status OK. `disk_max` on the reference of DiskPool/0 does not test the handle:
it returns the Maximum bundle with the Capacity of the pool and the status OK.
`proc_max`, which tests the handle, returns no bundle and a failure; `net_max`
on the Xen reference returns no bundle and a failure because the version query
fails on the `NULL` handle. -/
theorem disk_max_passes_null_handle :
    connect_failed sample_host_null_handle
      (sample_ref "Xen_AllocationCapabilities" "DiskPool/0") ∧
    (disk_max sample_host_null_handle (sample_ref "Xen_AllocationCapabilities" "DiskPool/0")
        status_ok []).rasd =
      some [⟨"InstanceID", CMPIValue.chars "Maximum", CMPI_chars⟩,
            ⟨"AllocationQuantity", CMPIValue.chars "MegaBytes", CMPI_chars⟩,
            ⟨"VirtualQuantity", CMPIValue.uint64 100000, CMPI_uint64⟩] ∧
    (disk_max sample_host_null_handle (sample_ref "Xen_AllocationCapabilities" "DiskPool/0")
        status_ok []).s.rc = CMPI_RC_OK ∧
    (proc_max sample_host_null_handle
        (sample_ref "Xen_AllocationCapabilities" "ProcessorPool/0") status_ok []).rasd = none ∧
    (proc_max sample_host_null_handle
        (sample_ref "Xen_AllocationCapabilities" "ProcessorPool/0") status_ok []).s.rc =
      CMPI_RC_ERR_FAILED ∧
    (net_max sample_host_null_handle
        (sample_ref "Xen_AllocationCapabilities" "NetworkPool/0") status_ok []).rasd = none ∧
    (net_max sample_host_null_handle
        (sample_ref "Xen_AllocationCapabilities" "NetworkPool/0") status_ok []).s.rc =
      CMPI_RC_ERR_FAILED := by
  refine ⟨by decide, by decide, by decide, by decide, by decide, by decide, by decide⟩

/-- C12. For a reference whose class prefix is neither "Xen" nor "KVM" (compared
without regard to case, as `STREQC` does), `net_max` returns no bundle and the
status `CMPI_RC_ERR_NOT_SUPPORTED`; no connection is opened. -/
theorem net_max_unsupported (h : Host) (ref : CMPIObjectPath) (s : CMPIStatus)
    (conns : List virConnectPtr) (pfx : String)
    (hp : h.class_prefix_name (CLASSNAME ref) = some pfx)
    (hx : STREQC pfx "Xen" = false) (hk : STREQC pfx "KVM" = false) :
    (net_max h ref s conns).rasd = none ∧
      (net_max h ref s conns).s.rc = CMPI_RC_ERR_NOT_SUPPORTED ∧
      (net_max h ref s conns).conns = conns := by
  simp only [net_max, hp, hx, hk, Bool.false_eq_true, if_false]
  exact ⟨trivial, rfl, trivial⟩

/-- C12 (witness). An LXC reference on the sample host. -/
theorem net_max_unsupported_witness :
    (net_max (sample_host 8 3001000 none 100000)
        (sample_ref "LXC_AllocationCapabilities" "NetworkPool/0") status_ok []).rasd = none ∧
      (net_max (sample_host 8 3001000 none 100000)
        (sample_ref "LXC_AllocationCapabilities" "NetworkPool/0") status_ok []).s.rc =
        CMPI_RC_ERR_NOT_SUPPORTED ∧
      (net_max (sample_host 8 3001000 none 100000)
        (sample_ref "LXC_AllocationCapabilities" "NetworkPool/0") status_ok []).conns = [] :=
  net_max_unsupported (sample_host 8 3001000 none 100000)
    (sample_ref "LXC_AllocationCapabilities" "NetworkPool/0") status_ok [] "LXC"
    (by decide) (by decide) (by decide)

/-! ### The association handlers -/

/-- C13. For every host, reference, association info, list and set of open
connections, `rasd_to_alloc_cap` returns the status `CMPI_RC_ERR_NOT_SUPPORTED`
and leaves the result list (and the open connections) unchanged. -/
theorem rasd_to_alloc_cap_unsupported (h : Host) (ref : CMPIObjectPath)
    (info : std_assoc_info) (list : List CMPIInstance) (conns : List virConnectPtr) :
    (rasd_to_alloc_cap h ref info list conns).s.rc = CMPI_RC_ERR_NOT_SUPPORTED ∧
      (rasd_to_alloc_cap h ref info list conns).list = list ∧
      (rasd_to_alloc_cap h ref info list conns).conns = conns :=
  ⟨rfl, rfl, rfl⟩

theorem erase_head (conn : virConnectPtr) (conns : List virConnectPtr) :
    virConnectClose (some conn) (conn :: conns) = conns := by
  simp [virConnectClose]

/-- C16. For a resource-setting reference with a matching class prefix,
`rasd_to_pool` returns OK and appends exactly the pool that `get_pool_by_id`
finds for the identifier `pool_member_of` gives for the class name, the type
derived from the class name and the InstanceID, when the type is derived, the
InstanceID read, the pool identifier determined, the connection obtained and
the pool found; it returns a non-OK status with the list unchanged when the
type cannot be derived, the InstanceID is missing, the owning pool cannot be
determined, or the pool lookup finds no pool. -/
theorem rasd_to_pool_outcomes (h : PoolHost) (ref : CMPIObjectPath) (info : std_assoc_info)
    (list : List CMPIInstance) (conns : List virConnectPtr)
    (hm : ( Host.match_hypervisor_prefix h.toHost ref info) = true) :
    (∀ type id poolid conn st pool,
      h.rasd_type_from_classname (CLASSNAME ref) = some type →
      cu_get_str_path ref "InstanceID" = some id →
      h.pool_member_of (CLASSNAME ref) type (some id) = some poolid →
      h.connect_by_classname (CLASSNAME ref) = (some conn, st) →
      h.get_pool_by_id conn poolid (NAMESPACE ref) = some pool →
      (rasd_to_pool h ref info list conns).s.rc = CMPI_RC_OK ∧
        (rasd_to_pool h ref info list conns).list = list ++ [pool]) ∧
    (h.rasd_type_from_classname (CLASSNAME ref) = none →
      (rasd_to_pool h ref info list conns).s.rc ≠ CMPI_RC_OK ∧
        (rasd_to_pool h ref info list conns).list = list) ∧
    (cu_get_str_path ref "InstanceID" = none →
      (rasd_to_pool h ref info list conns).s.rc ≠ CMPI_RC_OK ∧
        (rasd_to_pool h ref info list conns).list = list) ∧
    (∀ type id,
      h.rasd_type_from_classname (CLASSNAME ref) = some type →
      cu_get_str_path ref "InstanceID" = some id →
      h.pool_member_of (CLASSNAME ref) type (some id) = none →
      (rasd_to_pool h ref info list conns).s.rc ≠ CMPI_RC_OK ∧
        (rasd_to_pool h ref info list conns).list = list) ∧
    (∀ type id poolid conn st,
      h.rasd_type_from_classname (CLASSNAME ref) = some type →
      cu_get_str_path ref "InstanceID" = some id →
      h.pool_member_of (CLASSNAME ref) type (some id) = some poolid →
      h.connect_by_classname (CLASSNAME ref) = (some conn, st) →
      h.get_pool_by_id conn poolid (NAMESPACE ref) = none →
      (rasd_to_pool h ref info list conns).s.rc ≠ CMPI_RC_OK ∧
        (rasd_to_pool h ref info list conns).list = list) := by
  have hmf : ¬ ( Host.match_hypervisor_prefix h.toHost ref info) = false := by
    rw [hm]; decide
  unfold rasd_to_pool
  rw [if_neg hmf]
  refine ⟨?_, ?_, ?_, ?_, ?_⟩
  · intro type id poolid conn st pool ht hid hp hc hg
    simp only [ht, hid, hp, hc, hg, inst_list_add]
    exact ⟨rfl, trivial⟩
  · intro ht
    simp only [ht]
    exact ⟨failed_rc_ne_ok _, trivial⟩
  · intro hid
    cases ht : h.rasd_type_from_classname (CLASSNAME ref) with
    | none => exact ⟨failed_rc_ne_ok _, rfl⟩
    | some type =>
      simp only [hid]
      exact ⟨failed_rc_ne_ok _, trivial⟩
  · intro type id ht hid hp
    simp only [ht, hid, hp]
    exact ⟨failed_rc_ne_ok _, trivial⟩
  · intro type id poolid conn st ht hid hp hc hg
    simp only [ht, hid, hp, hc, hg]
    exact ⟨failed_rc_ne_ok _, trivial⟩

/-- C16 (witness). The processor setting dom1/proc on the sample pool host
resolves to the pool ProcessorPool/0. -/
theorem rasd_to_pool_outcomes_witness :
    (rasd_to_pool (sample_pool_host (sample_host 8 3001000 none 100000))
      (sample_ref "Xen_ProcResourceAllocationSettingData" "dom1/proc") sample_info []
      []).s.rc = CMPI_RC_OK ∧
    (rasd_to_pool (sample_pool_host (sample_host 8 3001000 none 100000))
      (sample_ref "Xen_ProcResourceAllocationSettingData" "dom1/proc") sample_info []
      []).list =
      [] ++ [{ classname := "Xen_ResourcePool", ns := "root/virt",
               props := [("InstanceID", CMPIValue.chars "ProcessorPool/0")] }] :=
  (rasd_to_pool_outcomes (sample_pool_host (sample_host 8 3001000 none 100000))
    (sample_ref "Xen_ProcResourceAllocationSettingData" "dom1/proc") sample_info [] []
    rfl).1 CIM_RASD_TYPE_PROC "dom1/proc" "ProcessorPool/0" 1 status_ok
    { classname := "Xen_ResourcePool", ns := "root/virt",
      props := [("InstanceID", CMPIValue.chars "ProcessorPool/0")] }
    (by decide) (by decide) (by decide) rfl (by decide)

theorem starts_with_head (a b : String) (c : Char) (t : List Char) (hb : b.data = c :: t)
    (hs : STARTS_WITH a b = true) : a.data.head? = some c := by
  unfold STARTS_WITH at hs
  rw [hb] at hs
  obtain ⟨u, hu⟩ := List.isPrefixOf_iff_prefix.mp hs
  rw [← hu]
  rfl

theorem starts_with_other_head (a b1 b2 : String) (c1 c2 : Char) (t1 t2 : List Char)
    (hb1 : b1.data = c1 :: t1) (hb2 : b2.data = c2 :: t2) (hne : c1 ≠ c2)
    (hs : STARTS_WITH a b1 = true) : STARTS_WITH a b2 = false := by
  cases h2 : STARTS_WITH a b2 with
  | false => rfl
  | true =>
    have e1 := starts_with_head a b1 c1 t1 hb1 hs
    have e2 := starts_with_head a b2 c2 t2 hb2 h2
    rw [e1] at e2
    exact absurd (Option.some.inj e2) hne

/-- The type `pool_to_rasd` selects for each recognized prefix of a pool identifier. -/
theorem pool_id_type_of_prefix (poolid : String) :
    (STARTS_WITH poolid "ProcessorPool" = true → pool_id_type poolid = some CIM_RASD_TYPE_PROC) ∧
    (STARTS_WITH poolid "MemoryPool" = true → pool_id_type poolid = some CIM_RASD_TYPE_MEM) ∧
    (STARTS_WITH poolid "NetworkPool" = true → pool_id_type poolid = some CIM_RASD_TYPE_NET) ∧
    (STARTS_WITH poolid "DiskPool" = true → pool_id_type poolid = some CIM_RASD_TYPE_DISK) := by
  refine ⟨?_, ?_, ?_, ?_⟩
  · intro hp
    simp [pool_id_type, hp]
  · intro hp
    have h1 := starts_with_other_head poolid "MemoryPool" "ProcessorPool" 'M' 'P' _ _ rfl rfl
      (by decide) hp
    simp [pool_id_type, hp, h1]
  · intro hp
    have h1 := starts_with_other_head poolid "NetworkPool" "ProcessorPool" 'N' 'P' _ _ rfl rfl
      (by decide) hp
    have h2 := starts_with_other_head poolid "NetworkPool" "MemoryPool" 'N' 'M' _ _ rfl rfl
      (by decide) hp
    simp [pool_id_type, hp, h1, h2]
  · intro hp
    have h1 := starts_with_other_head poolid "DiskPool" "ProcessorPool" 'D' 'P' _ _ rfl rfl
      (by decide) hp
    have h2 := starts_with_other_head poolid "DiskPool" "MemoryPool" 'D' 'M' _ _ rfl rfl
      (by decide) hp
    have h3 := starts_with_other_head poolid "DiskPool" "NetworkPool" 'D' 'N' _ _ rfl rfl
      (by decide) hp
    simp [pool_id_type, hp, h1, h2, h3]

theorem pool_to_rasd_typed (h : PoolHost) (ref : CMPIObjectPath) (info : std_assoc_info)
    (list : List CMPIInstance) (conns : List virConnectPtr) (poolid : String) (type : Nat)
    (hm : ( Host.match_hypervisor_prefix h.toHost ref info) = true)
    (hid : cu_get_str_path ref "InstanceID" = some poolid)
    (ht : pool_id_type poolid = some type) :
    pool_to_rasd h ref info list conns =
      (rasds_from_pool h type ref poolid list conns).map
        (fun r => { s := CMSetStatus CMPI_RC_OK, list := r.list, conns := r.conns }) := by
  have hmf : ¬ ( Host.match_hypervisor_prefix h.toHost ref info) = false := by
    rw [hm]; decide
  unfold pool_to_rasd
  rw [if_neg hmf]
  simp only [hid, ht]
  cases rasds_from_pool h type ref poolid list conns <;> rfl

/-- C17. For a pool reference with a matching class prefix and InstanceID
`poolid`: when `poolid` starts with none of ProcessorPool, MemoryPool,
NetworkPool, DiskPool, `pool_to_rasd` returns a non-OK status with the list
unchanged; when it starts with one of them, `pool_to_rasd` is what
`rasds_from_pool` does with the processor, memory, network or disk type
respectively, with the status set to OK. -/
theorem pool_to_rasd_prefix_choice (h : PoolHost) (ref : CMPIObjectPath) (info : std_assoc_info)
    (list : List CMPIInstance) (conns : List virConnectPtr) (poolid : String)
    (hm : ( Host.match_hypervisor_prefix h.toHost ref info) = true)
    (hid : cu_get_str_path ref "InstanceID" = some poolid) :
    (STARTS_WITH poolid "ProcessorPool" = false → STARTS_WITH poolid "MemoryPool" = false →
      STARTS_WITH poolid "NetworkPool" = false → STARTS_WITH poolid "DiskPool" = false →
      ∃ r, pool_to_rasd h ref info list conns = some r ∧ r.s.rc = CMPI_RC_ERR_FAILED ∧
        r.list = list ∧ r.conns = conns) ∧
    (STARTS_WITH poolid "ProcessorPool" = true →
      pool_to_rasd h ref info list conns =
        (rasds_from_pool h CIM_RASD_TYPE_PROC ref poolid list conns).map
          (fun r => { s := CMSetStatus CMPI_RC_OK, list := r.list, conns := r.conns })) ∧
    (STARTS_WITH poolid "MemoryPool" = true →
      pool_to_rasd h ref info list conns =
        (rasds_from_pool h CIM_RASD_TYPE_MEM ref poolid list conns).map
          (fun r => { s := CMSetStatus CMPI_RC_OK, list := r.list, conns := r.conns })) ∧
    (STARTS_WITH poolid "NetworkPool" = true →
      pool_to_rasd h ref info list conns =
        (rasds_from_pool h CIM_RASD_TYPE_NET ref poolid list conns).map
          (fun r => { s := CMSetStatus CMPI_RC_OK, list := r.list, conns := r.conns })) ∧
    (STARTS_WITH poolid "DiskPool" = true →
      pool_to_rasd h ref info list conns =
        (rasds_from_pool h CIM_RASD_TYPE_DISK ref poolid list conns).map
          (fun r => { s := CMSetStatus CMPI_RC_OK, list := r.list, conns := r.conns })) := by
  obtain ⟨t1, t2, t3, t4⟩ := pool_id_type_of_prefix poolid
  refine ⟨?_, ?_, ?_, ?_, ?_⟩
  · intro h1 h2 h3 h4
    have hmf : ¬ ( Host.match_hypervisor_prefix h.toHost ref info) = false := by
      rw [hm]; decide
    have ht : pool_id_type poolid = none := by simp [pool_id_type, h1, h2, h3, h4]
    unfold pool_to_rasd
    rw [if_neg hmf]
    simp only [hid, ht]
    exact ⟨_, rfl, rfl, rfl, rfl⟩
  · exact fun hp => pool_to_rasd_typed h ref info list conns poolid _ hm hid (t1 hp)
  · exact fun hp => pool_to_rasd_typed h ref info list conns poolid _ hm hid (t2 hp)
  · exact fun hp => pool_to_rasd_typed h ref info list conns poolid _ hm hid (t3 hp)
  · exact fun hp => pool_to_rasd_typed h ref info list conns poolid _ hm hid (t4 hp)

/-- C17 (witness). On the sample pool host an identifier GraphicsPool/0 fails
with the list unchanged, and ProcessorPool/0 is resolved with the processor
type. -/
theorem pool_to_rasd_prefix_choice_witness :
    (∃ r, pool_to_rasd (sample_pool_host (sample_host 8 3001000 none 100000))
        (sample_ref "Xen_GraphicsPool" "GraphicsPool/0") sample_info [] [] = some r ∧
      r.s.rc = CMPI_RC_ERR_FAILED ∧ r.list = [] ∧ r.conns = []) ∧
    pool_to_rasd (sample_pool_host (sample_host 8 3001000 none 100000))
        (sample_ref "Xen_ProcessorPool" "ProcessorPool/0") sample_info [] [] =
      (rasds_from_pool (sample_pool_host (sample_host 8 3001000 none 100000))
        CIM_RASD_TYPE_PROC (sample_ref "Xen_ProcessorPool" "ProcessorPool/0")
        "ProcessorPool/0" [] []).map
        (fun r => { s := CMSetStatus CMPI_RC_OK, list := r.list, conns := r.conns }) :=
  ⟨(pool_to_rasd_prefix_choice (sample_pool_host (sample_host 8 3001000 none 100000))
      (sample_ref "Xen_GraphicsPool" "GraphicsPool/0") sample_info [] [] "GraphicsPool/0"
      rfl (by decide)).1 (by decide) (by decide) (by decide) (by decide),
   (pool_to_rasd_prefix_choice (sample_pool_host (sample_host 8 3001000 none 100000))
      (sample_ref "Xen_ProcessorPool" "ProcessorPool/0") sample_info [] [] "ProcessorPool/0"
      rfl (by decide)).2.1 (by decide)⟩

/-- C18 (amended). For a pool reference with a matching class prefix and a
recognized pool-identifier prefix, when the connection cannot be obtained
`pool_to_rasd` enumerates nothing and returns OK with the list unchanged:
`rasds_from_pool` returns 0 and the failure is not reported to the caller. -/
theorem pool_to_rasd_offline (h : PoolHost) (ref : CMPIObjectPath) (info : std_assoc_info)
    (list : List CMPIInstance) (conns : List virConnectPtr) (poolid : String) (type : Nat)
    (hm : ( Host.match_hypervisor_prefix h.toHost ref info) = true)
    (hid : cu_get_str_path ref "InstanceID" = some poolid)
    (ht : pool_id_type poolid = some type)
    (hc : connect_failed h.toHost ref) :
    pool_to_rasd h ref info list conns =
      some { s := CMSetStatus CMPI_RC_OK, list := list, conns := conns } := by
  have hnull : (h.connect_by_classname (CLASSNAME ref)).1 = none := hc
  rw [pool_to_rasd_typed h ref info list conns poolid type hm hid ht]
  simp only [rasds_from_pool, hnull]
  rfl

/-- C18 (witness for the amended claim). The processor pool on the sample pool
host with the hypervisor unreachable. -/
theorem pool_to_rasd_offline_witness :
    connect_failed (sample_pool_host sample_host_offline).toHost
      (sample_ref "Xen_ProcessorPool" "ProcessorPool/0") ∧
    pool_to_rasd (sample_pool_host sample_host_offline)
      (sample_ref "Xen_ProcessorPool" "ProcessorPool/0") sample_info [] [] =
      some { s := CMSetStatus CMPI_RC_OK, list := [], conns := [] } :=
  ⟨by decide,
   pool_to_rasd_offline (sample_pool_host sample_host_offline)
    (sample_ref "Xen_ProcessorPool" "ProcessorPool/0") sample_info [] [] "ProcessorPool/0"
    CIM_RASD_TYPE_PROC rfl (by decide) (by decide) (by decide)⟩

/-- C18 (counterexample). With the hypervisor unreachable, `pool_to_rasd` on the
reference of ProcessorPool/0 (matching class prefix, recognized identifier
prefix) does not return a failure status: the status is OK and the list is
empty. -/
theorem pool_to_rasd_offline_reports_ok :
    ( Host.match_hypervisor_prefix (sample_pool_host sample_host_offline).toHost
      (sample_ref "Xen_ProcessorPool" "ProcessorPool/0") sample_info) = true ∧
    STARTS_WITH "ProcessorPool/0" "ProcessorPool" = true ∧
    connect_failed (sample_pool_host sample_host_offline).toHost
      (sample_ref "Xen_ProcessorPool" "ProcessorPool/0") ∧
    (pool_to_rasd (sample_pool_host sample_host_offline)
      (sample_ref "Xen_ProcessorPool" "ProcessorPool/0") sample_info [] []).map
        (fun r => (r.s.rc, r.list)) = some (CMPI_RC_OK, []) := by
  refine ⟨rfl, by decide, by decide, by decide⟩

/-- C19 (amended). When the class prefix of the reference does not match the
provider (`match_hypervisor_prefix` is false), each of the five handlers that
make the test, `alloc_cap_to_rasd`, `migrate_cap_to_vsmsd`,
`vsmsd_to_migrate_cap`, `rasd_to_pool` and `pool_to_rasd`, returns the status
OK with the result list and the open connections unchanged, whatever the rest
of the host answers. `rasd_to_alloc_cap` makes no test: it returns
`CMPI_RC_ERR_NOT_SUPPORTED` with the list unchanged for every reference. -/
theorem hypervisor_scoping (h : PoolHost) (ref : CMPIObjectPath) (info : std_assoc_info)
    (list : List CMPIInstance) (conns : List virConnectPtr)
    (hm : ( Host.match_hypervisor_prefix h.toHost ref info) = false) :
    alloc_cap_to_rasd h.toHost ref info list conns =
        some { s := ⟨CMPI_RC_OK, none⟩, list := list, conns := conns } ∧
      migrate_cap_to_vsmsd h.toHost ref info list conns =
        { s := ⟨CMPI_RC_OK, none⟩, list := list, conns := conns } ∧
      vsmsd_to_migrate_cap h.toHost ref info list conns =
        { s := ⟨CMPI_RC_OK, none⟩, list := list, conns := conns } ∧
      rasd_to_pool h ref info list conns =
        { s := ⟨CMPI_RC_OK, none⟩, list := list, conns := conns } ∧
      pool_to_rasd h ref info list conns =
        some { s := ⟨CMPI_RC_OK, none⟩, list := list, conns := conns } ∧
      rasd_to_alloc_cap h.toHost ref info list conns =
        { s := ⟨CMPI_RC_ERR_NOT_SUPPORTED, none⟩, list := list, conns := conns } := by
  refine ⟨?_, ?_, ?_, ?_, ?_, rfl⟩
  · unfold alloc_cap_to_rasd
    rw [if_pos hm]
  · unfold migrate_cap_to_vsmsd
    rw [if_pos hm]
  · unfold vsmsd_to_migrate_cap
    rw [if_pos hm]
  · unfold rasd_to_pool
    rw [if_pos hm]
  · unfold pool_to_rasd
    rw [if_pos hm]

/-- C19 (witness for the amended claim). A Xen reference handled by a provider
configured for another prefix. -/
theorem hypervisor_scoping_witness :
    alloc_cap_to_rasd (sample_pool_host sample_host_other_prefix).toHost
        (sample_ref "Xen_AllocationCapabilities" "ProcessorPool/0") sample_info [] [] =
        some { s := ⟨CMPI_RC_OK, none⟩, list := [], conns := [] } ∧
      migrate_cap_to_vsmsd (sample_pool_host sample_host_other_prefix).toHost
        (sample_ref "Xen_AllocationCapabilities" "ProcessorPool/0") sample_info [] [] =
        { s := ⟨CMPI_RC_OK, none⟩, list := [], conns := [] } ∧
      vsmsd_to_migrate_cap (sample_pool_host sample_host_other_prefix).toHost
        (sample_ref "Xen_AllocationCapabilities" "ProcessorPool/0") sample_info [] [] =
        { s := ⟨CMPI_RC_OK, none⟩, list := [], conns := [] } ∧
      rasd_to_pool (sample_pool_host sample_host_other_prefix)
        (sample_ref "Xen_AllocationCapabilities" "ProcessorPool/0") sample_info [] [] =
        { s := ⟨CMPI_RC_OK, none⟩, list := [], conns := [] } ∧
      pool_to_rasd (sample_pool_host sample_host_other_prefix)
        (sample_ref "Xen_AllocationCapabilities" "ProcessorPool/0") sample_info [] [] =
        some { s := ⟨CMPI_RC_OK, none⟩, list := [], conns := [] } ∧
      rasd_to_alloc_cap (sample_pool_host sample_host_other_prefix).toHost
        (sample_ref "Xen_AllocationCapabilities" "ProcessorPool/0") sample_info [] [] =
        { s := ⟨CMPI_RC_ERR_NOT_SUPPORTED, none⟩, list := [], conns := [] } :=
  hypervisor_scoping (sample_pool_host sample_host_other_prefix)
    (sample_ref "Xen_AllocationCapabilities" "ProcessorPool/0") sample_info [] [] rfl

/-- C19 (counterexample). With a provider configured for another prefix,
`rasd_to_alloc_cap` does not return OK (it returns `CMPI_RC_ERR_NOT_SUPPORTED`),
and `vsmc_to_vssd`, which makes no prefix test either, goes on to connect and
appends a profile for a Xen reference. -/
theorem scoping_not_tested_by_two_handlers :
    ( Host.match_hypervisor_prefix sample_host_other_prefix
      (sample_ref "Xen_VirtualSystemManagementCapabilities" "ManagementCapabilities")
      sample_info) = false ∧
    (rasd_to_alloc_cap sample_host_other_prefix
      (sample_ref "Xen_VirtualSystemManagementCapabilities" "ManagementCapabilities")
      sample_info [] []).s.rc = CMPI_RC_ERR_NOT_SUPPORTED ∧
    CMPI_RC_ERR_NOT_SUPPORTED ≠ CMPI_RC_OK ∧
    (vsmc_to_vssd sample_host_other_prefix
      (sample_ref "Xen_VirtualSystemManagementCapabilities" "ManagementCapabilities")
      sample_info [] []).list.length = 1 := by
  refine ⟨rfl, rfl, by decide, by decide⟩

/-- C20. For a reference with a matching class prefix, `migrate_cap_to_vsmsd`
(first `get_migration_caps`, then `get_migration_sd`) and `vsmsd_to_migrate_cap`
(first `get_migration_sd`, then `get_migration_caps`) return OK exactly when
both resolutions return OK, and then append exactly the instance of the second
resolution; when the first fails they append nothing and return its status, and
when the second fails they append nothing and return its status. -/
theorem migration_handlers (h : Host) (ref : CMPIObjectPath) (info : std_assoc_info)
    (list : List CMPIInstance) (conns : List virConnectPtr)
    (hm : ( Host.match_hypervisor_prefix h ref info) = true) :
    (((migrate_cap_to_vsmsd h ref info list conns).s.rc = CMPI_RC_OK ↔
        ((h.get_migration_caps ref true).1.rc = CMPI_RC_OK ∧
          (h.get_migration_sd ref false).1.rc = CMPI_RC_OK)) ∧
      ((h.get_migration_caps ref true).1.rc = CMPI_RC_OK →
        (h.get_migration_sd ref false).1.rc = CMPI_RC_OK →
        (migrate_cap_to_vsmsd h ref info list conns).list =
          list ++ [(h.get_migration_sd ref false).2]) ∧
      ((h.get_migration_caps ref true).1.rc ≠ CMPI_RC_OK →
        (migrate_cap_to_vsmsd h ref info list conns).s = (h.get_migration_caps ref true).1 ∧
          (migrate_cap_to_vsmsd h ref info list conns).list = list) ∧
      ((h.get_migration_caps ref true).1.rc = CMPI_RC_OK →
        (h.get_migration_sd ref false).1.rc ≠ CMPI_RC_OK →
        (migrate_cap_to_vsmsd h ref info list conns).s = (h.get_migration_sd ref false).1 ∧
          (migrate_cap_to_vsmsd h ref info list conns).list = list)) ∧
    (((vsmsd_to_migrate_cap h ref info list conns).s.rc = CMPI_RC_OK ↔
        ((h.get_migration_sd ref true).1.rc = CMPI_RC_OK ∧
          (h.get_migration_caps ref false).1.rc = CMPI_RC_OK)) ∧
      ((h.get_migration_sd ref true).1.rc = CMPI_RC_OK →
        (h.get_migration_caps ref false).1.rc = CMPI_RC_OK →
        (vsmsd_to_migrate_cap h ref info list conns).list =
          list ++ [(h.get_migration_caps ref false).2]) ∧
      ((h.get_migration_sd ref true).1.rc ≠ CMPI_RC_OK →
        (vsmsd_to_migrate_cap h ref info list conns).s = (h.get_migration_sd ref true).1 ∧
          (vsmsd_to_migrate_cap h ref info list conns).list = list) ∧
      ((h.get_migration_sd ref true).1.rc = CMPI_RC_OK →
        (h.get_migration_caps ref false).1.rc ≠ CMPI_RC_OK →
        (vsmsd_to_migrate_cap h ref info list conns).s = (h.get_migration_caps ref false).1 ∧
          (vsmsd_to_migrate_cap h ref info list conns).list = list)) := by
  have hmf : ¬ ( Host.match_hypervisor_prefix h ref info) = false := by
    rw [hm]; decide
  constructor
  · unfold migrate_cap_to_vsmsd
    rw [if_neg hmf]
    by_cases h1 : (h.get_migration_caps ref true).1.rc = CMPI_RC_OK
    · by_cases h2 : (h.get_migration_sd ref false).1.rc = CMPI_RC_OK
      · dsimp only
        rw [if_neg (not_not.mpr h1), if_pos h2]
        exact ⟨⟨fun _ => ⟨h1, h2⟩, fun _ => h2⟩, fun _ _ => rfl, fun hn => absurd h1 hn,
          fun _ hn => absurd h2 hn⟩
      · dsimp only
        rw [if_neg (not_not.mpr h1), if_neg h2]
        exact ⟨⟨fun hok => absurd hok h2, fun hb => absurd hb.2 h2⟩, fun _ hp => absurd hp h2,
          fun hn => absurd h1 hn, fun _ _ => ⟨rfl, rfl⟩⟩
    · dsimp only
      rw [if_pos h1]
      exact ⟨⟨fun hok => absurd hok h1, fun hb => absurd hb.1 h1⟩, fun hp => absurd hp h1,
        fun _ => ⟨rfl, rfl⟩, fun hp => absurd hp h1⟩
  · unfold vsmsd_to_migrate_cap
    rw [if_neg hmf]
    by_cases h1 : (h.get_migration_sd ref true).1.rc = CMPI_RC_OK
    · by_cases h2 : (h.get_migration_caps ref false).1.rc = CMPI_RC_OK
      · dsimp only
        rw [if_neg (not_not.mpr h1), if_pos h2]
        exact ⟨⟨fun _ => ⟨h1, h2⟩, fun _ => h2⟩, fun _ _ => rfl, fun hn => absurd h1 hn,
          fun _ hn => absurd h2 hn⟩
      · dsimp only
        rw [if_neg (not_not.mpr h1), if_neg h2]
        exact ⟨⟨fun hok => absurd hok h2, fun hb => absurd hb.2 h2⟩, fun _ hp => absurd hp h2,
          fun hn => absurd h1 hn, fun _ _ => ⟨rfl, rfl⟩⟩
    · dsimp only
      rw [if_pos h1]
      exact ⟨⟨fun hok => absurd hok h1, fun hb => absurd hb.1 h1⟩, fun hp => absurd hp h1,
        fun _ => ⟨rfl, rfl⟩, fun hp => absurd hp h1⟩

/-- C20 (witness). On the sample host both resolutions succeed and each handler
appends the instance of its second resolution. -/
theorem migration_handlers_witness :
    (migrate_cap_to_vsmsd (sample_host 8 3001000 none 100000)
        (sample_ref "Xen_VirtualSystemMigrationCapabilities" "MigrationCapabilities")
        sample_info [] []).list =
      [] ++ [((sample_host 8 3001000 none 100000).get_migration_sd
        (sample_ref "Xen_VirtualSystemMigrationCapabilities" "MigrationCapabilities")
        false).2] ∧
    (vsmsd_to_migrate_cap (sample_host 8 3001000 none 100000)
        (sample_ref "Xen_VirtualSystemMigrationSettingData" "MigrationSettingData")
        sample_info [] []).list =
      [] ++ [((sample_host 8 3001000 none 100000).get_migration_caps
        (sample_ref "Xen_VirtualSystemMigrationSettingData" "MigrationSettingData")
        false).2] :=
  ⟨(migration_handlers (sample_host 8 3001000 none 100000)
      (sample_ref "Xen_VirtualSystemMigrationCapabilities" "MigrationCapabilities")
      sample_info [] [] rfl).1.2.1 rfl rfl,
   (migration_handlers (sample_host 8 3001000 none 100000)
      (sample_ref "Xen_VirtualSystemMigrationSettingData" "MigrationSettingData")
      sample_info [] [] rfl).2.2.1 rfl rfl⟩

/-! ### Pool membership -/

theorem filter_by_pool_cons (h : PoolHost) (dest rest : List CMPIInstance)
    (inst : CMPIInstance) (p : String) :
    filter_by_pool h dest (inst :: rest) p =
      match h.rasd_type_from_classname inst.classname with
      | none => filter_by_pool h dest rest p
      | some type =>
        match h.pool_member_of inst.classname type (cu_get_str_prop inst "InstanceID") with
        | none => none
        | some poolid =>
          if poolid = p then filter_by_pool h (dest ++ [inst]) rest p
          else filter_by_pool h dest rest p := by
  simp only [filter_by_pool, CMGetObjectPath, CLASSNAME, inst_list_add]

/-- When `filter_by_pool` returns, the destination has grown by the members of
the pool among the source, in their order. -/
theorem filter_by_pool_some (h : PoolHost) (p : String) (src dest r : List CMPIInstance)
    (hr : filter_by_pool h dest src p = some r) :
    r = dest ++ src.filter (owned_by h p) := by
  induction src generalizing dest with
  | nil =>
    simp only [filter_by_pool] at hr
    simpa using (Option.some.inj hr).symm
  | cons inst rest ih =>
    rw [filter_by_pool_cons] at hr
    cases ht : h.rasd_type_from_classname inst.classname with
    | none =>
      simp only [ht] at hr
      have := ih dest hr
      simp [List.filter_cons, owned_by, ht, this]
    | some type =>
      simp only [ht] at hr
      cases hp : h.pool_member_of inst.classname type (cu_get_str_prop inst "InstanceID") with
      | none => simp [hp] at hr
      | some poolid =>
        simp only [hp] at hr
        by_cases he : poolid = p
        · rw [if_pos he] at hr
          have := ih _ hr
          simp [List.filter_cons, owned_by, ht, hp, he, this]
        · rw [if_neg he] at hr
          have := ih _ hr
          simp [List.filter_cons, owned_by, ht, hp, he, this]

/-- The function `filter_by_pool` returns when the owning pool of every
candidate of the source can be determined. -/
theorem filter_by_pool_total (h : PoolHost) (p : String) (src dest : List CMPIInstance)
    (hall : ∀ inst ∈ src, has_pool h inst) :
    filter_by_pool h dest src p = some (dest ++ src.filter (owned_by h p)) := by
  induction src generalizing dest with
  | nil => simp [filter_by_pool]
  | cons inst rest ih =>
    have hrest : ∀ i ∈ rest, has_pool h i := fun i hi => hall i (List.mem_cons_of_mem _ hi)
    have hinst := hall inst (List.mem_cons_self _ _)
    rw [filter_by_pool_cons]
    cases ht : h.rasd_type_from_classname inst.classname with
    | none =>
      simp only [ht]
      rw [ih dest hrest]
      simp [List.filter_cons, owned_by, ht]
    | some type =>
      simp only [ht]
      cases hp : h.pool_member_of inst.classname type (cu_get_str_prop inst "InstanceID") with
      | none => exact absurd hp (hinst type ht)
      | some poolid =>
        simp only [hp]
        by_cases he : poolid = p
        · rw [if_pos he, ih _ hrest]
          simp [List.filter_cons, owned_by, ht, hp, he]
        · rw [if_neg he, ih _ hrest]
          simp [List.filter_cons, owned_by, ht, hp, he]

theorem rasds_from_pool_loop_some (h : PoolHost) (type : Nat) (ref : CMPIObjectPath)
    (p : String) (doms : List virDomainPtr) (list r : List CMPIInstance)
    (hr : rasds_from_pool_loop h type ref p doms list = some r) :
    r = list ++ (pool_candidates h type ref doms).filter (owned_by h p) := by
  induction doms generalizing list with
  | nil =>
    simp only [rasds_from_pool_loop] at hr
    simpa [pool_candidates] using (Option.some.inj hr).symm
  | cons dom rest ih =>
    simp only [rasds_from_pool_loop] at hr
    cases hf : filter_by_pool h list
        (h.rasds_for_domain (h.virDomainGetName dom) type ref) p with
    | none => simp [hf] at hr
    | some list1 =>
      simp only [hf] at hr
      have h1 := filter_by_pool_some h p _ _ _ hf
      have h2 := ih _ hr
      rw [h2, h1]
      simp [pool_candidates, List.filter_append]

theorem rasds_from_pool_loop_total (h : PoolHost) (type : Nat) (ref : CMPIObjectPath)
    (p : String) (doms : List virDomainPtr) (list : List CMPIInstance)
    (hall : ∀ inst ∈ pool_candidates h type ref doms, has_pool h inst) :
    rasds_from_pool_loop h type ref p doms list =
      some (list ++ (pool_candidates h type ref doms).filter (owned_by h p)) := by
  induction doms generalizing list with
  | nil => simp [rasds_from_pool_loop, pool_candidates]
  | cons dom rest ih =>
    have h1 : ∀ inst ∈ h.rasds_for_domain (h.virDomainGetName dom) type ref, has_pool h inst :=
      fun i hi => hall i (by simp [pool_candidates, hi])
    have h2 : ∀ inst ∈ pool_candidates h type ref rest, has_pool h inst :=
      fun i hi => hall i (by simp [pool_candidates, hi])
    simp only [rasds_from_pool_loop, filter_by_pool_total h p _ _ h1, ih _ h2]
    simp [pool_candidates, List.filter_append]

theorem rasds_from_pool_connected (h : PoolHost) (type : Nat) (ref : CMPIObjectPath)
    (p : String) (list : List CMPIInstance) (conns : List virConnectPtr) (conn : virConnectPtr)
    (hc : (h.connect_by_classname (CLASSNAME ref)).1 = some conn) :
    rasds_from_pool h type ref p list conns =
      (rasds_from_pool_loop h type ref p (h.get_domain_list conn) list).map
        (fun list1 => { count := h.get_domain_list_rc conn, list := list1,
                        conns := conns }) := by
  simp only [rasds_from_pool, hc, erase_head]
  cases rasds_from_pool_loop h type ref p (h.get_domain_list conn) list <;> rfl

/-- With the connection obtained and the owning pool of every candidate
determined, `pool_to_rasd` returns OK, appends the settings of the pool and
leaves no connection open. -/
theorem pool_to_rasd_member_list (h : PoolHost) (ref : CMPIObjectPath) (info : std_assoc_info)
    (list : List CMPIInstance) (conns : List virConnectPtr) (p : String) (type : Nat)
    (conn : virConnectPtr)
    (hm : ( Host.match_hypervisor_prefix h.toHost ref info) = true)
    (hid : cu_get_str_path ref "InstanceID" = some p)
    (ht : pool_id_type p = some type)
    (hc : (h.connect_by_classname (CLASSNAME ref)).1 = some conn)
    (hall : ∀ inst ∈ pool_candidates h type ref (h.get_domain_list conn), has_pool h inst) :
    pool_to_rasd h ref info list conns =
      some { s := CMSetStatus CMPI_RC_OK, list := list ++ pool_settings h type ref p conn,
             conns := conns } := by
  rw [pool_to_rasd_typed h ref info list conns p type hm hid ht,
    rasds_from_pool_connected h type ref p list conns conn hc,
    rasds_from_pool_loop_total h type ref p _ list hall]
  rfl

/-- Whatever `pool_to_rasd` returns for the pool identifier `p`, each entry of
its list was in the list before or is a member of `p`. -/
theorem pool_to_rasd_members (h : PoolHost) (ref : CMPIObjectPath) (info : std_assoc_info)
    (list : List CMPIInstance) (conns : List virConnectPtr) (p : String) (r : Handled)
    (hm : ( Host.match_hypervisor_prefix h.toHost ref info) = true)
    (hid : cu_get_str_path ref "InstanceID" = some p)
    (hr : pool_to_rasd h ref info list conns = some r) :
    ∀ inst ∈ r.list, inst ∈ list ∨ owned_by h p inst = true := by
  intro inst hin
  cases ht : pool_id_type p with
  | none =>
    have hmf : ¬ ( Host.match_hypervisor_prefix h.toHost ref info) = false := by
      rw [hm]; decide
    unfold pool_to_rasd at hr
    rw [if_neg hmf] at hr
    simp only [hid, ht] at hr
    have hl : r.list = list := by rw [← Option.some.inj hr]
    rw [hl] at hin
    exact Or.inl hin
  | some type =>
    rw [pool_to_rasd_typed h ref info list conns p type hm hid ht] at hr
    cases hc : (h.connect_by_classname (CLASSNAME ref)).1 with
    | none =>
      have h0 : rasds_from_pool h type ref p list conns =
          some { count := 0, list := list, conns := conns } := by
        simp only [rasds_from_pool, hc]
      rw [h0] at hr
      have hl : r.list = list := by rw [← Option.some.inj hr]
      rw [hl] at hin
      exact Or.inl hin
    | some conn =>
      rw [rasds_from_pool_connected h type ref p list conns conn hc] at hr
      cases hl : rasds_from_pool_loop h type ref p (h.get_domain_list conn) list with
      | none => simp [hl] at hr
      | some list1 =>
        rw [hl] at hr
        have hl1 : r.list = list1 := by rw [← Option.some.inj hr]
        have h2 := rasds_from_pool_loop_some h type ref p _ list list1 hl
        rw [hl1, h2, List.mem_append, List.mem_filter] at hin
        rcases hin with hin | hin
        · exact Or.inl hin
        · exact Or.inr hin.2

theorem owned_by_iff (h : PoolHost) (p : String) (inst : CMPIInstance) :
    owned_by h p inst = true ↔
      ∃ type, h.rasd_type_from_classname inst.classname = some type ∧
        h.pool_member_of inst.classname type (cu_get_str_prop inst "InstanceID") = some p := by
  unfold owned_by
  cases ht : h.rasd_type_from_classname inst.classname with
  | none => simp
  | some type => simp

/-- C14 (failing input). On the sample pool host the disk of dom1 belongs to
DiskPool/images and the owning pool of the disk of dom2 cannot be determined
(`pool_member_of` returns `NULL`). The reference of DiskPool/images has a
matching class prefix, the connection is obtained and the identifier begins
with DiskPool, and the settings of the pool are the one disk of dom1; the
handler `pool_to_rasd` produces no list at all: `filter_by_pool` hands the
`NULL` to `STREQ`. -/
theorem pool_to_rasd_undetermined_pool_faults :
    ( Host.match_hypervisor_prefix (sample_pool_host (sample_host 8 3001000 none 100000)).toHost
        (sample_ref "Xen_DiskPool" "DiskPool/images") sample_info) = true ∧
    ((sample_pool_host (sample_host 8 3001000 none 100000)).connect_by_classname
        (CLASSNAME (sample_ref "Xen_DiskPool" "DiskPool/images"))).1 = some 1 ∧
    pool_id_type "DiskPool/images" = some CIM_RASD_TYPE_DISK ∧
    pool_settings (sample_pool_host (sample_host 8 3001000 none 100000)) CIM_RASD_TYPE_DISK
        (sample_ref "Xen_DiskPool" "DiskPool/images") "DiskPool/images" 1 =
      [sample_rasd "Xen_DiskResourceAllocationSettingData" "dom1/xvda"] ∧
    pool_to_rasd (sample_pool_host (sample_host 8 3001000 none 100000))
        (sample_ref "Xen_DiskPool" "DiskPool/images") sample_info [] [] = none := by
  refine ⟨rfl, rfl, by decide, by decide, by decide⟩

/-- C15. Membership symmetry. Let `pool_to_rasd`, started with an empty list,
return for a pool reference with a matching class prefix and InstanceID `p`.
For every setting `inst` of the returned list, the class name of `inst` maps
to a setting type and the owning pool that `pool_member_of` recomputes for it
is `p`; and for every reference `op` to that setting (its class name and its
InstanceID) with a matching class prefix, once the connection is obtained and
`get_pool_by_id` finds a pool for `p`, the handler `rasd_to_pool` returns OK
and appends exactly that pool. -/
theorem membership_symmetry (h : PoolHost) (ref : CMPIObjectPath) (info : std_assoc_info)
    (conns : List virConnectPtr) (p : String) (r : Handled)
    (hm : ( Host.match_hypervisor_prefix h.toHost ref info) = true)
    (hid : cu_get_str_path ref "InstanceID" = some p)
    (hr : pool_to_rasd h ref info [] conns = some r) :
    ∀ inst ∈ r.list,
      (∃ type, h.rasd_type_from_classname inst.classname = some type ∧
        h.pool_member_of inst.classname type (cu_get_str_prop inst "InstanceID") = some p) ∧
      ∀ (op : CMPIObjectPath) (info1 : std_assoc_info) (list1 : List CMPIInstance)
        (conns1 : List virConnectPtr) (id : String) (conn : virConnectPtr)
        (pool : CMPIInstance),
        CLASSNAME op = inst.classname →
        cu_get_str_prop inst "InstanceID" = some id →
        cu_get_str_path op "InstanceID" = some id →
        ( Host.match_hypervisor_prefix h.toHost op info1) = true →
        (h.connect_by_classname (CLASSNAME op)).1 = some conn →
        h.get_pool_by_id conn p (NAMESPACE op) = some pool →
        rasd_to_pool h op info1 list1 conns1 =
          { s := CMSetStatus CMPI_RC_OK, list := list1 ++ [pool], conns := conns1 } := by
  intro inst hin
  have hown : owned_by h p inst = true := by
    rcases pool_to_rasd_members h ref info [] conns p r hm hid hr inst hin with h0 | h0
    · exact absurd h0 (List.not_mem_nil _)
    · exact h0
  obtain ⟨type, ht, hp⟩ := (owned_by_iff h p inst).mp hown
  refine ⟨⟨type, ht, hp⟩, ?_⟩
  intro op info1 list1 conns1 id conn pool hcn hpid hkid hm1 hc hpool
  have hmf : ¬ ( Host.match_hypervisor_prefix h.toHost op info1) = false := by
    rw [hm1]; decide
  rw [hpid] at hp
  rw [← hcn] at ht hp
  unfold rasd_to_pool
  rw [if_neg hmf]
  simp only [ht, hkid, hp, hc, hpool, erase_head, inst_list_add]

/-- C15 (witness). On the sample pool host `pool_to_rasd` returns the processor
settings of dom1 and dom2 for ProcessorPool/0, and `rasd_to_pool` on the
reference of the processor setting of dom1 returns OK with the pool whose
InstanceID is ProcessorPool/0. -/
theorem membership_symmetry_witness :
    pool_to_rasd (sample_pool_host (sample_host 8 3001000 none 100000))
        (sample_ref "Xen_ProcessorPool" "ProcessorPool/0") sample_info [] [] =
      some { s := CMSetStatus CMPI_RC_OK,
             list := [sample_rasd "Xen_ProcResourceAllocationSettingData" "dom1/proc",
                      sample_rasd "Xen_ProcResourceAllocationSettingData" "dom2/proc"],
             conns := [] } ∧
    rasd_to_pool (sample_pool_host (sample_host 8 3001000 none 100000))
        (sample_ref "Xen_ProcResourceAllocationSettingData" "dom1/proc") sample_info [] [] =
      { s := CMSetStatus CMPI_RC_OK,
        list := [] ++ [{ classname := "Xen_ResourcePool", ns := "root/virt",
                         props := [("InstanceID", CMPIValue.chars "ProcessorPool/0")] }],
        conns := [] } :=
  ⟨by decide,
   (membership_symmetry (sample_pool_host (sample_host 8 3001000 none 100000))
      (sample_ref "Xen_ProcessorPool" "ProcessorPool/0") sample_info [] "ProcessorPool/0"
      { s := CMSetStatus CMPI_RC_OK,
        list := [sample_rasd "Xen_ProcResourceAllocationSettingData" "dom1/proc",
                 sample_rasd "Xen_ProcResourceAllocationSettingData" "dom2/proc"],
        conns := [] }
      rfl (by decide) (by decide)
      (sample_rasd "Xen_ProcResourceAllocationSettingData" "dom1/proc")
      (List.mem_cons_self _ _)).2
     (sample_ref "Xen_ProcResourceAllocationSettingData" "dom1/proc") sample_info [] []
     "dom1/proc" 1
     { classname := "Xen_ResourcePool", ns := "root/virt",
       props := [("InstanceID", CMPIValue.chars "ProcessorPool/0")] }
     rfl (by decide) (by decide) rfl rfl rfl⟩

/-! ### The reference builder -/

/-- What `make_ref_valuerole` writes on a reference instance `r` for a target
with InstanceID `iid`. -/
theorem make_ref_valuerole_written (h : Host) (source_ref : CMPIObjectPath)
    (target_inst : CMPIInstance) (info : std_assoc_info) (assoc : std_assoc) (v0 : Nat)
    (iid : String) (r : CMPIInstance)
    (hid : cu_get_str_prop target_inst "InstanceID" = some iid)
    (href : h.make_reference source_ref target_inst info assoc = some r) :
    ∃ out, make_ref_valuerole h source_ref target_inst info assoc v0 = some (some out) ∧
      CMGetProperty out "PropertyPolicy" = some (CMPIValue.uint16 SDC_POLICY_INDEPENDENT) ∧
      CMGetProperty out "ValueRange" = some (CMPIValue.uint16 (classify_valuerange iid v0)) ∧
      CMGetProperty out "ValueRole" = some (CMPIValue.uint16
        (if classify_valuerange iid v0 = SDC_RANGE_POINT then SDC_ROLE_DEFAULT
         else SDC_ROLE_SUPPORTED)) := by
  have heq : make_ref_valuerole h source_ref target_inst info assoc v0 =
      some (some (CMSetProperty (CMSetProperty (CMSetProperty r "ValueRole"
        (CMPIValue.uint16 (if classify_valuerange iid v0 = SDC_RANGE_POINT then SDC_ROLE_DEFAULT
          else SDC_ROLE_SUPPORTED)))
        "ValueRange" (CMPIValue.uint16 (classify_valuerange iid v0)))
        "PropertyPolicy" (CMPIValue.uint16 SDC_POLICY_INDEPENDENT))) := by
    simp only [make_ref_valuerole, hid, href]
  refine ⟨_, heq, ?_, ?_, ?_⟩
  · exact CMGetProperty_set_self _ _ _
  · rw [CMGetProperty_set_ne _ _ _ _ (by decide)]
    exact CMGetProperty_set_self _ _ _
  · rw [CMGetProperty_set_ne _ _ _ _ (by decide), CMGetProperty_set_ne _ _ _ _ (by decide)]
    exact CMGetProperty_set_self _ _ _

/-- C21 (amended). For a target instance that carries an InstanceID and a
reference instance that `make_reference` built, `make_ref_valuerole` returns the
reference with PropertyPolicy = Independent and with ValueRole = Default when
the ValueRange it writes is the point code and ValueRole = Supported when it is
any other value; the two roles differ. For a target without InstanceID the
reference is returned as `make_reference` built it, none of the three
properties written. -/
theorem make_ref_valuerole_role (h : Host) (source_ref : CMPIObjectPath)
    (target_inst : CMPIInstance) (info : std_assoc_info) (assoc : std_assoc) (v0 : Nat) :
    (∀ iid r, cu_get_str_prop target_inst "InstanceID" = some iid →
      h.make_reference source_ref target_inst info assoc = some r →
      ∃ out vr, make_ref_valuerole h source_ref target_inst info assoc v0 = some (some out) ∧
        CMGetProperty out "PropertyPolicy" = some (CMPIValue.uint16 SDC_POLICY_INDEPENDENT) ∧
        CMGetProperty out "ValueRange" = some (CMPIValue.uint16 vr) ∧
        (vr = SDC_RANGE_POINT →
          CMGetProperty out "ValueRole" = some (CMPIValue.uint16 SDC_ROLE_DEFAULT)) ∧
        (vr ≠ SDC_RANGE_POINT →
          CMGetProperty out "ValueRole" = some (CMPIValue.uint16 SDC_ROLE_SUPPORTED))) ∧
    (cu_get_str_prop target_inst "InstanceID" = none →
      make_ref_valuerole h source_ref target_inst info assoc v0 =
        some (h.make_reference source_ref target_inst info assoc)) ∧
    SDC_ROLE_DEFAULT ≠ SDC_ROLE_SUPPORTED := by
  refine ⟨?_, ?_, by decide⟩
  · intro iid r hid href
    obtain ⟨out, hout, hpol, hrange, hrole⟩ :=
      make_ref_valuerole_written h source_ref target_inst info assoc v0 iid r hid href
    refine ⟨out, classify_valuerange iid v0, hout, hpol, hrange, ?_, ?_⟩
    · intro hp
      rw [hrole, if_pos hp]
    · intro hp
      rw [hrole, if_neg hp]
  · intro hid
    simp only [make_ref_valuerole, hid]

/-- C21 (witness for the amended claim). The target "Default" on the sample
host: the reference carries ValueRole = Default, ValueRange = point and
PropertyPolicy = Independent. -/
theorem make_ref_valuerole_role_witness :
    ∃ out vr, make_ref_valuerole (sample_host 8 3001000 none 100000)
        (sample_ref "Xen_AllocationCapabilities" "MemoryPool/0") (sample_target "Default")
        sample_info sample_assoc SDC_RANGE_INC = some (some out) ∧
      CMGetProperty out "PropertyPolicy" = some (CMPIValue.uint16 SDC_POLICY_INDEPENDENT) ∧
      CMGetProperty out "ValueRange" = some (CMPIValue.uint16 vr) ∧
      (vr = SDC_RANGE_POINT →
        CMGetProperty out "ValueRole" = some (CMPIValue.uint16 SDC_ROLE_DEFAULT)) ∧
      (vr ≠ SDC_RANGE_POINT →
        CMGetProperty out "ValueRole" = some (CMPIValue.uint16 SDC_ROLE_SUPPORTED)) :=
  (make_ref_valuerole_role (sample_host 8 3001000 none 100000)
    (sample_ref "Xen_AllocationCapabilities" "MemoryPool/0") (sample_target "Default")
    sample_info sample_assoc SDC_RANGE_INC).1 "Default"
    { classname := "Xen_SettingsDefineCapabilities", ns := "root/virt", props := [] }
    (by decide) rfl

/-- C21 (counterexample). A target instance without InstanceID on the sample
host: `make_ref_valuerole` returns the reference with no PropertyPolicy (and no
ValueRole or ValueRange) on it. -/
theorem make_ref_valuerole_without_id :
    make_ref_valuerole (sample_host 8 3001000 none 100000)
        (sample_ref "Xen_AllocationCapabilities" "MemoryPool/0")
        { classname := "Xen_MemResourceAllocationSettingData", ns := "root/virt", props := [] }
        sample_info sample_assoc SDC_RANGE_INC =
      some (some { classname := "Xen_SettingsDefineCapabilities", ns := "root/virt",
                   props := [] }) ∧
    CMGetProperty
        { classname := "Xen_SettingsDefineCapabilities", ns := "root/virt", props := [] }
        "PropertyPolicy" = none := by
  refine ⟨by decide, by decide⟩

theorem strstr_iff (haystack needle : String) :
    strstr haystack needle = true ↔ needle.data <:+: haystack.data := by
  unfold strstr
  exact strstr_chars_iff _ _

/-- C26. For a target with InstanceID `iid` and a reference instance that
`make_reference` built, the ValueRange that `make_ref_valuerole` writes is the
point code when `iid` is a substring of "Default", else the increment code when
it is a substring of "Increment", else the maximum code when it is a substring
of "Maximum", else the minimum code when it is a substring of "Minimum", and
otherwise the value `v0` the unassigned local holds; ValueRole is Default when
that ValueRange is the point code and Supported otherwise. The empty string and
"Default" classify as point, "Increment" and "m" as increment, "Maximum" and
"imum" as maximum, "Minimum" as minimum. -/
theorem valuerange_by_containment (h : Host) (source_ref : CMPIObjectPath)
    (target_inst : CMPIInstance) (info : std_assoc_info) (assoc : std_assoc) (v0 : Nat)
    (iid : String) (r : CMPIInstance)
    (hid : cu_get_str_prop target_inst "InstanceID" = some iid)
    (href : h.make_reference source_ref target_inst info assoc = some r) :
    (∃ out vr, make_ref_valuerole h source_ref target_inst info assoc v0 = some (some out) ∧
      vr = classify_valuerange iid v0 ∧
      CMGetProperty out "ValueRange" = some (CMPIValue.uint16 vr) ∧
      CMGetProperty out "ValueRole" = some (CMPIValue.uint16
        (if vr = SDC_RANGE_POINT then SDC_ROLE_DEFAULT else SDC_ROLE_SUPPORTED)) ∧
      (iid.data <:+: "Default".data → vr = SDC_RANGE_POINT) ∧
      (¬ iid.data <:+: "Default".data → iid.data <:+: "Increment".data →
        vr = SDC_RANGE_INC) ∧
      (¬ iid.data <:+: "Default".data → ¬ iid.data <:+: "Increment".data →
        iid.data <:+: "Maximum".data → vr = SDC_RANGE_MAX) ∧
      (¬ iid.data <:+: "Default".data → ¬ iid.data <:+: "Increment".data →
        ¬ iid.data <:+: "Maximum".data → iid.data <:+: "Minimum".data →
        vr = SDC_RANGE_MIN) ∧
      (¬ iid.data <:+: "Default".data → ¬ iid.data <:+: "Increment".data →
        ¬ iid.data <:+: "Maximum".data → ¬ iid.data <:+: "Minimum".data → vr = v0)) ∧
    (∀ v, classify_valuerange "" v = SDC_RANGE_POINT ∧
      classify_valuerange "Default" v = SDC_RANGE_POINT ∧
      classify_valuerange "Increment" v = SDC_RANGE_INC ∧
      classify_valuerange "Maximum" v = SDC_RANGE_MAX ∧
      classify_valuerange "Minimum" v = SDC_RANGE_MIN ∧
      classify_valuerange "imum" v = SDC_RANGE_MAX ∧
      classify_valuerange "m" v = SDC_RANGE_INC) ∧
    SDC_RANGE_INC ≠ SDC_RANGE_POINT ∧ SDC_RANGE_MAX ≠ SDC_RANGE_POINT ∧
    SDC_RANGE_MIN ≠ SDC_RANGE_POINT := by
  refine ⟨?_, fun v => ⟨rfl, rfl, rfl, rfl, rfl, rfl, rfl⟩, by decide, by decide, by decide⟩
  obtain ⟨out, hout, _, hrange, hrole⟩ :=
    make_ref_valuerole_written h source_ref target_inst info assoc v0 iid r hid href
  have hD := strstr_iff "Default" iid
  have hI := strstr_iff "Increment" iid
  have hX := strstr_iff "Maximum" iid
  have hN := strstr_iff "Minimum" iid
  refine ⟨out, classify_valuerange iid v0, hout, rfl, hrange, hrole, ?_, ?_, ?_, ?_, ?_⟩
  · intro h1
    simp only [classify_valuerange, hD.mpr h1, if_true]
  · intro h1 h2
    have n1 : strstr "Default" iid = false := by
      cases hs : strstr "Default" iid
      · rfl
      · exact absurd (hD.mp hs) h1
    simp only [classify_valuerange, n1, hI.mpr h2, if_true]
    rfl
  · intro h1 h2 h3
    have n1 : strstr "Default" iid = false := by
      cases hs : strstr "Default" iid
      · rfl
      · exact absurd (hD.mp hs) h1
    have n2 : strstr "Increment" iid = false := by
      cases hs : strstr "Increment" iid
      · rfl
      · exact absurd (hI.mp hs) h2
    simp only [classify_valuerange, n1, n2, hX.mpr h3, if_true]
    rfl
  · intro h1 h2 h3 h4
    have n1 : strstr "Default" iid = false := by
      cases hs : strstr "Default" iid
      · rfl
      · exact absurd (hD.mp hs) h1
    have n2 : strstr "Increment" iid = false := by
      cases hs : strstr "Increment" iid
      · rfl
      · exact absurd (hI.mp hs) h2
    have n3 : strstr "Maximum" iid = false := by
      cases hs : strstr "Maximum" iid
      · rfl
      · exact absurd (hX.mp hs) h3
    simp only [classify_valuerange, n1, n2, n3, hN.mpr h4, if_true]
    rfl
  · intro h1 h2 h3 h4
    have n1 : strstr "Default" iid = false := by
      cases hs : strstr "Default" iid
      · rfl
      · exact absurd (hD.mp hs) h1
    have n2 : strstr "Increment" iid = false := by
      cases hs : strstr "Increment" iid
      · rfl
      · exact absurd (hI.mp hs) h2
    have n3 : strstr "Maximum" iid = false := by
      cases hs : strstr "Maximum" iid
      · rfl
      · exact absurd (hX.mp hs) h3
    have n4 : strstr "Minimum" iid = false := by
      cases hs : strstr "Minimum" iid
      · rfl
      · exact absurd (hN.mp hs) h4
    simp only [classify_valuerange, n1, n2, n3, n4]
    rfl

/-- C26 (witness). The target "imum" on the sample host: the reference carries
ValueRange = maximum and ValueRole = Supported. -/
theorem valuerange_by_containment_witness :
    ∃ out vr, make_ref_valuerole (sample_host 8 3001000 none 100000)
        (sample_ref "Xen_AllocationCapabilities" "MemoryPool/0") (sample_target "imum")
        sample_info sample_assoc SDC_RANGE_INC = some (some out) ∧
      CMGetProperty out "ValueRange" = some (CMPIValue.uint16 vr) ∧
      CMGetProperty out "ValueRole" = some (CMPIValue.uint16
        (if vr = SDC_RANGE_POINT then SDC_ROLE_DEFAULT else SDC_ROLE_SUPPORTED)) ∧
      vr = SDC_RANGE_MAX := by
  obtain ⟨out, vr, hout, _, hrange, hrole, _, _, hmax, _, _⟩ :=
    (valuerange_by_containment (sample_host 8 3001000 none 100000)
      (sample_ref "Xen_AllocationCapabilities" "MemoryPool/0") (sample_target "imum")
      sample_info sample_assoc SDC_RANGE_INC "imum"
      { classname := "Xen_SettingsDefineCapabilities", ns := "root/virt", props := [] }
      (by decide) rfl).1
  exact ⟨out, vr, hout, hrange, hrole, hmax (by decide) (by decide) (by decide)⟩

/-! ### The unchecked vcpu query -/

/-- C27. When `connect_by_classname` returns a handle and leaves an OK status,
`proc_max` returns a Maximum bundle with status OK whatever the `int` result
`r` of `virConnectGetMaxVcpus` is, and its VirtualQuantity is `r mod 2 ^ 64`;
for the error value -1 that is 18446744073709551615. -/
theorem proc_max_unchecked_query (h : Host) (ref : CMPIObjectPath) (s : CMPIStatus)
    (conns : List virConnectPtr) (conn : virConnectPtr) (st : CMPIStatus)
    (hconn : h.connect_by_classname (CLASSNAME ref) = (some conn, st))
    (hst : st.rc = CMPI_RC_OK) :
    (proc_max h ref s conns).rasd =
        some [⟨"InstanceID", CMPIValue.chars "Maximum", CMPI_chars⟩,
              ⟨"AllocationUnits", CMPIValue.chars "Processors", CMPI_chars⟩,
              ⟨"VirtualQuantity",
                CMPIValue.uint64 (h.virConnectGetMaxVcpus conn % 2 ^ 64).toNat, CMPI_uint64⟩] ∧
      (proc_max h ref s conns).s.rc = CMPI_RC_OK ∧
      (proc_max h ref s conns).vq = some (h.virConnectGetMaxVcpus conn % 2 ^ 64).toNat ∧
      (h.virConnectGetMaxVcpus conn = -1 →
        (proc_max h ref s conns).vq = some 18446744073709551615) := by
  have heq : proc_max h ref s conns =
      { rasd := some [⟨"InstanceID", CMPIValue.chars "Maximum", CMPI_chars⟩,
              ⟨"AllocationUnits", CMPIValue.chars "Processors", CMPI_chars⟩,
              ⟨"VirtualQuantity",
                CMPIValue.uint64 (h.virConnectGetMaxVcpus conn % 2 ^ 64).toNat, CMPI_uint64⟩],
        s := st, conns := conn :: conns } := by
    simp only [proc_max, hconn]
    exact copy_rasd_plain _ _ _ (by simp)
  have hvq : (proc_max h ref s conns).vq =
      some (h.virConnectGetMaxVcpus conn % 2 ^ 64).toNat := by
    rw [heq]
    simp [Resolved.vq, virtual_quantity]
  refine ⟨by rw [heq], by rw [heq]; exact hst, hvq, ?_⟩
  intro hneg
  rw [hvq, hneg]
  rfl

/-- C27 (witness). The sample host whose vcpu query reports -1. -/
theorem proc_max_unchecked_query_witness :
    (proc_max (sample_host (-1) 3001000 none 100000)
        (sample_ref "Xen_AllocationCapabilities" "ProcessorPool/0") status_ok []).s.rc =
        CMPI_RC_OK ∧
      (proc_max (sample_host (-1) 3001000 none 100000)
        (sample_ref "Xen_AllocationCapabilities" "ProcessorPool/0") status_ok []).vq =
        some 18446744073709551615 :=
  ⟨(proc_max_unchecked_query (sample_host (-1) 3001000 none 100000)
      (sample_ref "Xen_AllocationCapabilities" "ProcessorPool/0") status_ok [] 1 status_ok
      rfl rfl).2.1,
   (proc_max_unchecked_query (sample_host (-1) 3001000 none 100000)
      (sample_ref "Xen_AllocationCapabilities" "ProcessorPool/0") status_ok [] 1 status_ok
      rfl rfl).2.2.2 rfl⟩

/-! ### The layout of the bundles -/

theorem copy3_rasd (s : CMPIStatus) (conns : List virConnectPtr) (iid ut units : String)
    (n : Nat) (b : List sdc_rasd_prop)
    (hb : (copy_rasd
      [⟨"InstanceID", CMPIValue.chars iid, CMPI_chars⟩,
       ⟨ut, CMPIValue.chars units, CMPI_chars⟩,
       ⟨"VirtualQuantity", CMPIValue.uint64 n, CMPI_uint64⟩] s conns).rasd = some b) :
    b = [⟨"InstanceID", CMPIValue.chars iid, CMPI_chars⟩,
         ⟨ut, CMPIValue.chars units, CMPI_chars⟩,
         ⟨"VirtualQuantity", CMPIValue.uint64 n, CMPI_uint64⟩] := by
  rw [copy_rasd_plain _ _ _ (by simp)] at hb
  exact (Option.some.inj hb).symm

theorem copy2_rasd (s : CMPIStatus) (conns : List virConnectPtr) (iid : String)
    (n : Nat) (b : List sdc_rasd_prop)
    (hb : (copy_rasd
      [⟨"InstanceID", CMPIValue.chars iid, CMPI_chars⟩,
       ⟨"VirtualQuantity", CMPIValue.uint64 n, CMPI_uint64⟩] s conns).rasd = some b) :
    b = [⟨"InstanceID", CMPIValue.chars iid, CMPI_chars⟩,
         ⟨"VirtualQuantity", CMPIValue.uint64 n, CMPI_uint64⟩] := by
  rw [copy_rasd_plain _ _ _ (by simp)] at hb
  exact (Option.some.inj hb).symm

/-- Whatever the status, a bundle that `proc_max` returns has the three fields
InstanceID, AllocationUnits, VirtualQuantity. -/
theorem proc_max_rasd (h : Host) (ref : CMPIObjectPath) (s : CMPIStatus)
    (conns : List virConnectPtr) (b : List sdc_rasd_prop)
    (hb : (proc_max h ref s conns).rasd = some b) :
    ∃ n, b = [⟨"InstanceID", CMPIValue.chars "Maximum", CMPI_chars⟩,
              ⟨"AllocationUnits", CMPIValue.chars "Processors", CMPI_chars⟩,
              ⟨"VirtualQuantity", CMPIValue.uint64 n, CMPI_uint64⟩] := by
  unfold proc_max at hb
  cases hc : (h.connect_by_classname (CLASSNAME ref)).1 with
  | none => simp [hc] at hb
  | some conn =>
    simp only [hc] at hb
    exact ⟨_, copy3_rasd _ _ _ _ _ _ _ hb⟩

theorem net_max_tail_rasd (r : Nat × CMPIStatus × List virConnectPtr) (b : List sdc_rasd_prop)
    (hb : (net_max_tail r).rasd = some b) :
    ∃ n, b = [⟨"InstanceID", CMPIValue.chars "Maximum", CMPI_chars⟩,
              ⟨"VirtualQuantity", CMPIValue.uint64 n, CMPI_uint64⟩] := by
  unfold net_max_tail at hb
  by_cases hrc : r.2.1.rc ≠ CMPI_RC_OK
  · rw [if_pos hrc] at hb
    simp at hb
  · rw [if_neg hrc] at hb
    exact ⟨_, copy2_rasd _ _ _ _ _ hb⟩

/-- Whatever the status, a bundle that `net_max` returns has the two fields
InstanceID and VirtualQuantity. -/
theorem net_max_rasd (h : Host) (ref : CMPIObjectPath) (s : CMPIStatus)
    (conns : List virConnectPtr) (b : List sdc_rasd_prop)
    (hb : (net_max h ref s conns).rasd = some b) :
    ∃ n, b = [⟨"InstanceID", CMPIValue.chars "Maximum", CMPI_chars⟩,
              ⟨"VirtualQuantity", CMPIValue.uint64 n, CMPI_uint64⟩] := by
  unfold net_max at hb
  cases hp : h.class_prefix_name (CLASSNAME ref) with
  | none => simp [hp] at hb
  | some pfx =>
    simp only [hp] at hb
    by_cases hx : STREQC pfx "Xen" = true
    · simp only [hx, if_true] at hb
      exact net_max_tail_rasd _ _ hb
    · by_cases hk : STREQC pfx "KVM" = true
      · simp only [hx, hk, if_true, if_false] at hb
        exact net_max_tail_rasd _ _ hb
      · simp [hx, hk] at hb

/-- Whatever the status, a bundle that `disk_max` returns has the three fields
InstanceID, AllocationQuantity, VirtualQuantity. -/
theorem disk_max_rasd (h : Host) (ref : CMPIObjectPath) (s : CMPIStatus)
    (conns : List virConnectPtr) (b : List sdc_rasd_prop)
    (hb : (disk_max h ref s conns).rasd = some b) :
    ∃ n, b = [⟨"InstanceID", CMPIValue.chars "Maximum", CMPI_chars⟩,
              ⟨"AllocationQuantity", CMPIValue.chars "MegaBytes", CMPI_chars⟩,
              ⟨"VirtualQuantity", CMPIValue.uint64 n, CMPI_uint64⟩] := by
  unfold disk_max at hb
  cases hid : cu_get_str_path ref "InstanceID" with
  | none => simp [hid] at hb
  | some id =>
    simp only [hid] at hb
    by_cases hc : (h.connect_by_classname (CLASSNAME ref)).2.rc ≠ CMPI_RC_OK
    · rw [if_pos hc] at hb
      simp at hb
    · rw [if_neg hc] at hb
      by_cases hp : (h.get_pool_by_name ref id).1.rc ≠ CMPI_RC_OK
      · rw [if_pos hp] at hb
        simp at hb
      · rw [if_neg hp] at hb
        cases hcap : cu_get_u64_prop (h.get_pool_by_name ref id).2 "Capacity" with
        | none => simp [hcap] at hb
        | some c =>
          simp only [hcap] at hb
          exact ⟨_, copy3_rasd _ _ _ _ _ _ _ hb⟩

/-- C28. Every bundle a disk resolver returns has the fields InstanceID,
AllocationQuantity, VirtualQuantity, in this order, with the text "MegaBytes"
under AllocationQuantity and no field AllocationUnits; every bundle a memory
or processor resolver returns has the fields InstanceID, AllocationUnits,
VirtualQuantity, with "KiloBytes" and "Processors" under AllocationUnits; every
bundle a network resolver returns has the two fields InstanceID and
VirtualQuantity. -/
theorem bundle_units_fields (h : Host) (ref : CMPIObjectPath) (s : CMPIStatus)
    (conns : List virConnectPtr) :
    (∀ g ∈ [disk_min, disk_max, disk_def, disk_inc], ∀ b, (g h ref s conns).rasd = some b →
      b.map (fun p => p.field) = ["InstanceID", "AllocationQuantity", "VirtualQuantity"] ∧
      ⟨"AllocationQuantity", CMPIValue.chars "MegaBytes", CMPI_chars⟩ ∈ b ∧
      ∀ p ∈ b, p.field ≠ "AllocationUnits") ∧
    (∀ g ∈ [mem_min, mem_max, mem_def, mem_inc], ∀ b, (g h ref s conns).rasd = some b →
      b.map (fun p => p.field) = ["InstanceID", "AllocationUnits", "VirtualQuantity"] ∧
      ⟨"AllocationUnits", CMPIValue.chars "KiloBytes", CMPI_chars⟩ ∈ b) ∧
    (∀ g ∈ [proc_min, proc_max, proc_def, proc_inc], ∀ b, (g h ref s conns).rasd = some b →
      b.map (fun p => p.field) = ["InstanceID", "AllocationUnits", "VirtualQuantity"] ∧
      ⟨"AllocationUnits", CMPIValue.chars "Processors", CMPI_chars⟩ ∈ b) ∧
    (∀ g ∈ [net_min, net_max, net_def, net_inc], ∀ b, (g h ref s conns).rasd = some b →
      b.map (fun p => p.field) = ["InstanceID", "VirtualQuantity"]) := by
  refine ⟨?_, ?_, ?_, ?_⟩
  · intro g hg b hb
    have hshape : ∃ iid n, b = [⟨"InstanceID", CMPIValue.chars iid, CMPI_chars⟩,
        ⟨"AllocationQuantity", CMPIValue.chars "MegaBytes", CMPI_chars⟩,
        ⟨"VirtualQuantity", CMPIValue.uint64 n, CMPI_uint64⟩] := by
      simp only [List.mem_cons, List.mem_singleton, List.not_mem_nil, or_false] at hg
      rcases hg with rfl | rfl | rfl | rfl
      · exact ⟨_, _, copy3_rasd _ _ _ _ _ _ _ hb⟩
      · obtain ⟨n, hn⟩ := disk_max_rasd h ref s conns b hb
        exact ⟨_, n, hn⟩
      · exact ⟨_, _, copy3_rasd _ _ _ _ _ _ _ hb⟩
      · exact ⟨_, _, copy3_rasd _ _ _ _ _ _ _ hb⟩
    obtain ⟨iid, n, rfl⟩ := hshape
    refine ⟨rfl, by simp, ?_⟩
    intro p hp
    simp only [List.mem_cons, List.mem_singleton, List.not_mem_nil, or_false] at hp
    rcases hp with rfl | rfl | rfl
    · exact (by decide : "InstanceID" ≠ "AllocationUnits")
    · exact (by decide : "AllocationQuantity" ≠ "AllocationUnits")
    · exact (by decide : "VirtualQuantity" ≠ "AllocationUnits")
  · intro g hg b hb
    have hshape : ∃ iid n, b = [⟨"InstanceID", CMPIValue.chars iid, CMPI_chars⟩,
        ⟨"AllocationUnits", CMPIValue.chars "KiloBytes", CMPI_chars⟩,
        ⟨"VirtualQuantity", CMPIValue.uint64 n, CMPI_uint64⟩] := by
      simp only [List.mem_cons, List.mem_singleton, List.not_mem_nil, or_false] at hg
      rcases hg with rfl | rfl | rfl | rfl <;> exact ⟨_, _, copy3_rasd _ _ _ _ _ _ _ hb⟩
    obtain ⟨iid, n, rfl⟩ := hshape
    exact ⟨rfl, by simp⟩
  · intro g hg b hb
    have hshape : ∃ iid n, b = [⟨"InstanceID", CMPIValue.chars iid, CMPI_chars⟩,
        ⟨"AllocationUnits", CMPIValue.chars "Processors", CMPI_chars⟩,
        ⟨"VirtualQuantity", CMPIValue.uint64 n, CMPI_uint64⟩] := by
      simp only [List.mem_cons, List.mem_singleton, List.not_mem_nil, or_false] at hg
      rcases hg with rfl | rfl | rfl | rfl
      · exact ⟨_, _, copy3_rasd _ _ _ _ _ _ _ hb⟩
      · obtain ⟨n, hn⟩ := proc_max_rasd h ref s conns b hb
        exact ⟨_, n, hn⟩
      · exact ⟨_, _, copy3_rasd _ _ _ _ _ _ _ hb⟩
      · exact ⟨_, _, copy3_rasd _ _ _ _ _ _ _ hb⟩
    obtain ⟨iid, n, rfl⟩ := hshape
    exact ⟨rfl, by simp⟩
  · intro g hg b hb
    have hshape : ∃ iid n, b = [⟨"InstanceID", CMPIValue.chars iid, CMPI_chars⟩,
        ⟨"VirtualQuantity", CMPIValue.uint64 n, CMPI_uint64⟩] := by
      simp only [List.mem_cons, List.mem_singleton, List.not_mem_nil, or_false] at hg
      rcases hg with rfl | rfl | rfl | rfl
      · exact ⟨_, _, copy2_rasd _ _ _ _ _ hb⟩
      · obtain ⟨n, hn⟩ := net_max_rasd h ref s conns b hb
        exact ⟨_, n, hn⟩
      · exact ⟨_, _, copy2_rasd _ _ _ _ _ hb⟩
      · exact ⟨_, _, copy2_rasd _ _ _ _ _ hb⟩
    obtain ⟨iid, n, rfl⟩ := hshape
    rfl

/-- C28 (witness). The bundle of `disk_max` on the sample host. -/
theorem bundle_units_fields_witness :
    ([⟨"InstanceID", CMPIValue.chars "Maximum", CMPI_chars⟩,
      ⟨"AllocationQuantity", CMPIValue.chars "MegaBytes", CMPI_chars⟩,
      ⟨"VirtualQuantity", CMPIValue.uint64 100000, CMPI_uint64⟩] : List sdc_rasd_prop).map
        (fun p => p.field) = ["InstanceID", "AllocationQuantity", "VirtualQuantity"] :=
  ((bundle_units_fields (sample_host 8 3001000 none 100000)
      (sample_ref "Xen_AllocationCapabilities" "DiskPool/0") status_ok []).1
    disk_max (by simp)
    [⟨"InstanceID", CMPIValue.chars "Maximum", CMPI_chars⟩,
     ⟨"AllocationQuantity", CMPIValue.chars "MegaBytes", CMPI_chars⟩,
     ⟨"VirtualQuantity", CMPIValue.uint64 100000, CMPI_uint64⟩] (by decide)).1

/-! ### The capability instance builder on the resolver table -/

theorem sdc_rasd_switch_cases (d : sdc_rasd) (i : Nat) (g : rasd_prop_func_t)
    (inst_id : String) (hsw : sdc_rasd_switch d i = some (some g, inst_id)) :
    (i = SDC_RASD_MIN ∧ d.min = some g ∧ inst_id = "Minimum") ∨
    (i = SDC_RASD_MAX ∧ d.max = some g ∧ inst_id = "Maximum") ∨
    (i = SDC_RASD_INC ∧ d.inc = some g ∧ inst_id = "Increment") ∨
    (i = SDC_RASD_DEF ∧ d.def_ = some g ∧ inst_id = "Default") := by
  unfold sdc_rasd_switch at hsw
  by_cases h0 : i = SDC_RASD_MIN
  · rw [if_pos h0] at hsw
    have := Option.some.inj hsw
    exact Or.inl ⟨h0, (Prod.mk.inj this).1, (Prod.mk.inj this).2.symm⟩
  · rw [if_neg h0] at hsw
    by_cases h1 : i = SDC_RASD_MAX
    · rw [if_pos h1] at hsw
      have := Option.some.inj hsw
      exact Or.inr (Or.inl ⟨h1, (Prod.mk.inj this).1, (Prod.mk.inj this).2.symm⟩)
    · rw [if_neg h1] at hsw
      by_cases h2 : i = SDC_RASD_INC
      · rw [if_pos h2] at hsw
        have := Option.some.inj hsw
        exact Or.inr (Or.inr (Or.inl ⟨h2, (Prod.mk.inj this).1, (Prod.mk.inj this).2.symm⟩))
      · rw [if_neg h2] at hsw
        by_cases h3 : i = SDC_RASD_DEF
        · rw [if_pos h3] at hsw
          have := Option.some.inj hsw
          exact Or.inr (Or.inr (Or.inr ⟨h3, (Prod.mk.inj this).1, (Prod.mk.inj this).2.symm⟩))
        · rw [if_neg h3] at hsw
          exact absurd hsw (by simp)

theorem copy3_table (s : CMPIStatus) (conns : List virConnectPtr) (iid ut units : String)
    (n : Nat) (b : List sdc_rasd_prop) (hu : ut = "AllocationUnits" ∨ ut = "AllocationQuantity")
    (hb : (copy_rasd
      [⟨"InstanceID", CMPIValue.chars iid, CMPI_chars⟩,
       ⟨ut, CMPIValue.chars units, CMPI_chars⟩,
       ⟨"VirtualQuantity", CMPIValue.uint64 n, CMPI_uint64⟩] s conns).rasd = some b) :
    table_bundle iid b :=
  Or.inr ⟨ut, units, n, hu, copy3_rasd s conns iid ut units n b hb⟩

theorem copy2_table (s : CMPIStatus) (conns : List virConnectPtr) (iid : String)
    (n : Nat) (b : List sdc_rasd_prop)
    (hb : (copy_rasd
      [⟨"InstanceID", CMPIValue.chars iid, CMPI_chars⟩,
       ⟨"VirtualQuantity", CMPIValue.uint64 n, CMPI_uint64⟩] s conns).rasd = some b) :
    table_bundle iid b :=
  Or.inl ⟨n, copy2_rasd s conns iid n b hb⟩

/-- Every bundle that a resolver of the table returns has the layout of the
table, with the name of its bound under InstanceID. -/
theorem table_bundle_shape (h : Host) (ref : CMPIObjectPath) (s : CMPIStatus)
    (conns : List virConnectPtr) (d : sdc_rasd) (i : Nat) (g : rasd_prop_func_t)
    (inst_id : String) (b : List sdc_rasd_prop) (hd : d ∈ sdc_rasd_list)
    (hsw : sdc_rasd_switch d i = some (some g, inst_id))
    (hb : (g h ref s conns).rasd = some b) :
    table_bundle inst_id b := by
  simp only [sdc_rasd_list, List.mem_cons, List.mem_singleton, List.not_mem_nil, or_false] at hd
  rcases sdc_rasd_switch_cases d i g inst_id hsw with
    ⟨_, hg, rfl⟩ | ⟨_, hg, rfl⟩ | ⟨_, hg, rfl⟩ | ⟨_, hg, rfl⟩
  · rcases hd with rfl | rfl | rfl | rfl <;> cases hg
    · exact copy3_table _ _ _ _ _ _ _ (Or.inl rfl) hb
    · exact copy3_table _ _ _ _ _ _ _ (Or.inl rfl) hb
    · exact copy2_table _ _ _ _ _ hb
    · exact copy3_table _ _ _ _ _ _ _ (Or.inr rfl) hb
  · rcases hd with rfl | rfl | rfl | rfl <;> cases hg
    · exact copy3_table _ _ _ _ _ _ _ (Or.inl rfl) hb
    · obtain ⟨n, hn⟩ := proc_max_rasd h ref s conns b hb
      exact Or.inr ⟨_, _, n, Or.inl rfl, hn⟩
    · obtain ⟨n, hn⟩ := net_max_rasd h ref s conns b hb
      exact Or.inl ⟨n, hn⟩
    · obtain ⟨n, hn⟩ := disk_max_rasd h ref s conns b hb
      exact Or.inr ⟨_, _, n, Or.inr rfl, hn⟩
  · rcases hd with rfl | rfl | rfl | rfl <;> cases hg
    · exact copy3_table _ _ _ _ _ _ _ (Or.inl rfl) hb
    · exact copy3_table _ _ _ _ _ _ _ (Or.inl rfl) hb
    · exact copy2_table _ _ _ _ _ hb
    · exact copy3_table _ _ _ _ _ _ _ (Or.inr rfl) hb
  · rcases hd with rfl | rfl | rfl | rfl <;> cases hg
    · exact copy3_table _ _ _ _ _ _ _ (Or.inl rfl) hb
    · exact copy3_table _ _ _ _ _ _ _ (Or.inl rfl) hb
    · exact copy2_table _ _ _ _ _ hb
    · exact copy3_table _ _ _ _ _ _ _ (Or.inr rfl) hb

theorem table_bundle_for (inst_id : String) (b : List sdc_rasd_prop)
    (hb : table_bundle inst_id b) : bundle_for inst_id b := by
  rcases hb with ⟨n, rfl⟩ | ⟨ut, units, n, hu, rfl⟩
  · exact (bundle2_facts inst_id n).1
  · exact (bundle3_facts inst_id units ut n hu).1

/-- On an instance on which a bundle of the table has been set, every field of
the bundle reads the value of the bundle. -/
theorem table_bundle_set (inst_id : String) (b : List sdc_rasd_prop)
    (hb : table_bundle inst_id b) (inst : CMPIInstance) :
    ∀ p ∈ b, CMGetProperty (set_rasd_props inst b) p.field = some p.value := by
  rcases hb with ⟨n, rfl⟩ | ⟨ut, units, n, hu, rfl⟩
  · intro p hp
    simp only [List.mem_cons, List.mem_singleton, List.not_mem_nil, or_false] at hp
    rcases hp with rfl | rfl
    · show CMGetProperty (CMSetProperty (CMSetProperty inst "InstanceID" _)
        "VirtualQuantity" _) "InstanceID" = _
      rw [CMGetProperty_set_ne _ _ _ _ (by decide)]
      exact CMGetProperty_set_self _ _ _
    · exact CMGetProperty_set_self _ _ _
  · have h1 : ut ≠ "InstanceID" := by rcases hu with rfl | rfl <;> decide
    have h2 : "VirtualQuantity" ≠ ut := by rcases hu with rfl | rfl <;> decide
    intro p hp
    simp only [List.mem_cons, List.mem_singleton, List.not_mem_nil, or_false] at hp
    rcases hp with rfl | rfl | rfl
    · show CMGetProperty (CMSetProperty (CMSetProperty (CMSetProperty inst "InstanceID" _)
        ut _) "VirtualQuantity" _) "InstanceID" = _
      rw [CMGetProperty_set_ne _ _ _ _ (by decide), CMGetProperty_set_ne _ _ _ _ h1]
      exact CMGetProperty_set_self _ _ _
    · show CMGetProperty (CMSetProperty (CMSetProperty (CMSetProperty inst "InstanceID" _)
        ut _) "VirtualQuantity" _) ut = _
      rw [CMGetProperty_set_ne _ _ _ _ h2]
      exact CMGetProperty_set_self _ _ _
    · exact CMGetProperty_set_self _ _ _

/-- What `sdc_rasd_inst` does when `get_typed_instance` builds an instance, and
when the resource type has no class name. Let the resolver `g` selected by the
bound kind `i` in the descriptor `d` return the bundle `b` with status OK. The InstanceID text
`inst_id` selected with it is the name of the bound kind. When the resource
type of `d` has a class name and `get_typed_instance` builds the instance
`inst0`, `sdc_rasd_inst` returns `inst0` with InstanceID set to `inst_id`, then
ResourceType set to the resource type of `d`, then every field of `b` set in
order; for a descriptor of the resolver table the InstanceID of the result is
`inst_id`, its ResourceType is the resource type of `d`, and every field of `b`
reads the value of `b`. When the resource type has no class name,
`sdc_rasd_inst` returns no instance and the failure "Resource type not
known". -/
theorem sdc_rasd_inst_builds (h : Host) (s : CMPIStatus) (conns : List virConnectPtr)
    (ref : CMPIObjectPath) (d : sdc_rasd) (i : Nat) (g : rasd_prop_func_t)
    (inst_id : String) (b : List sdc_rasd_prop)
    (hsw : sdc_rasd_switch d i = some (some g, inst_id))
    (hrc : (g h ref s conns).s.rc = CMPI_RC_OK)
    (hb : (g h ref s conns).rasd = some b) :
    ((i = SDC_RASD_MIN ∧ inst_id = "Minimum") ∨ (i = SDC_RASD_MAX ∧ inst_id = "Maximum") ∨
      (i = SDC_RASD_INC ∧ inst_id = "Increment") ∨ (i = SDC_RASD_DEF ∧ inst_id = "Default")) ∧
    (∀ base inst0, rasd_classname_from_type d.resource_type = some base →
      h.get_typed_instance (CLASSNAME ref) base (NAMESPACE ref) = some inst0 →
      ∃ inst, sdc_rasd_inst h s conns ref d i =
          some { inst := some inst, s := (g h ref s conns).s, conns := (g h ref s conns).conns } ∧
        inst = set_rasd_props
          (CMSetProperty (CMSetProperty inst0 "InstanceID" (CMPIValue.chars inst_id))
            "ResourceType" (CMPIValue.uint16 d.resource_type)) b ∧
        (d ∈ sdc_rasd_list →
          cu_get_str_prop inst "InstanceID" = some inst_id ∧
          CMGetProperty inst "ResourceType" = some (CMPIValue.uint16 d.resource_type) ∧
          ∀ p ∈ b, CMGetProperty inst p.field = some p.value)) ∧
    (rasd_classname_from_type d.resource_type = none →
      sdc_rasd_inst h s conns ref d i =
        some { inst := none, s := cu_statusf CMPI_RC_ERR_FAILED "Resource type not known",
               conns := (g h ref s conns).conns } ∧
      (cu_statusf CMPI_RC_ERR_FAILED "Resource type not known").rc ≠ CMPI_RC_OK) := by
  refine ⟨?_, ?_, ?_⟩
  · rcases sdc_rasd_switch_cases d i g inst_id hsw with
      ⟨hi, _, hn⟩ | ⟨hi, _, hn⟩ | ⟨hi, _, hn⟩ | ⟨hi, _, hn⟩
    · exact Or.inl ⟨hi, hn⟩
    · exact Or.inr (Or.inl ⟨hi, hn⟩)
    · exact Or.inr (Or.inr (Or.inl ⟨hi, hn⟩))
    · exact Or.inr (Or.inr (Or.inr ⟨hi, hn⟩))
  · intro base inst0 hbase hgti
    refine ⟨_, sdc_rasd_inst_ok_eq h s conns ref d i g inst_id base inst0 b hsw hrc hb hbase hgti,
      rfl, ?_⟩
    intro hd
    have ht := table_bundle_shape h ref s conns d i g inst_id b hd hsw hb
    have hfacts := built_instance_facts inst0 inst_id d.resource_type b (table_bundle_for _ _ ht)
    exact ⟨hfacts.1, hfacts.2, table_bundle_set inst_id b ht _⟩
  · intro hbase
    refine ⟨?_, failed_rc_ne_ok _⟩
    simp only [sdc_rasd_inst, hsw]
    rw [if_neg (not_not.mpr hrc)]
    simp only [hbase]

/-- The Minimum bound of memory on the sample host, and the Minimum bound of a
descriptor of unknown type. -/
theorem sdc_rasd_inst_builds_witness :
    (∃ inst, sdc_rasd_inst (sample_host 8 3001000 none 100000) status_ok []
          (sample_ref "Xen_AllocationCapabilities" "MemoryPool/0") mem SDC_RASD_MIN =
          some { inst := some inst, s := status_ok, conns := [] } ∧
        cu_get_str_prop inst "InstanceID" = some "Minimum" ∧
        CMGetProperty inst "ResourceType" = some (CMPIValue.uint16 CIM_RES_TYPE_MEM) ∧
        CMGetProperty inst "AllocationUnits" = some (CMPIValue.chars "KiloBytes") ∧
        CMGetProperty inst "VirtualQuantity" = some (CMPIValue.uint64 65536)) ∧
    sdc_rasd_inst (sample_host 8 3001000 none 100000) status_ok []
        (sample_ref "Xen_AllocationCapabilities" "MemoryPool/0") sample_unmapped SDC_RASD_MIN =
      some { inst := none, s := cu_statusf CMPI_RC_ERR_FAILED "Resource type not known",
             conns := [] } := by
  constructor
  · obtain ⟨inst, hinst, _, hfacts⟩ :=
      (sdc_rasd_inst_builds (sample_host 8 3001000 none 100000) status_ok []
        (sample_ref "Xen_AllocationCapabilities" "MemoryPool/0") mem SDC_RASD_MIN mem_min
        "Minimum"
        [⟨"InstanceID", CMPIValue.chars "Minimum", CMPI_chars⟩,
         ⟨"AllocationUnits", CMPIValue.chars "KiloBytes", CMPI_chars⟩,
         ⟨"VirtualQuantity", CMPIValue.uint64 65536, CMPI_uint64⟩]
        rfl (by decide) (by decide)).2.1
        "MemResourceAllocationSettingData"
        { classname := "Xen_AllocationCapabilities/MemResourceAllocationSettingData",
          ns := "root/virt", props := [] }
        (by decide) (by decide)
    obtain ⟨hid, hrt, hall⟩ := hfacts (by simp [sdc_rasd_list])
    exact ⟨inst, hinst, hid, hrt,
      hall ⟨"AllocationUnits", CMPIValue.chars "KiloBytes", CMPI_chars⟩ (by simp),
      hall ⟨"VirtualQuantity", CMPIValue.uint64 65536, CMPI_uint64⟩ (by simp)⟩
  · exact ((sdc_rasd_inst_builds (sample_host 8 3001000 none 100000) status_ok []
      (sample_ref "Xen_AllocationCapabilities" "MemoryPool/0") sample_unmapped SDC_RASD_MIN
      mem_min "Minimum"
      [⟨"InstanceID", CMPIValue.chars "Minimum", CMPI_chars⟩,
       ⟨"AllocationUnits", CMPIValue.chars "KiloBytes", CMPI_chars⟩,
       ⟨"VirtualQuantity", CMPIValue.uint64 65536, CMPI_uint64⟩]
      rfl (by decide) (by decide)).2.2 (by decide)).1

/-- C22 (the code at the failing input). On the sample host whose broker builds
no instance, the Minimum resolver of memory returns a bundle with status OK and
the memory type has a class name, yet `sdc_rasd_inst` returns no instance, it
does not return at all: the `NULL` that `get_typed_instance` returned is handed
to `CMSetProperty`, without the `NULL` test that `default_vssd_instance` makes
on the same call. -/
theorem sdc_rasd_inst_null_instance :
    (mem_min sample_host_no_instances
        (sample_ref "Xen_AllocationCapabilities" "MemoryPool/0") status_ok []).s.rc =
      CMPI_RC_OK ∧
    (mem_min sample_host_no_instances
        (sample_ref "Xen_AllocationCapabilities" "MemoryPool/0") status_ok []).rasd ≠ none ∧
    rasd_classname_from_type mem.resource_type = some "MemResourceAllocationSettingData" ∧
    sdc_rasd_inst sample_host_no_instances status_ok []
        (sample_ref "Xen_AllocationCapabilities" "MemoryPool/0") mem SDC_RASD_MIN = none := by
  refine ⟨by decide, by decide, by decide, by decide⟩

/-! ### The InstanceID of a capability instance -/

/-- An instance that `sdc_rasd_inst` returns for a descriptor of the table
carries the name of a bound as InstanceID. -/
theorem sdc_rasd_inst_token (h : Host) (s : CMPIStatus) (conns : List virConnectPtr)
    (ref : CMPIObjectPath) (d : sdc_rasd) (i : Nat) (built : Built) (inst : CMPIInstance)
    (hd : d ∈ sdc_rasd_list)
    (hbuilt : sdc_rasd_inst h s conns ref d i = some built)
    (hinst : built.inst = some inst) :
    ∃ tok, cu_get_str_prop inst "InstanceID" = some tok ∧
      (tok = "Minimum" ∨ tok = "Maximum" ∨ tok = "Default" ∨ tok = "Increment") := by
  unfold sdc_rasd_inst at hbuilt
  cases hsw : sdc_rasd_switch d i with
  | none =>
    simp only [hsw] at hbuilt
    rw [← Option.some.inj hbuilt] at hinst
    exact absurd hinst (by simp)
  | some sel =>
    obtain ⟨slot, inst_id⟩ := sel
    cases slot with
    | none =>
      simp only [hsw] at hbuilt
      rw [← Option.some.inj hbuilt] at hinst
      exact absurd hinst (by simp)
    | some g =>
      simp only [hsw] at hbuilt
      by_cases hrc : (g h ref s conns).s.rc ≠ CMPI_RC_OK
      · rw [if_pos hrc] at hbuilt
        rw [← Option.some.inj hbuilt] at hinst
        exact absurd hinst (by simp)
      · rw [if_neg hrc] at hbuilt
        cases hbase : rasd_classname_from_type d.resource_type with
        | none =>
          simp only [hbase] at hbuilt
          rw [← Option.some.inj hbuilt] at hinst
          exact absurd hinst (by simp)
        | some base =>
          simp only [hbase] at hbuilt
          cases hgti : h.get_typed_instance (CLASSNAME ref) base (NAMESPACE ref) with
          | none => simp [hgti] at hbuilt
          | some inst0 =>
            cases hb : (g h ref s conns).rasd with
            | none => simp [hgti, hb] at hbuilt
            | some b =>
              simp only [hgti, hb] at hbuilt
              rw [← Option.some.inj hbuilt] at hinst
              have hi := (Option.some.inj hinst).symm
              have ht := table_bundle_shape h ref s conns d i g inst_id b hd hsw hb
              have hfacts := built_instance_facts inst0 inst_id d.resource_type b
                (table_bundle_for _ _ ht)
              refine ⟨inst_id, by rw [hi]; exact hfacts.1, ?_⟩
              rcases sdc_rasd_switch_cases d i g inst_id hsw with
                ⟨_, _, hn⟩ | ⟨_, _, hn⟩ | ⟨_, _, hn⟩ | ⟨_, _, hn⟩
              · exact Or.inl hn
              · exact Or.inr (Or.inl hn)
              · exact Or.inr (Or.inr (Or.inr hn))
              · exact Or.inr (Or.inr (Or.inl hn))

/-- Every entry of the list that the loop of `sdc_rasds_for_type` returns was in
the list before or was returned by `sdc_rasd_inst`. -/
theorem sdc_rasds_loop_members (h : Host) (ref : CMPIObjectPath) (d : sdc_rasd)
    (kinds : List Nat) (s : CMPIStatus) (list : List CMPIInstance) (conns : List virConnectPtr)
    (r : Handled) (hr : sdc_rasds_loop h ref d kinds s list conns = some r) :
    ∀ inst ∈ r.list, inst ∈ list ∨
      ∃ i s1 conns1 built, sdc_rasd_inst h s1 conns1 ref d i = some built ∧
        built.inst = some inst := by
  induction kinds generalizing s list conns with
  | nil =>
    simp only [sdc_rasds_loop] at hr
    intro inst hin
    rw [← Option.some.inj hr] at hin
    exact Or.inl hin
  | cons i rest ih =>
    simp only [sdc_rasds_loop] at hr
    cases hb : sdc_rasd_inst h s conns ref d i with
    | none => simp [hb] at hr
    | some b =>
      simp only [hb] at hr
      by_cases hrc : b.s.rc ≠ CMPI_RC_OK
      · rw [if_pos hrc] at hr
        intro inst hin
        rw [← Option.some.inj hr] at hin
        exact Or.inl hin
      · rw [if_neg hrc] at hr
        cases hbi : b.inst with
        | none =>
          simp only [hbi] at hr
          exact ih _ _ _ hr
        | some inst1 =>
          simp only [hbi] at hr
          intro inst hin
          rcases ih _ _ _ hr inst hin with h1 | h1
          · simp only [inst_list_add, List.mem_append, List.mem_singleton] at h1
            rcases h1 with h1 | h1
            · exact Or.inl h1
            · exact Or.inr ⟨i, s, conns, b, hb, by rw [hbi, h1]⟩
          · exact Or.inr h1

/-- C23 (amended). Every instance that `sdc_rasd_inst` returns for a descriptor
of the resolver table, and hence every instance of the list that
`alloc_cap_to_rasd` returns when started with an empty list, has as InstanceID
the bare name of a bound, Minimum, Maximum, Default or Increment: no prefix is
put in front of it and it holds no colon. -/
theorem capability_instance_id (h : Host) (ref : CMPIObjectPath) :
    (∀ s conns d i built inst, d ∈ sdc_rasd_list →
      sdc_rasd_inst h s conns ref d i = some built → built.inst = some inst →
      ∃ tok, cu_get_str_prop inst "InstanceID" = some tok ∧
        (tok = "Minimum" ∨ tok = "Maximum" ∨ tok = "Default" ∨ tok = "Increment") ∧
        ':' ∉ tok.data) ∧
    (∀ info conns r, alloc_cap_to_rasd h ref info [] conns = some r →
      ∀ inst ∈ r.list,
        ∃ tok, cu_get_str_prop inst "InstanceID" = some tok ∧
          (tok = "Minimum" ∨ tok = "Maximum" ∨ tok = "Default" ∨ tok = "Increment") ∧
          ':' ∉ tok.data) := by
  have hcolon : ∀ tok : String,
      (tok = "Minimum" ∨ tok = "Maximum" ∨ tok = "Default" ∨ tok = "Increment") →
      ':' ∉ tok.data := by
    intro tok ht
    rcases ht with rfl | rfl | rfl | rfl <;> decide
  constructor
  · intro s conns d i built inst hd hbuilt hinst
    obtain ⟨tok, htok, hfour⟩ := sdc_rasd_inst_token h s conns ref d i built inst hd hbuilt hinst
    exact ⟨tok, htok, hfour, hcolon tok hfour⟩
  · intro info conns r hr inst hin
    unfold alloc_cap_to_rasd at hr
    by_cases hm : ( Host.match_hypervisor_prefix h ref info) = false
    · rw [if_pos hm] at hr
      rw [← Option.some.inj hr] at hin
      exact absurd hin (List.not_mem_nil _)
    · rw [if_neg hm] at hr
      cases hid : cu_get_str_path ref "InstanceID" with
      | none =>
        simp only [hid] at hr
        rw [← Option.some.inj hr] at hin
        exact absurd hin (List.not_mem_nil _)
      | some id =>
        simp only [hid] at hr
        by_cases hu : res_type_from_pool_id id = CIM_RES_TYPE_UNKNOWN
        · rw [if_pos hu] at hr
          rw [← Option.some.inj hr] at hin
          exact absurd hin (List.not_mem_nil _)
        · rw [if_neg hu] at hr
          cases hf : sdc_rasds_for_type h ref [] (res_type_from_pool_id id) conns with
          | none => simp [hf] at hr
          | some r0 =>
            simp only [hf] at hr
            rw [← Option.some.inj hr] at hin
            simp only [List.mem_map] at hin
            obtain ⟨inst1, hin1, rfl⟩ := hin
            rw [sdc_rasds_for_type_eq] at hf
            rcases find_table (res_type_from_pool_id id) with ⟨d, hfd, hd, _⟩ | ⟨hfn, _⟩
            · rw [hfd] at hf
              rcases sdc_rasds_loop_members h ref d _ _ _ _ r0 hf inst1 hin1 with h1 | h1
              · exact absurd h1 (List.not_mem_nil _)
              · obtain ⟨i, s1, conns1, built, hbuilt, hinst⟩ := h1
                obtain ⟨tok, htok, hfour⟩ :=
                  sdc_rasd_inst_token h s1 conns1 ref d i built inst1 hd hbuilt hinst
                refine ⟨tok, ?_, hfour, hcolon tok hfour⟩
                have hget : CMGetProperty (CMSetProperty inst1 "PoolID" (CMPIValue.chars id))
                    "InstanceID" = CMGetProperty inst1 "InstanceID" :=
                  CMGetProperty_set_ne _ _ _ _ (by decide)
                simp only [cu_get_str_prop, hget] at htok ⊢
                exact htok
            · rw [hfn] at hf
              rw [← Option.some.inj hf] at hin1
              exact absurd hin1 (List.not_mem_nil _)

/-- C23 (witness for the amended claim). The instances that `alloc_cap_to_rasd`
returns for MemoryPool/0 on the sample host carry the InstanceIDs Minimum,
Maximum, Default, Increment. -/
theorem capability_instance_id_witness :
    (alloc_cap_to_rasd (sample_host 8 3001000 none 100000)
        (sample_ref "Xen_AllocationCapabilities" "MemoryPool/0") sample_info [] []).map
        (fun r => r.list.map fun i => cu_get_str_prop i "InstanceID") =
      some [some "Minimum", some "Maximum", some "Default", some "Increment"] ∧
    ∀ r, alloc_cap_to_rasd (sample_host 8 3001000 none 100000)
        (sample_ref "Xen_AllocationCapabilities" "MemoryPool/0") sample_info [] [] = some r →
      ∀ inst ∈ r.list,
        ∃ tok, cu_get_str_prop inst "InstanceID" = some tok ∧
          (tok = "Minimum" ∨ tok = "Maximum" ∨ tok = "Default" ∨ tok = "Increment") ∧
          ':' ∉ tok.data :=
  ⟨by decide,
   (capability_instance_id (sample_host 8 3001000 none 100000)
      (sample_ref "Xen_AllocationCapabilities" "MemoryPool/0")).2 sample_info []⟩

/-- C23 (counterexample). The Minimum bound of memory that `sdc_rasd_inst`
builds on the sample host has the InstanceID "Minimum": there is no backend
prefix and no colon in it. -/
theorem capability_instance_id_bare :
    (sdc_rasd_inst (sample_host 8 3001000 none 100000) status_ok []
        (sample_ref "Xen_AllocationCapabilities" "MemoryPool/0") mem SDC_RASD_MIN).map
        (fun built => built.inst.map fun i => cu_get_str_prop i "InstanceID") =
      some (some (some "Minimum")) ∧
    ':' ∉ "Minimum".data := by
  refine ⟨by decide, by decide⟩

/-! ### Open connections -/

theorem net_max_xen_conns (h : Host) (ref : CMPIObjectPath) (s : CMPIStatus)
    (conns : List virConnectPtr) : (net_max_xen h ref s conns).2.2 = conns := by
  have hclose : ∀ c1 : Option virConnectPtr,
      virConnectClose c1 (match c1 with
        | none => conns
        | some conn => conn :: conns) = conns := by
    intro c1
    cases c1 with
    | none => rfl
    | some conn => exact erase_head conn conns
  simp only [net_max_xen, hclose]
  split_ifs <;> rfl

theorem vsmc_to_vssd_conns (h : Host) (ref : CMPIObjectPath) (info : std_assoc_info)
    (list : List CMPIInstance) (conns : List virConnectPtr) :
    (vsmc_to_vssd h ref info list conns).conns = conns := by
  cases hc : (h.connect_by_classname (CLASSNAME ref)).1 with
  | none => simp only [vsmc_to_vssd, hc, virConnectClose]
  | some conn => simp only [vsmc_to_vssd, hc, erase_head]

theorem rasd_to_pool_conns (h : PoolHost) (ref : CMPIObjectPath) (info : std_assoc_info)
    (list : List CMPIInstance) (conns : List virConnectPtr) :
    (rasd_to_pool h ref info list conns).conns = conns := by
  unfold rasd_to_pool
  by_cases hm : ( Host.match_hypervisor_prefix h.toHost ref info) = false
  · rw [if_pos hm]
  · rw [if_neg hm]
    cases ht : h.rasd_type_from_classname (CLASSNAME ref) with
    | none => simp only [ht, virConnectClose]
    | some type =>
      cases hid : cu_get_str_path ref "InstanceID" with
      | none => simp only [ht, hid, virConnectClose]
      | some id =>
        cases hp : h.pool_member_of (CLASSNAME ref) type (some id) with
        | none => simp only [ht, hid, hp, virConnectClose]
        | some poolid =>
          cases hc : (h.connect_by_classname (CLASSNAME ref)).1 with
          | none => simp only [ht, hid, hp, hc, virConnectClose]
          | some conn =>
            cases hg : h.get_pool_by_id conn poolid (NAMESPACE ref) with
            | none => simp only [ht, hid, hp, hc, hg, erase_head]
            | some pool => simp only [ht, hid, hp, hc, hg, erase_head]

theorem rasds_from_pool_conns (h : PoolHost) (type : Nat) (ref : CMPIObjectPath)
    (poolid : String) (list : List CMPIInstance) (conns : List virConnectPtr) (r : Counted)
    (hr : rasds_from_pool h type ref poolid list conns = some r) : r.conns = conns := by
  cases hc : (h.connect_by_classname (CLASSNAME ref)).1 with
  | none =>
    simp only [rasds_from_pool, hc] at hr
    rw [← Option.some.inj hr]
  | some conn =>
    rw [rasds_from_pool_connected h type ref poolid list conns conn hc] at hr
    cases hl : rasds_from_pool_loop h type ref poolid (h.get_domain_list conn) list with
    | none => simp [hl] at hr
    | some list1 =>
      rw [hl] at hr
      rw [← Option.some.inj hr]

/-- When the connection is obtained, `proc_max` returns with it still open. -/
theorem proc_max_conns (h : Host) (ref : CMPIObjectPath) (s : CMPIStatus)
    (conns : List virConnectPtr) (conn : virConnectPtr)
    (hc : (h.connect_by_classname (CLASSNAME ref)).1 = some conn) :
    (proc_max h ref s conns).conns = conn :: conns := by
  simp only [proc_max, hc]
  rfl

/-- When the InstanceID is read and the connection obtained, `disk_max` returns
with the connection still open, on every path. -/
theorem disk_max_conns (h : Host) (ref : CMPIObjectPath) (s : CMPIStatus)
    (conns : List virConnectPtr) (conn : virConnectPtr) (id : String)
    (hid : cu_get_str_path ref "InstanceID" = some id)
    (hc : (h.connect_by_classname (CLASSNAME ref)).1 = some conn) :
    (disk_max h ref s conns).conns = conn :: conns := by
  simp only [disk_max, hid, hc]
  split_ifs
  · rfl
  · rfl
  · cases cu_get_u64_prop (h.get_pool_by_name ref id).2 "Capacity" <;> rfl

/-- C24 (the code at the failing input). On the sample host, started with no
connection open, `proc_max` returns OK and the connection 1 it opened is still
in the open set, and so for `disk_max`; `net_max_xen`, `vsmc_to_vssd`,
`rasd_to_pool` and `rasds_from_pool` return with no connection open. -/
theorem connection_left_open_by_proc_max_and_disk_max :
    (proc_max (sample_host 8 3001000 none 100000)
        (sample_ref "Xen_AllocationCapabilities" "ProcessorPool/0") status_ok []).conns = [1] ∧
    (proc_max (sample_host 8 3001000 none 100000)
        (sample_ref "Xen_AllocationCapabilities" "ProcessorPool/0") status_ok []).s.rc =
      CMPI_RC_OK ∧
    (disk_max (sample_host 8 3001000 none 100000)
        (sample_ref "Xen_AllocationCapabilities" "DiskPool/0") status_ok []).conns = [1] ∧
    (disk_max (sample_host 8 3001000 none 100000)
        (sample_ref "Xen_AllocationCapabilities" "DiskPool/0") status_ok []).s.rc =
      CMPI_RC_OK ∧
    (net_max_xen (sample_host 8 3001000 none 100000)
        (sample_ref "Xen_AllocationCapabilities" "NetworkPool/0") status_ok []).2.2 = [] ∧
    (vsmc_to_vssd (sample_host 8 3001000 none 100000)
        (sample_ref "Xen_VirtualSystemManagementCapabilities" "ManagementCapabilities")
        sample_info [] []).conns = [] ∧
    (rasd_to_pool (sample_pool_host (sample_host 8 3001000 none 100000))
        (sample_ref "Xen_ProcResourceAllocationSettingData" "dom1/proc") sample_info []
        []).conns = [] ∧
    (rasds_from_pool (sample_pool_host (sample_host 8 3001000 none 100000)) CIM_RASD_TYPE_PROC
        (sample_ref "Xen_ProcessorPool" "ProcessorPool/0") "ProcessorPool/0" [] []).map
        (fun r => r.conns) = some [] := by
  refine ⟨by decide, by decide, by decide, by decide, by decide, by decide, by decide,
    by decide⟩

/-! ### Extraction failures in the enumeration -/

theorem pool_candidates_append (h : PoolHost) (type : Nat) (ref : CMPIObjectPath)
    (pre post : List virDomainPtr) :
    pool_candidates h type ref (pre ++ post) =
      pool_candidates h type ref pre ++ pool_candidates h type ref post := by
  induction pre with
  | nil => rfl
  | cons dom rest ih => simp [pool_candidates, ih]

theorem filter_by_pool_rc (h : PoolHost) (f : Option String → Nat → CMPIObjectPath → Int)
    (p : String) (src dest : List CMPIInstance) :
    filter_by_pool { h with rasds_for_domain_rc := f } dest src p =
      filter_by_pool h dest src p := by
  induction src generalizing dest with
  | nil => rfl
  | cons inst rest ih =>
    rw [filter_by_pool_cons, filter_by_pool_cons]
    simp only [ih]

theorem rasds_from_pool_loop_rc (h : PoolHost)
    (f : Option String → Nat → CMPIObjectPath → Int) (type : Nat) (ref : CMPIObjectPath)
    (p : String) (doms : List virDomainPtr) (list : List CMPIInstance) :
    rasds_from_pool_loop { h with rasds_for_domain_rc := f } type ref p doms list =
      rasds_from_pool_loop h type ref p doms list := by
  induction doms generalizing list with
  | nil => rfl
  | cons dom rest ih =>
    simp only [rasds_from_pool_loop, filter_by_pool_rc, ih]

/-- The result of `pool_to_rasd` does not depend on what `rasds_for_domain`
returns. -/
theorem pool_to_rasd_rc (h : PoolHost) (f : Option String → Nat → CMPIObjectPath → Int)
    (ref : CMPIObjectPath) (info : std_assoc_info) (list : List CMPIInstance)
    (conns : List virConnectPtr) :
    pool_to_rasd { h with rasds_for_domain_rc := f } ref info list conns =
      pool_to_rasd h ref info list conns := by
  simp only [pool_to_rasd, rasds_from_pool, rasds_from_pool_loop_rc]

/-- C25 (amended). In the enumeration of `rasds_from_pool` as called by
`pool_to_rasd`, what `rasds_for_domain` returns is not looked at. For a pool
reference with a matching class prefix, a recognized identifier prefix, the
connection obtained and the owning pool of every candidate determined, and for
every domain `dom` of the enumeration and every `int` results `f` of the
extraction calls: `pool_to_rasd` returns OK, and the list has grown by the
members of the pool among what the calls left for the domains before `dom`,
for `dom` itself and for the domains after `dom`, in this order. -/
theorem extraction_failure_not_reported (h : PoolHost) (ref : CMPIObjectPath)
    (info : std_assoc_info) (list : List CMPIInstance) (conns : List virConnectPtr)
    (p : String) (type : Nat) (conn : virConnectPtr) (pre post : List virDomainPtr)
    (dom : virDomainPtr)
    (hm : ( Host.match_hypervisor_prefix h.toHost ref info) = true)
    (hid : cu_get_str_path ref "InstanceID" = some p)
    (ht : pool_id_type p = some type)
    (hc : (h.connect_by_classname (CLASSNAME ref)).1 = some conn)
    (hdoms : h.get_domain_list conn = pre ++ dom :: post)
    (hall : ∀ inst ∈ pool_candidates h type ref (h.get_domain_list conn), has_pool h inst) :
    ∀ f : Option String → Nat → CMPIObjectPath → Int,
      pool_to_rasd { h with rasds_for_domain_rc := f } ref info list conns =
        some { s := CMSetStatus CMPI_RC_OK,
               list := list ++
                 ((pool_candidates h type ref pre).filter (owned_by h p) ++
                  (h.rasds_for_domain (h.virDomainGetName dom) type ref).filter (owned_by h p) ++
                  (pool_candidates h type ref post).filter (owned_by h p)),
               conns := conns } := by
  intro f
  rw [pool_to_rasd_rc, pool_to_rasd_member_list h ref info list conns p type conn hm hid ht hc hall]
  have hsplit : pool_settings h type ref p conn =
      (pool_candidates h type ref pre).filter (owned_by h p) ++
        (h.rasds_for_domain (h.virDomainGetName dom) type ref).filter (owned_by h p) ++
        (pool_candidates h type ref post).filter (owned_by h p) := by
    unfold pool_settings
    rw [hdoms, pool_candidates_append]
    simp [pool_candidates, List.filter_append]
  rw [hsplit]

/-- C25 (witness for the amended claim). On the sample pool host on which the
extraction leaves nothing for dom1, whatever the calls return, `pool_to_rasd`
returns OK for ProcessorPool/0 with the processor setting of dom2 in the list. -/
theorem extraction_failure_not_reported_witness :
    pool_to_rasd
        { sample_pool_host_failing (sample_host 8 3001000 none 100000) 0 with
          rasds_for_domain_rc := fun name _ _ => if name = some "dom1" then -1 else 1 }
        (sample_ref "Xen_ProcessorPool" "ProcessorPool/0") sample_info [] [] =
      some { s := CMSetStatus CMPI_RC_OK,
             list := [sample_rasd "Xen_ProcResourceAllocationSettingData" "dom2/proc"],
             conns := [] } :=
  (extraction_failure_not_reported
    (sample_pool_host_failing (sample_host 8 3001000 none 100000) 0)
    (sample_ref "Xen_ProcessorPool" "ProcessorPool/0") sample_info [] [] "ProcessorPool/0"
    CIM_RASD_TYPE_PROC 1 [] [2] 1 rfl (by decide) (by decide) rfl rfl
    (by
      intro inst hin type htype
      have hl : pool_candidates (sample_pool_host_failing (sample_host 8 3001000 none 100000) 0)
          CIM_RASD_TYPE_PROC (sample_ref "Xen_ProcessorPool" "ProcessorPool/0")
          ((sample_pool_host_failing (sample_host 8 3001000 none 100000) 0).get_domain_list 1) =
          [sample_rasd "Xen_ProcResourceAllocationSettingData" "dom2/proc"] := by decide
      rw [hl, List.mem_singleton] at hin
      subst hin
      have ht : (sample_pool_host_failing (sample_host 8 3001000 none 100000)
          0).rasd_type_from_classname
          (sample_rasd "Xen_ProcResourceAllocationSettingData" "dom2/proc").classname =
          some CIM_RASD_TYPE_PROC := by decide
      rw [ht] at htype
      rw [← Option.some.inj htype]
      decide)
    (fun name _ _ => if name = some "dom1" then -1 else 1)).trans (by decide)

/-- C25 (counterexample). On the sample pool host the extraction fails for the
first domain, dom1: `rasds_for_domain` leaves nothing in the list and returns
0, or -1. The enumeration of ProcessorPool/0 is not aborted at dom1: the
processor setting of the later domain dom2 is added to the result and
`pool_to_rasd` returns OK. -/
theorem later_domains_added_after_failure :
    (sample_pool_host_failing (sample_host 8 3001000 none 100000) 0).get_domain_list 1 =
      [1, 2] ∧
    (sample_pool_host_failing (sample_host 8 3001000 none 100000) 0).virDomainGetName 1 =
      some "dom1" ∧
    (sample_pool_host_failing (sample_host 8 3001000 none 100000) 0).rasds_for_domain
      (some "dom1") CIM_RASD_TYPE_PROC (sample_ref "Xen_ProcessorPool" "ProcessorPool/0") =
      [] ∧
    (sample_pool_host_failing (sample_host 8 3001000 none 100000) 0).rasds_for_domain_rc
      (some "dom1") CIM_RASD_TYPE_PROC (sample_ref "Xen_ProcessorPool" "ProcessorPool/0") =
      0 ∧
    pool_to_rasd (sample_pool_host_failing (sample_host 8 3001000 none 100000) 0)
        (sample_ref "Xen_ProcessorPool" "ProcessorPool/0") sample_info [] [] =
      some { s := CMSetStatus CMPI_RC_OK,
             list := [sample_rasd "Xen_ProcResourceAllocationSettingData" "dom2/proc"],
             conns := [] } ∧
    (sample_pool_host_failing (sample_host 8 3001000 none 100000) (-1)).rasds_for_domain_rc
      (some "dom1") CIM_RASD_TYPE_PROC (sample_ref "Xen_ProcessorPool" "ProcessorPool/0") =
      -1 ∧
    pool_to_rasd (sample_pool_host_failing (sample_host 8 3001000 none 100000) (-1))
        (sample_ref "Xen_ProcessorPool" "ProcessorPool/0") sample_info [] [] =
      some { s := CMSetStatus CMPI_RC_OK,
             list := [sample_rasd "Xen_ProcResourceAllocationSettingData" "dom2/proc"],
             conns := [] } := by
  refine ⟨by decide, by decide, by decide, by decide, by decide, by decide, by decide⟩

end LibvirtCim
